import Mathlib

/-!
# Lugdunum samples: procedural meshes

A shallow embedding of the mesh generation code of the Lugdunum sample
applications (`initSphereMesh` of sample_06 and sample_07, `initCubeMesh` of
sample_01 and sample_05) together with theorems about the generated buffers.

Modelling conventions.

* `std::vector<T>` is a `List T`; `push_back v` appends `[v]` at the end.
* `int` is `Int`.  Signed overflow is undefined behaviour in C++, so the
  arithmetic on `int` is the arithmetic of the integers.
* `static_cast<uint16_t>(v)` is `v % 65536`, kept as a `Nat`.
* `float` is an arbitrary scalar type `α` with the operations the source
  uses: the cast from `int`, `*`, `/`, the literal `2.0f`, and `std::cos`,
  `std::sin`, `lug::Math::pi<float>()`, which are passed as parameters.
  The theorems about coordinates instantiate `α` with the real numbers.
* Each C++ `for` loop is one of three loop combinators that test the loop
  condition before every iteration, exactly as the source does.
-/

/-- The vector type `lug::Math::Vec3f`. -/
structure Vec3 (α : Type) where
  x : α
  y : α
  z : α
deriving DecidableEq, Repr

/-- The vector type `lug::Math::Vec2f`. -/
structure Vec2 (α : Type) where
  x : α
  y : α
deriving DecidableEq, Repr

/-- The vector type `lug::Math::Vec4f`. -/
structure Vec4 (α : Type) where
  x : α
  y : α
  z : α
  w : α
deriving DecidableEq, Repr

/-- The loop `for (int i = start; i <= bound; ++i) body`, started at `i`. -/
def forUpTo {σ : Type} (bound : Int) (body : Int → σ → σ) (i : Int) (s : σ) : σ :=
  if i ≤ bound then forUpTo bound body (i + 1) (body i s) else s
termination_by (bound + 1 - i).toNat
decreasing_by omega

/-- The loop `for (int i = start; i < bound; ++i) body`, started at `i`. -/
def forBelow {σ : Type} (bound : Int) (body : Int → σ → σ) (i : Int) (s : σ) : σ :=
  if i < bound then forBelow bound body (i + 1) (body i s) else s
termination_by (bound - i).toNat
decreasing_by omega

/-- The loop `for (int i = start; i >= 0; --i) body`, started at `i`. -/
def forDownToZero {σ : Type} (body : Int → σ → σ) (i : Int) (s : σ) : σ :=
  if i ≥ 0 then forDownToZero body (i - 1) (body i s) else s
termination_by (i + 1).toNat
decreasing_by omega

/-- The conversion `static_cast<uint16_t>(v)` of an `int`. -/
def castUInt16 (v : Int) : Nat := (v % 65536).toNat

namespace Sample06

/-- The vectors filled by sample_06's `initSphereMesh`. -/
structure SphereBuffers (α : Type) where
  positions : List (Vec3 α)
  normals : List (Vec3 α)
  indices : List Nat

/-- The body of the inner vertex loop of sample_06's `initSphereMesh`. -/
def sphereVertex {α : Type} [IntCast α] [Mul α] [Div α] [OfNat α 2]
    (cos sin : α → α) (pi : α) (X_SEGMENTS Y_SEGMENTS : Int) (y x : Int)
    (s : SphereBuffers α) : SphereBuffers α :=
  let xSegment : α := (x : α) / (X_SEGMENTS : α)
  let ySegment : α := (y : α) / (Y_SEGMENTS : α)
  let xPos := cos (xSegment * 2 * pi) * sin (ySegment * pi)
  let yPos := cos (ySegment * pi)
  let zPos := sin (xSegment * 2 * pi) * sin (ySegment * pi)
  let s : SphereBuffers α := { s with positions := s.positions ++ [Vec3.mk xPos yPos zPos] }
  { s with normals := s.normals ++ [Vec3.mk xPos yPos zPos] }

/-- The vertex loop of sample_06's `initSphereMesh`. -/
def sphereVertexLoop {α : Type} [IntCast α] [Mul α] [Div α] [OfNat α 2]
    (cos sin : α → α) (pi : α) (X_SEGMENTS Y_SEGMENTS : Int)
    (s : SphereBuffers α) : SphereBuffers α :=
  forUpTo Y_SEGMENTS (fun y s =>
    forUpTo X_SEGMENTS (sphereVertex cos sin pi X_SEGMENTS Y_SEGMENTS y) 0 s) 0 s

/-- One pass of the body of the outer index loop of sample_06's
`initSphereMesh`: the row `y` is pushed in the direction chosen by
`oddRow`, then `oddRow` is toggled.  The state is the pair of `oddRow` and the `indices` vector. -/
def sphereIndexRow (X_SEGMENTS : Int) (y : Int) (st : Bool × List Nat) : Bool × List Nat :=
  let oddRow := st.1
  let indices := st.2
  let indices :=
    if !oddRow then
      forUpTo X_SEGMENTS (fun x indices =>
        let indices := indices ++ [castUInt16 ((y + 1) * (X_SEGMENTS + 1) + x)]
        indices ++ [castUInt16 (y * (X_SEGMENTS + 1) + x)]) 0 indices
    else
      forDownToZero (fun x indices =>
        let indices := indices ++ [castUInt16 (y * (X_SEGMENTS + 1) + x)]
        indices ++ [castUInt16 ((y + 1) * (X_SEGMENTS + 1) + x)]) X_SEGMENTS indices
  (!oddRow, indices)

/-- The index loop of sample_06's `initSphereMesh`, entered with
`bool oddRow = false` and the current `indices` vector; it gives the final
`oddRow` and `indices`. -/
def sphereIndexLoop (X_SEGMENTS Y_SEGMENTS : Int) (indices : List Nat) : Bool × List Nat :=
  forBelow Y_SEGMENTS (sphereIndexRow X_SEGMENTS) 0 (false, indices)

/-- The block "Generate positions / normals / indices" of sample_06's
`initSphereMesh`, with the two segment counts as parameters (the source
fixes both at 64). -/
def initSphereMesh {α : Type} [IntCast α] [Mul α] [Div α] [OfNat α 2]
    (cos sin : α → α) (pi : α) (X_SEGMENTS Y_SEGMENTS : Int) : SphereBuffers α :=
  let s := sphereVertexLoop cos sin pi X_SEGMENTS Y_SEGMENTS ⟨[], [], []⟩
  { s with indices := (sphereIndexLoop X_SEGMENTS Y_SEGMENTS s.indices).2 }

/-- The value `{xPos, yPos, zPos}` computed by the body of the inner vertex
loop of sample_06's `initSphereMesh` at the loop counters `y`, `x`. -/
def spherePosition {α : Type} [IntCast α] [Mul α] [Div α] [OfNat α 2]
    (cos sin : α → α) (pi : α) (X_SEGMENTS Y_SEGMENTS : Int) (y x : Int) : Vec3 α :=
  let xSegment : α := (x : α) / (X_SEGMENTS : α)
  let ySegment : α := (y : α) / (Y_SEGMENTS : α)
  let xPos := cos (xSegment * 2 * pi) * sin (ySegment * pi)
  let yPos := cos (ySegment * pi)
  let zPos := sin (xSegment * 2 * pi) * sin (ySegment * pi)
  Vec3.mk xPos yPos zPos

end Sample06

namespace Sample07

/-- The vectors filled by sample_07's `initSphereMesh`. -/
structure SphereBuffers (α : Type) where
  positions : List (Vec3 α)
  normals : List (Vec3 α)
  uv : List (Vec2 α)
  indices : List Nat

/-- The body of the inner vertex loop of sample_07's `initSphereMesh`. -/
def sphereVertex {α : Type} [IntCast α] [Mul α] [Div α] [OfNat α 2]
    (cos sin : α → α) (pi : α) (X_SEGMENTS Y_SEGMENTS : Int) (y x : Int)
    (s : SphereBuffers α) : SphereBuffers α :=
  let xSegment : α := (x : α) / (X_SEGMENTS : α)
  let ySegment : α := (y : α) / (Y_SEGMENTS : α)
  let xPos := cos (xSegment * 2 * pi) * sin (ySegment * pi)
  let yPos := cos (ySegment * pi)
  let zPos := sin (xSegment * 2 * pi) * sin (ySegment * pi)
  let s : SphereBuffers α := { s with positions := s.positions ++ [Vec3.mk xPos yPos zPos] }
  let s : SphereBuffers α := { s with uv := s.uv ++ [Vec2.mk xSegment ySegment] }
  { s with normals := s.normals ++ [Vec3.mk xPos yPos zPos] }

/-- The vertex loop of sample_07's `initSphereMesh`. -/
def sphereVertexLoop {α : Type} [IntCast α] [Mul α] [Div α] [OfNat α 2]
    (cos sin : α → α) (pi : α) (X_SEGMENTS Y_SEGMENTS : Int)
    (s : SphereBuffers α) : SphereBuffers α :=
  forUpTo Y_SEGMENTS (fun y s =>
    forUpTo X_SEGMENTS (sphereVertex cos sin pi X_SEGMENTS Y_SEGMENTS y) 0 s) 0 s

/-- One pass of the body of the outer index loop of sample_07's
`initSphereMesh`: the row `y` is pushed in the direction chosen by
`oddRow`, then `oddRow` is toggled.  The state is the pair of `oddRow` and the `indices` vector. -/
def sphereIndexRow (X_SEGMENTS : Int) (y : Int) (st : Bool × List Nat) : Bool × List Nat :=
  let oddRow := st.1
  let indices := st.2
  let indices :=
    if !oddRow then
      forUpTo X_SEGMENTS (fun x indices =>
        let indices := indices ++ [castUInt16 ((y + 1) * (X_SEGMENTS + 1) + x)]
        indices ++ [castUInt16 (y * (X_SEGMENTS + 1) + x)]) 0 indices
    else
      forDownToZero (fun x indices =>
        let indices := indices ++ [castUInt16 (y * (X_SEGMENTS + 1) + x)]
        indices ++ [castUInt16 ((y + 1) * (X_SEGMENTS + 1) + x)]) X_SEGMENTS indices
  (!oddRow, indices)

/-- The index loop of sample_07's `initSphereMesh`, entered with
`bool oddRow = false` and the current `indices` vector; it gives the final
`oddRow` and `indices`. -/
def sphereIndexLoop (X_SEGMENTS Y_SEGMENTS : Int) (indices : List Nat) : Bool × List Nat :=
  forBelow Y_SEGMENTS (sphereIndexRow X_SEGMENTS) 0 (false, indices)

/-- The block "Generate positions / normals / indices" of sample_07's
`initSphereMesh`, with the two segment counts as parameters (the source
fixes both at 64). -/
def initSphereMesh {α : Type} [IntCast α] [Mul α] [Div α] [OfNat α 2]
    (cos sin : α → α) (pi : α) (X_SEGMENTS Y_SEGMENTS : Int) : SphereBuffers α :=
  let s := sphereVertexLoop cos sin pi X_SEGMENTS Y_SEGMENTS ⟨[], [], [], []⟩
  { s with indices := (sphereIndexLoop X_SEGMENTS Y_SEGMENTS s.indices).2 }

/-- The value `{xPos, yPos, zPos}` computed by the body of the inner vertex
loop of sample_07's `initSphereMesh` at the loop counters `y`, `x`. -/
def spherePosition {α : Type} [IntCast α] [Mul α] [Div α] [OfNat α 2]
    (cos sin : α → α) (pi : α) (X_SEGMENTS Y_SEGMENTS : Int) (y x : Int) : Vec3 α :=
  let xSegment : α := (x : α) / (X_SEGMENTS : α)
  let ySegment : α := (y : α) / (Y_SEGMENTS : α)
  let xPos := cos (xSegment * 2 * pi) * sin (ySegment * pi)
  let yPos := cos (ySegment * pi)
  let zPos := sin (xSegment * 2 * pi) * sin (ySegment * pi)
  Vec3.mk xPos yPos zPos

/-- The value `{xSegment, ySegment}` computed by the body of the inner vertex
loop of sample_07's `initSphereMesh` at the loop counters `y`, `x`. -/
def sphereTexCoord {α : Type} [IntCast α] [Div α]
    (X_SEGMENTS Y_SEGMENTS : Int) (y x : Int) : Vec2 α :=
  let xSegment : α := (x : α) / (X_SEGMENTS : α)
  let ySegment : α := (y : α) / (Y_SEGMENTS : α)
  Vec2.mk xSegment ySegment

end Sample07

namespace Sample01

/-- The four constant vectors of sample_01's `initCubeMesh`. -/
structure CubeBuffers where
  positions : List (Vec3 Int)
  normals : List (Vec3 Int)
  colors : List (Vec4 Int)
  indices : List Nat

/-- The tables `positions`, `normals`, `colors` and `indices` of sample_01's
`initCubeMesh`, in the order of the source.  Every `float` literal of the
tables is `-1.0`, `0.0` or `1.0` and is written as the integer it
denotes. -/
def initCubeMesh : CubeBuffers where
  positions := [
      -- Back
      Vec3.mk (-1) (-1) (-1),
      Vec3.mk 1 (-1) (-1),
      Vec3.mk (-1) 1 (-1),
      Vec3.mk 1 1 (-1),
      -- Front
      Vec3.mk (-1) (-1) 1,
      Vec3.mk 1 (-1) 1,
      Vec3.mk (-1) 1 1,
      Vec3.mk 1 1 1,
      -- Left
      Vec3.mk (-1) (-1) (-1),
      Vec3.mk (-1) (-1) 1,
      Vec3.mk (-1) 1 (-1),
      Vec3.mk (-1) 1 1,
      -- Right
      Vec3.mk 1 (-1) (-1),
      Vec3.mk 1 (-1) 1,
      Vec3.mk 1 1 (-1),
      Vec3.mk 1 1 1,
      -- Bottom
      Vec3.mk (-1) (-1) (-1),
      Vec3.mk (-1) (-1) 1,
      Vec3.mk 1 (-1) (-1),
      Vec3.mk 1 (-1) 1,
      -- Top
      Vec3.mk (-1) 1 (-1),
      Vec3.mk (-1) 1 1,
      Vec3.mk 1 1 (-1),
      Vec3.mk 1 1 1
    ]
  normals := [
      -- Back
      Vec3.mk 0 0 (-1),
      Vec3.mk 0 0 (-1),
      Vec3.mk 0 0 (-1),
      Vec3.mk 0 0 (-1),
      -- Front
      Vec3.mk 0 0 1,
      Vec3.mk 0 0 1,
      Vec3.mk 0 0 1,
      Vec3.mk 0 0 1,
      -- Left
      Vec3.mk (-1) 0 0,
      Vec3.mk (-1) 0 0,
      Vec3.mk (-1) 0 0,
      Vec3.mk (-1) 0 0,
      -- Right
      Vec3.mk 1 0 0,
      Vec3.mk 1 0 0,
      Vec3.mk 1 0 0,
      Vec3.mk 1 0 0,
      -- Bottom
      Vec3.mk 0 (-1) 0,
      Vec3.mk 0 (-1) 0,
      Vec3.mk 0 (-1) 0,
      Vec3.mk 0 (-1) 0,
      -- Top
      Vec3.mk 0 1 0,
      Vec3.mk 0 1 0,
      Vec3.mk 0 1 0,
      Vec3.mk 0 1 0
    ]
  colors := [
      -- Back
      Vec4.mk 0 0 1 1,
      Vec4.mk 0 0 1 1,
      Vec4.mk 0 0 1 1,
      Vec4.mk 0 0 1 1,
      -- Front
      Vec4.mk 1 0 1 1,
      Vec4.mk 1 0 1 1,
      Vec4.mk 1 0 1 1,
      Vec4.mk 1 0 1 1,
      -- Left
      Vec4.mk 1 0 0 1,
      Vec4.mk 1 0 0 1,
      Vec4.mk 1 0 0 1,
      Vec4.mk 1 0 0 1,
      -- Right
      Vec4.mk 1 1 0 1,
      Vec4.mk 1 1 0 1,
      Vec4.mk 1 1 0 1,
      Vec4.mk 1 1 0 1,
      -- Bottom
      Vec4.mk 0 1 0 1,
      Vec4.mk 0 1 0 1,
      Vec4.mk 0 1 0 1,
      Vec4.mk 0 1 0 1,
      -- Top
      Vec4.mk 0 1 1 1,
      Vec4.mk 0 1 1 1,
      Vec4.mk 0 1 1 1,
      Vec4.mk 0 1 1 1
    ]
  indices := [
      -- Back
      0, 2, 1,
      1, 2, 3,
      -- Front
      6, 4, 5,
      7, 6, 5,
      -- Left
      10, 8, 9,
      11, 10, 9,
      -- Right
      14, 13, 12,
      15, 13, 14,
      -- Bottom
      17, 16, 19,
      19, 16, 18,
      -- Top
      23, 20, 21,
      22, 20, 23
    ]

end Sample01

namespace Sample05

/-- The four constant vectors of sample_05's `initCubeMesh`. -/
structure CubeBuffers where
  positions : List (Vec3 Int)
  normals : List (Vec3 Int)
  colors : List (Vec4 Int)
  indices : List Nat

/-- The tables `positions`, `normals`, `colors` and `indices` of sample_05's
`initCubeMesh`, in the order of the source.  Every `float` literal of the
tables is `-1.0`, `0.0` or `1.0` and is written as the integer it
denotes. -/
def initCubeMesh : CubeBuffers where
  positions := [
      -- Back
      Vec3.mk (-1) (-1) (-1),
      Vec3.mk 1 (-1) (-1),
      Vec3.mk (-1) 1 (-1),
      Vec3.mk 1 1 (-1),
      -- Front
      Vec3.mk (-1) (-1) 1,
      Vec3.mk 1 (-1) 1,
      Vec3.mk (-1) 1 1,
      Vec3.mk 1 1 1,
      -- Left
      Vec3.mk (-1) (-1) (-1),
      Vec3.mk (-1) (-1) 1,
      Vec3.mk (-1) 1 (-1),
      Vec3.mk (-1) 1 1,
      -- Right
      Vec3.mk 1 (-1) (-1),
      Vec3.mk 1 (-1) 1,
      Vec3.mk 1 1 (-1),
      Vec3.mk 1 1 1,
      -- Bottom
      Vec3.mk (-1) (-1) (-1),
      Vec3.mk (-1) (-1) 1,
      Vec3.mk 1 (-1) (-1),
      Vec3.mk 1 (-1) 1,
      -- Top
      Vec3.mk (-1) 1 (-1),
      Vec3.mk (-1) 1 1,
      Vec3.mk 1 1 (-1),
      Vec3.mk 1 1 1
    ]
  normals := [
      -- Back
      Vec3.mk 0 0 (-1),
      Vec3.mk 0 0 (-1),
      Vec3.mk 0 0 (-1),
      Vec3.mk 0 0 (-1),
      -- Front
      Vec3.mk 0 0 1,
      Vec3.mk 0 0 1,
      Vec3.mk 0 0 1,
      Vec3.mk 0 0 1,
      -- Left
      Vec3.mk (-1) 0 0,
      Vec3.mk (-1) 0 0,
      Vec3.mk (-1) 0 0,
      Vec3.mk (-1) 0 0,
      -- Right
      Vec3.mk 1 0 0,
      Vec3.mk 1 0 0,
      Vec3.mk 1 0 0,
      Vec3.mk 1 0 0,
      -- Bottom
      Vec3.mk 0 (-1) 0,
      Vec3.mk 0 (-1) 0,
      Vec3.mk 0 (-1) 0,
      Vec3.mk 0 (-1) 0,
      -- Top
      Vec3.mk 0 1 0,
      Vec3.mk 0 1 0,
      Vec3.mk 0 1 0,
      Vec3.mk 0 1 0
    ]
  colors := [
      -- Back
      Vec4.mk 0 0 1 1,
      Vec4.mk 0 0 1 1,
      Vec4.mk 0 0 1 1,
      Vec4.mk 0 0 1 1,
      -- Front
      Vec4.mk 1 0 1 1,
      Vec4.mk 1 0 1 1,
      Vec4.mk 1 0 1 1,
      Vec4.mk 1 0 1 1,
      -- Left
      Vec4.mk 1 0 0 1,
      Vec4.mk 1 0 0 1,
      Vec4.mk 1 0 0 1,
      Vec4.mk 1 0 0 1,
      -- Right
      Vec4.mk 1 1 0 1,
      Vec4.mk 1 1 0 1,
      Vec4.mk 1 1 0 1,
      Vec4.mk 1 1 0 1,
      -- Bottom
      Vec4.mk 0 1 0 1,
      Vec4.mk 0 1 0 1,
      Vec4.mk 0 1 0 1,
      Vec4.mk 0 1 0 1,
      -- Top
      Vec4.mk 0 1 1 1,
      Vec4.mk 0 1 1 1,
      Vec4.mk 0 1 1 1,
      Vec4.mk 0 1 1 1
    ]
  indices := [
      -- Back
      0, 2, 1,
      1, 2, 3,
      -- Front
      6, 4, 5,
      7, 6, 5,
      -- Left
      10, 8, 9,
      11, 10, 9,
      -- Right
      14, 13, 12,
      15, 13, 14,
      -- Bottom
      17, 16, 19,
      19, 16, 18,
      -- Top
      23, 20, 21,
      22, 20, 23
    ]

end Sample05

/-- The row `y` of the index stream in the words of the specification: on
an even row `x` ascends over `0..W` and each step gives `(y+1)*(W+1)+x` then
`y*(W+1)+x`; on an odd row `x` descends over `W..0` and each step gives
`y*(W+1)+x` then `(y+1)*(W+1)+x`. -/
def zigzagRow (W y : Nat) : List Nat :=
  if y % 2 = 0 then
    (List.range (W + 1)).flatMap (fun x => [(y + 1) * (W + 1) + x, y * (W + 1) + x])
  else
    (List.range (W + 1)).reverse.flatMap (fun x => [y * (W + 1) + x, (y + 1) * (W + 1) + x])

/-- The index stream in the words of the specification: the rows
`0 .. H-1` of `zigzagRow`, concatenated in order. -/
def zigzagStream (W H : Nat) : List Nat :=
  (List.range H).flatMap (zigzagRow W)

/-! ## The primitive sets handed to the mesh builder -/

/-- The conversion `static_cast<uint32_t>(n)` of a `size_t`. -/
def castUInt32 (n : Nat) : Nat := n % 4294967296

namespace Lug

/-- The enumerators of `lug::Graphics::Render::Mesh::PrimitiveSet::Mode`
that the samples pass to `setMode`. -/
inductive Mode where
  | Triangles
  | TriangleStrip
deriving DecidableEq, Repr

/-- The enumerators of `lug::Graphics::Render::Mesh::PrimitiveSet::Attribute::Type`
that the samples pass to `addAttributeBuffer`. -/
inductive AttributeType where
  | Indice
  | Position
  | Normal
  | Color
  | TexCoord
deriving DecidableEq, Repr

/-- The C++ types whose `sizeof` the samples pass to `addAttributeBuffer`. -/
inductive ElementType where
  | uint16_t
  | Vec2f
  | Vec3f
  | Vec4f
deriving DecidableEq, Repr

/-- The arguments of one call `addAttributeBuffer(data, elementSize,
elementsCount, type)`, the data pointer left out. -/
structure AttributeBuffer where
  elementSize : ElementType
  elementsCount : Nat
  type : AttributeType
deriving DecidableEq, Repr

/-- What a sample has declared on the `PrimitiveSet` it got from
`meshBuilder.addPrimitiveSet()`: the mode of the last `setMode`, if any,
and the `addAttributeBuffer` calls in order. -/
structure PrimitiveSet where
  mode : Option Mode
  attributes : List AttributeBuffer
deriving DecidableEq, Repr

/-- The primitive set as `addPrimitiveSet()` returns it, nothing declared. -/
def PrimitiveSet.fresh : PrimitiveSet := ⟨none, []⟩

/-- The call `primitiveSet->setMode(mode)`. -/
def PrimitiveSet.setMode (p : PrimitiveSet) (mode : Mode) : PrimitiveSet :=
  { p with mode := some mode }

/-- The call `primitiveSet->addAttributeBuffer(data, elementSize, elementsCount, type)`. -/
def PrimitiveSet.addAttributeBuffer (p : PrimitiveSet) (elementSize : ElementType)
    (elementsCount : Nat) (type : AttributeType) : PrimitiveSet :=
  { p with attributes := p.attributes ++ [⟨elementSize, elementsCount, type⟩] }

/-- The number of indices declared on a primitive set: the count of its
`Indice` attribute buffer. -/
def PrimitiveSet.indexCount (p : PrimitiveSet) : Option Nat :=
  (p.attributes.find? (fun a => a.type = AttributeType.Indice)).map (fun a => a.elementsCount)

end Lug

namespace Sample01

/-- The primitive set declared in the block "Build the mesh" of sample_01's
`initCubeMesh`, from the four tables. -/
def cubePrimitiveSet (b : CubeBuffers) : Lug.PrimitiveSet :=
  let primitiveSet := Lug.PrimitiveSet.fresh
  let primitiveSet := primitiveSet.setMode Lug.Mode.Triangles
  let primitiveSet := primitiveSet.addAttributeBuffer Lug.ElementType.uint16_t
    (castUInt32 b.indices.length) Lug.AttributeType.Indice
  let primitiveSet := primitiveSet.addAttributeBuffer Lug.ElementType.Vec3f
    (castUInt32 b.positions.length) Lug.AttributeType.Position
  let primitiveSet := primitiveSet.addAttributeBuffer Lug.ElementType.Vec3f
    (castUInt32 b.normals.length) Lug.AttributeType.Normal
  primitiveSet.addAttributeBuffer Lug.ElementType.Vec4f
    (castUInt32 b.colors.length) Lug.AttributeType.Color

end Sample01

namespace Sample05

/-- The primitive set declared in the block "Build the mesh" of sample_05's
`initCubeMesh`, from the four tables. -/
def cubePrimitiveSet (b : CubeBuffers) : Lug.PrimitiveSet :=
  let primitiveSet := Lug.PrimitiveSet.fresh
  let primitiveSet := primitiveSet.setMode Lug.Mode.Triangles
  let primitiveSet := primitiveSet.addAttributeBuffer Lug.ElementType.uint16_t
    (castUInt32 b.indices.length) Lug.AttributeType.Indice
  let primitiveSet := primitiveSet.addAttributeBuffer Lug.ElementType.Vec3f
    (castUInt32 b.positions.length) Lug.AttributeType.Position
  let primitiveSet := primitiveSet.addAttributeBuffer Lug.ElementType.Vec3f
    (castUInt32 b.normals.length) Lug.AttributeType.Normal
  primitiveSet.addAttributeBuffer Lug.ElementType.Vec4f
    (castUInt32 b.colors.length) Lug.AttributeType.Color

end Sample05

namespace Sample06

/-- The primitive set declared in the block "Build the mesh" of sample_06's
`initSphereMesh`, from the generated vectors. -/
def spherePrimitiveSet {α : Type} (b : SphereBuffers α) : Lug.PrimitiveSet :=
  let primitiveSet := Lug.PrimitiveSet.fresh
  let primitiveSet := primitiveSet.setMode Lug.Mode.TriangleStrip
  let primitiveSet := primitiveSet.addAttributeBuffer Lug.ElementType.uint16_t
    (castUInt32 b.indices.length) Lug.AttributeType.Indice
  let primitiveSet := primitiveSet.addAttributeBuffer Lug.ElementType.Vec3f
    (castUInt32 b.positions.length) Lug.AttributeType.Position
  primitiveSet.addAttributeBuffer Lug.ElementType.Vec3f
    (castUInt32 b.normals.length) Lug.AttributeType.Normal

end Sample06

namespace Sample07

/-- The primitive set declared in the block "Build the mesh" of sample_07's
`initSphereMesh`, from the generated vectors. -/
def spherePrimitiveSet {α : Type} (b : SphereBuffers α) : Lug.PrimitiveSet :=
  let primitiveSet := Lug.PrimitiveSet.fresh
  let primitiveSet := primitiveSet.setMode Lug.Mode.TriangleStrip
  let primitiveSet := primitiveSet.addAttributeBuffer Lug.ElementType.uint16_t
    (castUInt32 b.indices.length) Lug.AttributeType.Indice
  let primitiveSet := primitiveSet.addAttributeBuffer Lug.ElementType.Vec3f
    (castUInt32 b.positions.length) Lug.AttributeType.Position
  let primitiveSet := primitiveSet.addAttributeBuffer Lug.ElementType.Vec3f
    (castUInt32 b.normals.length) Lug.AttributeType.Normal
  primitiveSet.addAttributeBuffer Lug.ElementType.Vec2f
    (castUInt32 b.uv.length) Lug.AttributeType.TexCoord

end Sample07

/-! ## Triangles of the strip -/

/-- Entry number `2*j + b` (`j ≤ W`, `b < 2`) of the row `y` of the
specification's stream: on an even row the step `x = j` gives
`(y+1)*(W+1)+x` then `y*(W+1)+x`, on an odd row the step `x = W - j` gives
`y*(W+1)+x` then `(y+1)*(W+1)+x`. -/
def zigzagEntry (W y j b : Nat) : Nat :=
  if y % 2 = 0 then
    if b = 0 then (y + 1) * (W + 1) + j else y * (W + 1) + j
  else
    if b = 0 then y * (W + 1) + (W - j) else (y + 1) * (W + 1) + (W - j)

/-- The integer grid point `P = (i mod (W+1), i div (W+1))` of the vertex
index `i`: its column and its row. -/
def gridPoint (W : Nat) (i : Nat) : Int × Int :=
  (((i % (W + 1) : Nat) : Int), ((i / (W + 1) : Nat) : Int))

/-- The signed area `det(P1 - P0, P2 - P0)` of three grid points. -/
def signedArea (P0 P1 P2 : Int × Int) : Int :=
  (P1.1 - P0.1) * (P2.2 - P0.2) - (P1.2 - P0.2) * (P2.1 - P0.1)

/-- The vertex index `r*(W+1)+c` of the grid point in row `r`, column `c`. -/
def gridIndex (W r c : Nat) : Nat := r * (W + 1) + c

/-- The entries `k, k+1, k+2` of the stream `s` are `a, b, c`. -/
def StreamTriple (s : List Nat) (k a b c : Nat) : Prop :=
  s[k]? = some a ∧ s[k + 1]? = some b ∧ s[k + 2]? = some c

/-- The triangle `{p, q, r}` occurs in the stream `s` as the set of three
consecutive entries. -/
def OccursAsTriangle (s : List Nat) (p q r : Nat) : Prop :=
  ∃ k a b c, StreamTriple s k a b c
    ∧ ∀ v, (v = a ∨ v = b ∨ v = c) ↔ (v = p ∨ v = q ∨ v = r)

/-- The triple of entries `k, k+1, k+2` of a `W x H` strip straddles a row
boundary: one of the `H-1` positions `2*(W+1)*(y+1)`, `y+1 < H`, where a row
ends and the next begins lies at `k+1` or at `k+2`. -/
def StraddlesRowBoundary (W H k : Nat) : Prop :=
  ∃ y, y + 1 < H ∧ (k + 1 = 2 * (W + 1) * (y + 1) ∨ k + 2 = 2 * (W + 1) * (y + 1))

/-! ## Initialisation of the applications, seen from the engine

The engine (`lug::...`) is external.  Each call that can fail, the base
`lug::Core::Application::init` and every `build()` of a builder, takes its
outcome from a record of engine outcomes: `true` for success, that is a
non-empty handle.  The model of `init` gives the value returned together
with the engine calls performed, in order.  The `float` arguments recorded
with a call are the rationals that the source's literals and casts denote.
The `LUG_ASSERT` on the number of render views is an assertion of the
engine on its own window; it is taken to hold and leaves no trace. -/

/-- Where the body of a function returning `bool` stands after a statement:
control goes on to the next statement with the state `s`, or a `return r`
has been executed in the state `s`. -/
inductive ControlFlow (σ : Type) where
  | next (s : σ)
  | ret (r : Bool) (s : σ)

/-- The loop `for (i = start; i < bound; ++i) body`, started at `i`, whose
body may execute a `return`, which ends the loop and the function. -/
def forBelowRet {σ : Type} (bound : Int) (body : Int → σ → ControlFlow σ) (i : Int) (s : σ) : ControlFlow σ :=
  if i < bound then
    match body i s with
    | ControlFlow.next s => forBelowRet bound body (i + 1) s
    | ControlFlow.ret r s => ControlFlow.ret r s
  else ControlFlow.next s
termination_by (bound - i).toNat
decreasing_by omega

namespace Sample06

/-- The outcomes of the engine calls of sample_06's `init` that can fail:
the base `init`, the `build()` of the scene, of the camera and of the sphere
mesh, the `build()` of the material in the pass `(row, col)` of the sphere
loops and the `build()` of the light in the pass `i` of the light loop. -/
structure Engine where
  coreInit : Bool
  scene : Bool
  camera : Bool
  sphereMesh : Bool
  material : Int → Int → Bool
  light : Int → Bool

/-- The engine calls made by sample_06's `init`.  A call that can fail
carries its outcome `ok`; a material or a light carries what its builder
was set to. -/
inductive Call where
  | coreInit (ok : Bool)
  | sceneBuild (ok : Bool)
  | cameraBuild (ok : Bool)
  | meshBuild (ok : Bool)
  | materialBuild (metallic roughness : ℚ) (ok : Bool)
  | lightBuild (color : Vec4 ℚ) (ok : Bool)
  | createSceneNode (name : String)
  | rootAttachChild (name : String)
  | attachCamera (node : String)
  | moverSetTargetNode (node : String)
  | moverSetEventSource
  | renderViewAttachCamera (view : Nat)
  | attachMeshInstance (node : String)
  | setPosition (node : String) (position : Vec3 ℚ)
  | cameraLookAt (node : String)
  | attachLight (node : String) (color : Vec4 ℚ)
deriving DecidableEq

/-- The call is one that can fail and it did: the base `init` returned
`false` or a `build()` returned an empty handle. -/
def Call.failed : Call → Bool
  | Call.coreInit ok => !ok
  | Call.sceneBuild ok => !ok
  | Call.cameraBuild ok => !ok
  | Call.meshBuild ok => !ok
  | Call.materialBuild _ _ ok => !ok
  | Call.lightBuild _ ok => !ok
  | _ => false

/-- No call of the list failed. -/
def Clean (calls : List Call) : Prop := ∀ c ∈ calls, c.failed = false

/-- The list of calls ends with a failed call, the only one that failed. -/
def StoppedAtFailure (calls : List Call) : Prop :=
  ∃ pre c, calls = pre ++ [c] ∧ c.failed = true ∧ Clean pre

namespace Application

/-- The function `Application::initSphereMesh` of sample_06, seen from the
engine.  Its block "Generate positions / normals / indices" makes no engine
call (it is `Sample06.initSphereMesh` above, and the primitive set it
declares is `Sample06.spherePrimitiveSet`); then `meshBuilder.build()` is
checked. -/
def initSphereMesh (e : Engine) (calls : List Call) : Bool × List Call :=
  let calls := calls ++ [Call.meshBuild e.sphereMesh]
  if !e.sphereMesh then (false, calls)
  else (true, calls)

/-- The block "Attach the spheres" of sample_06's `init`. -/
def attachSpheres (e : Engine) (calls : List Call) : ControlFlow (List Call) :=
  let nbRows : Int := 7
  let nbColumns : Int := 7
  let spacing : ℚ := 2.5
  forBelowRet nbRows (fun row calls =>
    let metallic : ℚ := (row : ℚ) / (nbRows : ℚ)
    forBelowRet nbColumns (fun col calls =>
      let name := "sphere" ++ toString (row * nbColumns + col)
      let calls := calls ++ [Call.createSceneNode name, Call.rootAttachChild name]
      let roughness : ℚ := if col = 0 then 0.05 else (col : ℚ) / (nbColumns : ℚ)
      let calls := calls ++ [Call.materialBuild metallic roughness (e.material row col)]
      if !e.material row col then ControlFlow.ret false calls
      else
        let calls := calls ++ [Call.attachMeshInstance name]
        let calls := calls ++ [Call.setPosition name
          (Vec3.mk (((col - nbColumns / 2 : Int) : ℚ) * spacing)
            (((row - nbRows / 2 : Int) : ℚ) * spacing) 0)]
        ControlFlow.next calls) 0 calls) 0 calls

/-- The table `lightPositions` of sample_06's `init`. -/
def lightPositions : List (Vec3 ℚ) :=
  [Vec3.mk (-10) 10 10, Vec3.mk 10 10 10, Vec3.mk (-10) (-10) 10, Vec3.mk 10 (-10) 10]

/-- The loop "Attach 4 lights" of sample_06's `init`. -/
def attachLights (e : Engine) (calls : List Call) : ControlFlow (List Call) :=
  forBelowRet 4 (fun i calls =>
    let color : Vec4 ℚ := Vec4.mk 300 300 300 1
    let calls := calls ++ [Call.lightBuild color (e.light i)]
    if !e.light i then ControlFlow.ret false calls
    else
      let name := "light" ++ toString i
      let calls := calls ++ [Call.createSceneNode name, Call.rootAttachChild name]
      let calls := calls ++ [Call.setPosition name (lightPositions.getD i.toNat (Vec3.mk 0 0 0))]
      let calls := calls ++ [Call.attachLight name color]
      ControlFlow.next calls) 0 calls

/-- The function `Application::init` of sample_06: the value it returns and
the engine calls it has made. -/
def init (e : Engine) : Bool × List Call :=
  let calls : List Call := [Call.coreInit e.coreInit]
  if !e.coreInit then (false, calls)
  else
    -- Build the scene
    let calls := calls ++ [Call.sceneBuild e.scene]
    if !e.scene then (false, calls)
    else
      -- Attach cameras
      let calls := calls ++ [Call.cameraBuild e.camera]
      if !e.camera then (false, calls)
      else
        let calls := calls ++ [Call.createSceneNode "camera", Call.rootAttachChild "camera"]
        let calls := calls ++ [Call.attachCamera "camera"]
        let calls := calls ++ [Call.moverSetTargetNode "camera", Call.moverSetEventSource]
        let calls := calls ++ [Call.renderViewAttachCamera 0]
        -- Create the sphere mesh
        match initSphereMesh e calls with
        | (false, calls) => (false, calls)
        | (true, calls) =>
          -- Attach the spheres
          match attachSpheres e calls with
          | ControlFlow.ret r calls => (r, calls)
          | ControlFlow.next calls =>
            -- Set the position of the camera
            let calls := calls ++ [Call.setPosition "camera" (Vec3.mk 0 0 25),
              Call.cameraLookAt "camera"]
            -- Attach 4 lights
            match attachLights e calls with
            | ControlFlow.ret r calls => (r, calls)
            | ControlFlow.next calls => (true, calls)

end Application

end Sample06

namespace Sample05

/-- The outcomes of the engine calls of sample_05's `init` that can fail:
the base `init` and the `build()` of the scene, of the first camera, of the
second camera, of the cube mesh, of the material, of the directional light
and of the point light. -/
structure Engine where
  coreInit : Bool
  scene : Bool
  camera : Bool
  camera2 : Bool
  cubeMesh : Bool
  material : Bool
  directionalLight : Bool
  pointLight : Bool

/-- The engine calls made by sample_05's `init`.  A call that can fail
carries its outcome `ok`; a call that is handed a camera carries whether
that handle is non-empty. -/
inductive Call where
  | coreInit (ok : Bool)
  | sceneBuild (ok : Bool)
  | cameraBuild (ok : Bool)
  | meshBuild (ok : Bool)
  | materialBuild (ok : Bool)
  | lightBuild (color : Vec4 ℚ) (ok : Bool)
  | createSceneNode (name : String)
  | rootAttachChild (name : String)
  | attachCamera (node : String) (cameraNonEmpty : Bool)
  | moverSetTargetNode (node : String)
  | moverSetEventSource
  | renderViewAttachCamera (view : Nat) (cameraNonEmpty : Bool)
  | attachMeshInstance (node : String)
  | rootAttachLight (color : Vec4 ℚ)
  | attachLight (node : String) (color : Vec4 ℚ)
  | setPosition (node : String) (position : Vec3 ℚ)
  | cameraLookAt (node : String)
deriving DecidableEq

namespace Application

/-- The function `Application::initCubeMesh` of sample_05, seen from the
engine.  The tables are `Sample05.initCubeMesh` above and the primitive set
is `Sample05.cubePrimitiveSet`; then `meshBuilder.build()` is checked. -/
def initCubeMesh (e : Engine) (calls : List Call) : Bool × List Call :=
  let calls := calls ++ [Call.meshBuild e.cubeMesh]
  if !e.cubeMesh then (false, calls)
  else (true, calls)

/-- The function `Application::init` of sample_05: the value it returns and
the engine calls it has made.  The handles `camera` and `camera2` are
modelled by whether they are non-empty. -/
def init (e : Engine) : Bool × List Call :=
  let calls : List Call := [Call.coreInit e.coreInit]
  if !e.coreInit then (false, calls)
  else
    -- Build the scene
    let calls := calls ++ [Call.sceneBuild e.scene]
    if !e.scene then (false, calls)
    else
      -- Camera 1
      let camera := e.camera
      let calls := calls ++ [Call.cameraBuild camera]
      if !camera then (false, calls)
      else
        let calls := calls ++ [Call.createSceneNode "camera", Call.rootAttachChild "camera"]
        let calls := calls ++ [Call.attachCamera "camera" camera]
        let calls := calls ++ [Call.moverSetTargetNode "camera", Call.moverSetEventSource]
        -- Camera 2
        let camera2 := e.camera2
        let calls := calls ++ [Call.cameraBuild camera2]
        -- the source tests `camera` here: `if (!camera)`
        if !camera then (false, calls)
        else
          let calls := calls ++ [Call.createSceneNode "camera2", Call.rootAttachChild "camera2"]
          let calls := calls ++ [Call.attachCamera "camera2" camera2]
          -- Attach camera to RenderView
          let calls := calls ++ [Call.renderViewAttachCamera 0 camera]
          let calls := calls ++ [Call.renderViewAttachCamera 1 camera2]
          -- Create the cube mesh
          match initCubeMesh e calls with
          | (false, calls) => (false, calls)
          | (true, calls) =>
            -- Attach the cube mesh
            let calls := calls ++ [Call.materialBuild e.material]
            if !e.material then (false, calls)
            else
              let calls := calls ++ [Call.createSceneNode "cube", Call.rootAttachChild "cube"]
              let calls := calls ++ [Call.attachMeshInstance "cube"]
              -- Attach a directional light
              let calls := calls ++ [Call.lightBuild (Vec4.mk 0.01 0.01 0.01 1) e.directionalLight]
              if !e.directionalLight then (false, calls)
              else
                let calls := calls ++ [Call.rootAttachLight (Vec4.mk 0.01 0.01 0.01 1)]
                -- Attach a point light
                let calls := calls ++ [Call.lightBuild (Vec4.mk 20 20 20 1) e.pointLight]
                if !e.pointLight then (false, calls)
                else
                  let calls := calls ++ [Call.attachLight "camera" (Vec4.mk 20 20 20 1)]
                  -- Set the position of the camera
                  let calls := calls ++ [Call.setPosition "camera" (Vec3.mk 3 3 3),
                    Call.cameraLookAt "camera"]
                  let calls := calls ++ [Call.setPosition "camera2" (Vec3.mk 3 3 (-3)),
                    Call.cameraLookAt "camera2"]
                  (true, calls)

end Application

end Sample05

/-! ## Triangles of the cube -/

/-- The difference `a - b` of two vectors. -/
def Vec3.sub (a b : Vec3 Int) : Vec3 Int := Vec3.mk (a.x - b.x) (a.y - b.y) (a.z - b.z)

/-- The cross product `a x b` of two vectors. -/
def Vec3.cross (a b : Vec3 Int) : Vec3 Int :=
  Vec3.mk (a.y * b.z - a.z * b.y) (a.z * b.x - a.x * b.z) (a.x * b.y - a.y * b.x)

/-- The vector `k * a`. -/
def Vec3.scale (k : Int) (a : Vec3 Int) : Vec3 Int := Vec3.mk (k * a.x) (k * a.y) (k * a.z)

/-- The number of coordinates in which two vectors differ. -/
def Vec3.diffCount (a b : Vec3 Int) : Nat :=
  (if a.x = b.x then 0 else 1) + (if a.y = b.y then 0 else 1) + (if a.z = b.z then 0 else 1)

/-- The triangles of an index list under the draw mode `Triangles`: the
entries three by three, in list order. -/
def triangleList : List Nat → List (Nat × Nat × Nat)
  | i0 :: i1 :: i2 :: rest => (i0, i1, i2) :: triangleList rest
  | _ => []

/-- The six index entries `6f .. 6f+5` of the cube face `f`. -/
def faceIndices (indices : List Nat) (f : Nat) : List Nat := (indices.drop (6 * f)).take 6

/-- The local index pattern of the cube face `f`: its six index entries
with `4*f` subtracted, in list order. -/
def facePattern (indices : List Nat) (f : Nat) : List Int :=
  (faceIndices indices f).map (fun i => (i : Int) - 4 * (f : Int))

/-! ## Events and frames

The window events and the scene are the engine's.  An event is modelled by
its type.  Of the scene only the lights matter to `onFrame`: the scene is
modelled by the colour of the light attached to the node of each name.
`close()` is an engine call and is recorded as such. -/

namespace Lug

/-- The types `lug::Window::Event::Type` of a window event: `Close`, and the
others, which the samples do not tell apart. -/
inductive EventType where
  | Close
  | other (code : Nat)
deriving DecidableEq, Repr

/-- A window event `lug::Window::Event`, reduced to its field `type`. -/
structure Event where
  type : EventType
deriving DecidableEq, Repr

/-- The calls that `onEvent` makes on the application. -/
inductive AppCall where
  | close
deriving DecidableEq, Repr

/-- The lights of a scene: the colour of the light attached to the scene
node of the given name, `none` when the scene has no node of that name or
the node has no light. -/
abbrev SceneLights (α : Type) := String → Option (Vec4 α)

/-- The scene in which the node `name` has a light of the colour `color`,
every other node being as in `scene`: the effect of attaching such a light
to that node, and of
`_scene->getSceneNode(name)->getLight()->setColor(color)`. -/
def SceneLights.set {α : Type} (scene : SceneLights α) (name : String) (color : Vec4 α) :
    SceneLights α :=
  fun n => if n = name then some color else scene n

end Lug

namespace SampleBase
namespace Application

/-- The function `Application::onEvent` of sample_base: the calls made on
the application, after those in `calls`. -/
def onEvent (event : Lug.Event) (calls : List Lug.AppCall) : List Lug.AppCall :=
  if event.type = Lug.EventType.Close then calls ++ [Lug.AppCall.close]
  else calls

end Application
end SampleBase

namespace Sample01
namespace Application

/-- The function `Application::onEvent` of sample_01: the calls made on
the application, after those in `calls`. -/
def onEvent (event : Lug.Event) (calls : List Lug.AppCall) : List Lug.AppCall :=
  if event.type = Lug.EventType.Close then calls ++ [Lug.AppCall.close]
  else calls

end Application
end Sample01

namespace Sample05
namespace Application

/-- The function `Application::onEvent` of sample_05: the calls made on
the application, after those in `calls`. -/
def onEvent (event : Lug.Event) (calls : List Lug.AppCall) : List Lug.AppCall :=
  if event.type = Lug.EventType.Close then calls ++ [Lug.AppCall.close]
  else calls

end Application
end Sample05

namespace Sample06
namespace Application

/-- The function `Application::onEvent` of sample_06: the calls made on
the application, after those in `calls`. -/
def onEvent (event : Lug.Event) (calls : List Lug.AppCall) : List Lug.AppCall :=
  if event.type = Lug.EventType.Close then calls ++ [Lug.AppCall.close]
  else calls

/-- The function `Application::onFrame` of sample_06 on the lights of the
scene, the values left in `r`, `g`, `b` by the three sliders being given.
The result is `none` when a node looked up by name has no light (the
source would dereference a null pointer).  `_mover.onFrame` moves the
camera and touches no light. -/
def onFrame {α : Type} [DecidableEq α] [OfNat α 1] (r g b : α) (scene : Lug.SceneLights α) :
    Option (Lug.SceneLights α) :=
  -- auto light = _scene->getSceneNode("light0")->getLight();
  match scene "light0" with
  | none => none
  | some light =>
    if r ≠ light.x ∨ g ≠ light.y ∨ b ≠ light.z then
      forBelow 4 (fun i scene =>
        scene.bind (fun scene =>
          match scene ("light" ++ toString i) with
          | none => none
          | some _ => some (scene.set ("light" ++ toString i) (Vec4.mk r g b 1)))) 0 (some scene)
    else some scene

end Application

/-- The names passed to `createSceneNode` by the calls, in order. -/
def createdNames (calls : List Call) : List String :=
  calls.filterMap (fun c =>
    match c with
    | Call.createSceneNode name => some name
    | _ => none)

/-- The lights of the scene built by the calls: `node->attachLight(light)`
gives the node a light of the colour the light was built with. -/
def sceneLights (calls : List Call) : Lug.SceneLights ℚ :=
  calls.foldl (fun scene c =>
    match c with
    | Call.attachLight node color => scene.set node color
    | _ => scene) (fun _ => none)

/-- The 54 node names of sample_06 in the order of creation: "camera",
"sphere0" to "sphere48", "light0" to "light3". -/
def allNames : List String :=
  "camera" :: ((List.range 49).map (fun (k : Nat) => "sphere" ++ toString (k : Int))
    ++ (List.range 4).map (fun (i : Nat) => "light" ++ toString (i : Int)))

/-- The lights of the scene in the states that sample_06 can reach: after an
`init` that returned `true`, and after any `onFrame` from such a state,
whatever the sliders give. -/
inductive Reachable (e : Engine) : Lug.SceneLights ℚ → Prop where
  | init : (Application.init e).1 = true → Reachable e (sceneLights (Application.init e).2)
  | frame (r g b : ℚ) (scene scene' : Lug.SceneLights ℚ) :
      Reachable e scene → Application.onFrame r g b scene = some scene' → Reachable e scene'

end Sample06

namespace Sample07
namespace Application

/-- The function `Application::onEvent` of sample_07: the calls made on
the application, after those in `calls`. -/
def onEvent (event : Lug.Event) (calls : List Lug.AppCall) : List Lug.AppCall :=
  if event.type = Lug.EventType.Close then calls ++ [Lug.AppCall.close]
  else calls

/-- The function `Application::onFrame` of sample_07 on the lights of the
scene, the values left in `r`, `g`, `b` by the three sliders being given.
The result is `none` when a node looked up by name has no light (the
source would dereference a null pointer).  `_mover.onFrame` moves the
camera and touches no light. -/
def onFrame {α : Type} [DecidableEq α] [OfNat α 1] (r g b : α) (scene : Lug.SceneLights α) :
    Option (Lug.SceneLights α) :=
  -- auto light = _scene->getSceneNode("light0")->getLight();
  match scene "light0" with
  | none => none
  | some light =>
    if r ≠ light.x ∨ g ≠ light.y ∨ b ≠ light.z then
      forBelow 4 (fun i scene =>
        scene.bind (fun scene =>
          match scene ("light" ++ toString i) with
          | none => none
          | some _ => some (scene.set ("light" ++ toString i) (Vec4.mk r g b 1)))) 0 (some scene)
    else some scene

end Application
end Sample07

namespace Sample09
namespace Application

/-- The function `Application::onEvent` of sample_09: the calls made on
the application, after those in `calls`. -/
def onEvent (event : Lug.Event) (calls : List Lug.AppCall) : List Lug.AppCall :=
  if event.type = Lug.EventType.Close then calls ++ [Lug.AppCall.close]
  else calls

/-- The function `Application::onFrame` of sample_09 on the lights of the
scene, the values left in `r`, `g`, `b` by the three sliders being given.
The result is `none` when a node looked up by name has no light (the
source would dereference a null pointer).  `_mover.onFrame` moves the
camera and touches no light. -/
def onFrame {α : Type} [DecidableEq α] [OfNat α 1] (r g b : α) (scene : Lug.SceneLights α) :
    Option (Lug.SceneLights α) :=
  -- auto light = _scene->getSceneNode("light0")->getLight();
  match scene "light0" with
  | none => none
  | some light =>
    if r ≠ light.x ∨ g ≠ light.y ∨ b ≠ light.z then
      forBelow 4 (fun i scene =>
        scene.bind (fun scene =>
          match scene ("light" ++ toString i) with
          | none => none
          | some _ => some (scene.set ("light" ++ toString i) (Vec4.mk r g b 1)))) 0 (some scene)
    else some scene

end Application
end Sample09

namespace Sample07

namespace Application

/-- The loop "Attach 4 lights" that ends sample_07's `init`, seen from the
lights of the scene, which are found by node name: the pass `i` builds a
light of the colour `(300, 300, 300, 1)`, returns `false` if that `build()`
gave an empty handle (`light i` is its outcome), and else creates the node
"light" followed by `i` and attaches the light to it. -/
def attachLights (light : Int → Bool) (scene : Lug.SceneLights ℚ) :
    ControlFlow (Lug.SceneLights ℚ) :=
  forBelowRet 4 (fun i scene =>
    let color : Vec4 ℚ := Vec4.mk 300 300 300 1
    if !light i then ControlFlow.ret false scene
    else
      let name := "light" ++ toString i
      ControlFlow.next (scene.set name color)) 0 scene

/-- The end of sample_07's `init`, from the lights `before` that the scene
has when the loop "Attach 4 lights" is entered: the loop, then
`return true`. -/
def initLights (light : Int → Bool) (before : Lug.SceneLights ℚ) :
    Bool × Lug.SceneLights ℚ :=
  match attachLights light before with
  | ControlFlow.ret r scene => (r, scene)
  | ControlFlow.next scene => (true, scene)

end Application

/-- The lights of the scene in the states that sample_07 can reach: after an
`init` that returned `true`, and after any `onFrame` from such a state,
whatever the sliders give. -/
inductive Reachable (light : Int → Bool) (before : Lug.SceneLights ℚ) :
    Lug.SceneLights ℚ → Prop where
  | init : (Application.initLights light before).1 = true →
      Reachable light before (Application.initLights light before).2
  | frame (r g b : ℚ) (scene scene' : Lug.SceneLights ℚ) :
      Reachable light before scene → Application.onFrame r g b scene = some scene' →
      Reachable light before scene'

end Sample07

namespace Sample09

namespace Application

/-- The loop "Attach 4 lights" that ends sample_09's `init`, seen from the
lights of the scene, which are found by node name: the pass `i` builds a
light of the colour `(300, 300, 300, 1)`, returns `false` if that `build()`
gave an empty handle (`light i` is its outcome), and else creates the node
"light" followed by `i` and attaches the light to it. -/
def attachLights (light : Int → Bool) (scene : Lug.SceneLights ℚ) :
    ControlFlow (Lug.SceneLights ℚ) :=
  forBelowRet 4 (fun i scene =>
    let color : Vec4 ℚ := Vec4.mk 300 300 300 1
    if !light i then ControlFlow.ret false scene
    else
      let name := "light" ++ toString i
      ControlFlow.next (scene.set name color)) 0 scene

/-- The end of sample_09's `init`, from the lights `before` that the loaded
scene has when the loop "Attach 4 lights" is entered: the loop, then
`return true`. -/
def initLights (light : Int → Bool) (before : Lug.SceneLights ℚ) :
    Bool × Lug.SceneLights ℚ :=
  match attachLights light before with
  | ControlFlow.ret r scene => (r, scene)
  | ControlFlow.next scene => (true, scene)

end Application

/-- The lights of the scene in the states that sample_09 can reach: after an
`init` that returned `true`, and after any `onFrame` from such a state,
whatever the sliders give. -/
inductive Reachable (light : Int → Bool) (before : Lug.SceneLights ℚ) :
    Lug.SceneLights ℚ → Prop where
  | init : (Application.initLights light before).1 = true →
      Reachable light before (Application.initLights light before).2
  | frame (r g b : ℚ) (scene scene' : Lug.SceneLights ℚ) :
      Reachable light before scene → Application.onFrame r g b scene = some scene' →
      Reachable light before scene'

end Sample09

/-! ## Loop combinators as folds -/

section LoopLemmas

variable {σ : Type}

theorem forUpTo_eq_foldl (bound : Int) (body : Int → σ → σ) :
    ∀ (n : Nat) (i : Int) (s : σ), bound + 1 - i = n →
      forUpTo bound body i s = (List.range n).foldl (fun s (k : Nat) => body (i + (k : Int)) s) s := by
  intro n
  induction n with
  | zero =>
    intro i s h
    rw [forUpTo, if_neg (by omega)]
    rfl
  | succ n ih =>
    intro i s h
    rw [forUpTo, if_pos (by omega), ih (i + 1) (body i s) (by omega),
      List.range_succ_eq_map, List.foldl_cons, List.foldl_map]
    simp only [Nat.cast_zero, add_zero, Nat.cast_succ]
    congr 1
    funext s k
    congr 1
    ring

theorem forBelow_eq_foldl (bound : Int) (body : Int → σ → σ) :
    ∀ (n : Nat) (i : Int) (s : σ), bound - i = n →
      forBelow bound body i s = (List.range n).foldl (fun s (k : Nat) => body (i + (k : Int)) s) s := by
  intro n
  induction n with
  | zero =>
    intro i s h
    rw [forBelow, if_neg (by omega)]
    rfl
  | succ n ih =>
    intro i s h
    rw [forBelow, if_pos (by omega), ih (i + 1) (body i s) (by omega),
      List.range_succ_eq_map, List.foldl_cons, List.foldl_map]
    simp only [Nat.cast_zero, add_zero, Nat.cast_succ]
    congr 1
    funext s k
    congr 1
    ring

theorem forDownToZero_eq_foldl (body : Int → σ → σ) :
    ∀ (n : Nat) (i : Int) (s : σ), i + 1 = n →
      forDownToZero body i s = (List.range n).reverse.foldl (fun s (k : Nat) => body (k : Int) s) s := by
  intro n
  induction n with
  | zero =>
    intro i s h
    rw [forDownToZero, if_neg (by omega)]
    rfl
  | succ n ih =>
    intro i s h
    have hi : i = (n : Int) := by omega
    rw [forDownToZero, if_pos (by omega), ih (i - 1) (body i s) (by omega),
      List.range_succ, List.reverse_append, List.reverse_singleton, List.singleton_append,
      List.foldl_cons, hi]

end LoopLemmas

/-! ## Lists built by appending rows -/

section BufferLemmas

theorem forUpTo_zero_natCast {σ : Type} (body : Int → σ → σ) (n : Nat) (s : σ) :
    forUpTo (n : Int) body 0 s
      = (List.range (n + 1)).foldl (fun s (k : Nat) => body (k : Int) s) s := by
  rw [forUpTo_eq_foldl (n : Int) body (n + 1) 0 s (by omega)]
  simp

theorem forBelow_zero_natCast {σ : Type} (body : Int → σ → σ) (n : Nat) (s : σ) :
    forBelow (n : Int) body 0 s
      = (List.range n).foldl (fun s (k : Nat) => body (k : Int) s) s := by
  rw [forBelow_eq_foldl (n : Int) body n 0 s (by omega)]
  simp

theorem forDownToZero_natCast {σ : Type} (body : Int → σ → σ) (n : Nat) (s : σ) :
    forDownToZero body (n : Int) s
      = (List.range (n + 1)).reverse.foldl (fun s (k : Nat) => body (k : Int) s) s :=
  forDownToZero_eq_foldl body (n + 1) (n : Int) s (by omega)

/-- A fold whose step appends `g b` to one component of the state appends
the concatenation of all `g b` to that component. -/
theorem foldl_proj_append {σ β γ : Type} (step : β → σ → σ) (proj : σ → List γ)
    (g : β → List γ) (hstep : ∀ b s, proj (step b s) = proj s ++ g b) (L : List β) (s : σ) :
    proj (L.foldl (fun s b => step b s) s) = proj s ++ L.flatMap g := by
  induction L generalizing s with
  | nil => simp
  | cons b L ih => simp [ih, hstep]

theorem flatMap_singleton_eq_map {β γ : Type} (f : β → γ) (L : List β) :
    L.flatMap (fun b => [f b]) = L.map f := by
  induction L with
  | nil => rfl
  | cons b L ih => simp [ih]

theorem length_flatMap_const {β γ : Type} (f : β → List γ) (n : Nat)
    (hf : ∀ b, (f b).length = n) (L : List β) : (L.flatMap f).length = L.length * n := by
  induction L with
  | nil => simp
  | cons b L ih => simp [ih, hf, Nat.succ_mul, Nat.add_comm]

/-- Entry `i * n + j` of a concatenation of rows of length `n` is entry `j`
of row `i`. -/
theorem getElem?_flatMap_const {β γ : Type} (f : β → List γ) (n : Nat)
    (hf : ∀ b, (f b).length = n) (j : Nat) (hj : j < n) :
    ∀ (L : List β) (i : Nat), (L.flatMap f)[i * n + j]? = (L[i]?).bind (fun b => (f b)[j]?) := by
  intro L
  induction L with
  | nil => intro i; simp
  | cons b L ih =>
    intro i
    cases i with
    | zero =>
      simp only [List.flatMap_cons, Nat.zero_mul, Nat.zero_add, List.getElem?_cons_zero,
        Option.some_bind]
      rw [List.getElem?_append_left (by rw [hf]; exact hj)]
    | succ i =>
      simp only [List.flatMap_cons, List.getElem?_cons_succ]
      rw [List.getElem?_append_right (by rw [hf, Nat.succ_mul]; omega), hf, ← ih i]
      congr 1
      rw [Nat.succ_mul]; omega

end BufferLemmas

/-! ## The vertex loops -/

theorem flatMap_const_nil {β γ : Type} (L : List β) :
    L.flatMap (fun _ => ([] : List γ)) = [] := by
  induction L with
  | nil => rfl
  | cons b L ih => simp

namespace Sample06

section
variable {α : Type} [IntCast α] [Mul α] [Div α] [OfNat α 2]
variable (cos sin : α → α) (pi : α)

/-- The vertex grid of the sphere, row by row. -/
theorem vertexLoop06_positions (W H : Nat) (s : SphereBuffers α) :
    (sphereVertexLoop cos sin pi W H s).positions
      = s.positions ++ (List.range (H + 1)).flatMap (fun (y : Nat) =>
          (List.range (W + 1)).map (fun (x : Nat) => spherePosition cos sin pi W H y x)) := by
  unfold sphereVertexLoop
  rw [forUpTo_zero_natCast]
  refine foldl_proj_append (fun (y : Nat) s =>
    forUpTo (W : Int) (sphereVertex cos sin pi W H y) 0 s) SphereBuffers.positions _ ?_ _ s
  intro y s
  dsimp only
  rw [forUpTo_zero_natCast, ← flatMap_singleton_eq_map]
  exact foldl_proj_append (fun (x : Nat) s => sphereVertex cos sin pi W H y x s)
    SphereBuffers.positions _ (fun x s => rfl) _ s

theorem vertexLoop06_normals (W H : Nat) (s : SphereBuffers α) :
    (sphereVertexLoop cos sin pi W H s).normals
      = s.normals ++ (List.range (H + 1)).flatMap (fun (y : Nat) =>
          (List.range (W + 1)).map (fun (x : Nat) => spherePosition cos sin pi W H y x)) := by
  unfold sphereVertexLoop
  rw [forUpTo_zero_natCast]
  refine foldl_proj_append (fun (y : Nat) s =>
    forUpTo (W : Int) (sphereVertex cos sin pi W H y) 0 s) SphereBuffers.normals _ ?_ _ s
  intro y s
  dsimp only
  rw [forUpTo_zero_natCast, ← flatMap_singleton_eq_map]
  exact foldl_proj_append (fun (x : Nat) s => sphereVertex cos sin pi W H y x s)
    SphereBuffers.normals _ (fun x s => rfl) _ s

theorem vertexLoop06_indices (W H : Nat) (s : SphereBuffers α) :
    (sphereVertexLoop cos sin pi W H s).indices = s.indices := by
  unfold sphereVertexLoop
  rw [forUpTo_zero_natCast]
  have h := foldl_proj_append (fun (y : Nat) s =>
    forUpTo (W : Int) (sphereVertex cos sin pi W H y) 0 s) SphereBuffers.indices
    (fun _ => []) ?_ (List.range (H + 1)) s
  · rw [flatMap_const_nil, List.append_nil] at h
    exact h
  intro y s
  dsimp only
  rw [forUpTo_zero_natCast]
  have h := foldl_proj_append (fun (x : Nat) s => sphereVertex cos sin pi W H y x s)
    SphereBuffers.indices (fun _ => []) (fun x s => by simp [sphereVertex])
    (List.range (W + 1)) s
  rw [flatMap_const_nil] at h
  exact h

end

end Sample06

namespace Sample07

section
variable {α : Type} [IntCast α] [Mul α] [Div α] [OfNat α 2]
variable (cos sin : α → α) (pi : α)

/-- The vertex grid of the sphere, row by row. -/
theorem vertexLoop07_positions (W H : Nat) (s : SphereBuffers α) :
    (sphereVertexLoop cos sin pi W H s).positions
      = s.positions ++ (List.range (H + 1)).flatMap (fun (y : Nat) =>
          (List.range (W + 1)).map (fun (x : Nat) => spherePosition cos sin pi W H y x)) := by
  unfold sphereVertexLoop
  rw [forUpTo_zero_natCast]
  refine foldl_proj_append (fun (y : Nat) s =>
    forUpTo (W : Int) (sphereVertex cos sin pi W H y) 0 s) SphereBuffers.positions _ ?_ _ s
  intro y s
  dsimp only
  rw [forUpTo_zero_natCast, ← flatMap_singleton_eq_map]
  exact foldl_proj_append (fun (x : Nat) s => sphereVertex cos sin pi W H y x s)
    SphereBuffers.positions _ (fun x s => rfl) _ s

theorem vertexLoop07_normals (W H : Nat) (s : SphereBuffers α) :
    (sphereVertexLoop cos sin pi W H s).normals
      = s.normals ++ (List.range (H + 1)).flatMap (fun (y : Nat) =>
          (List.range (W + 1)).map (fun (x : Nat) => spherePosition cos sin pi W H y x)) := by
  unfold sphereVertexLoop
  rw [forUpTo_zero_natCast]
  refine foldl_proj_append (fun (y : Nat) s =>
    forUpTo (W : Int) (sphereVertex cos sin pi W H y) 0 s) SphereBuffers.normals _ ?_ _ s
  intro y s
  dsimp only
  rw [forUpTo_zero_natCast, ← flatMap_singleton_eq_map]
  exact foldl_proj_append (fun (x : Nat) s => sphereVertex cos sin pi W H y x s)
    SphereBuffers.normals _ (fun x s => rfl) _ s

theorem vertexLoop07_uv (W H : Nat) (s : SphereBuffers α) :
    (sphereVertexLoop cos sin pi W H s).uv
      = s.uv ++ (List.range (H + 1)).flatMap (fun (y : Nat) =>
          (List.range (W + 1)).map (fun (x : Nat) => sphereTexCoord W H y x)) := by
  unfold sphereVertexLoop
  rw [forUpTo_zero_natCast]
  refine foldl_proj_append (fun (y : Nat) s =>
    forUpTo (W : Int) (sphereVertex cos sin pi W H y) 0 s) SphereBuffers.uv _ ?_ _ s
  intro y s
  dsimp only
  rw [forUpTo_zero_natCast, ← flatMap_singleton_eq_map]
  exact foldl_proj_append (fun (x : Nat) s => sphereVertex cos sin pi W H y x s)
    SphereBuffers.uv _ (fun x s => rfl) _ s

theorem vertexLoop07_indices (W H : Nat) (s : SphereBuffers α) :
    (sphereVertexLoop cos sin pi W H s).indices = s.indices := by
  unfold sphereVertexLoop
  rw [forUpTo_zero_natCast]
  have h := foldl_proj_append (fun (y : Nat) s =>
    forUpTo (W : Int) (sphereVertex cos sin pi W H y) 0 s) SphereBuffers.indices
    (fun _ => []) ?_ (List.range (H + 1)) s
  · rw [flatMap_const_nil, List.append_nil] at h
    exact h
  intro y s
  dsimp only
  rw [forUpTo_zero_natCast]
  have h := foldl_proj_append (fun (x : Nat) s => sphereVertex cos sin pi W H y x s)
    SphereBuffers.indices (fun _ => []) (fun x s => by simp [sphereVertex])
    (List.range (W + 1)) s
  rw [flatMap_const_nil] at h
  exact h

end

end Sample07

/-! ## The index loops -/

/-- A loop bounded by `bound` first runs as the loop bounded by `m ≤ bound`
and then continues from the counter value `m`. -/
theorem forBelow_split {σ : Type} (bound m : Int) (body : Int → σ → σ) :
    ∀ (n : Nat) (i : Int) (s : σ), m - i = n → m ≤ bound →
      forBelow bound body i s = forBelow bound body m (forBelow m body i s) := by
  intro n
  induction n with
  | zero =>
    intro i s h hm
    have hi : i = m := by omega
    subst hi
    rw [forBelow.eq_1 i body i s, if_neg (by omega)]
  | succ n ih =>
    intro i s h hm
    rw [forBelow.eq_1 bound body i s, if_pos (by omega), forBelow.eq_1 m body i s,
      if_pos (by omega)]
    exact ih (i + 1) (body i s) (by omega) hm

theorem castUInt16_natCast (n : Nat) : castUInt16 (n : Int) = n % 65536 := by
  unfold castUInt16
  omega

theorem castUInt16_upper (W y x : Nat) :
    castUInt16 (((y : Int) + 1) * ((W : Int) + 1) + (x : Int)) = ((y + 1) * (W + 1) + x) % 65536 := by
  rw [← castUInt16_natCast]
  push_cast
  rfl

theorem castUInt16_lower (W y x : Nat) :
    castUInt16 ((y : Int) * ((W : Int) + 1) + (x : Int)) = (y * (W + 1) + x) % 65536 := by
  rw [← castUInt16_natCast]
  push_cast
  rfl

theorem zigzagRow_map_mod (W y : Nat) :
    (zigzagRow W y).map (fun i => i % 65536)
      = if y % 2 = 0 then
          (List.range (W + 1)).flatMap (fun x =>
            [((y + 1) * (W + 1) + x) % 65536, (y * (W + 1) + x) % 65536])
        else
          (List.range (W + 1)).reverse.flatMap (fun x =>
            [(y * (W + 1) + x) % 65536, ((y + 1) * (W + 1) + x) % 65536]) := by
  unfold zigzagRow
  split <;> simp [List.map_flatMap]

namespace Sample06

/-- One pass of the outer index loop on the row `y`, entered with `oddRow`
equal to the parity of `y`, pushes the specification's row `y` reduced
modulo `2^16`. -/
theorem indexRow06_parity (W y : Nat) (l : List Nat) :
    sphereIndexRow W y (decide (y % 2 = 1), l)
      = (decide ((y + 1) % 2 = 1), l ++ (zigzagRow W y).map (fun i => i % 65536)) := by
  rw [zigzagRow_map_mod]
  unfold sphereIndexRow
  rcases Nat.mod_two_eq_zero_or_one y with h | h
  · have h1 : (y + 1) % 2 = 1 := by omega
    simp only [h, h1, Nat.zero_ne_one, decide_False, decide_True, Bool.not_false, if_true]
    rw [forUpTo_zero_natCast]
    congr 1
    exact foldl_proj_append (fun (x : Nat) (s : List Nat) =>
        s ++ [castUInt16 (((y : Int) + 1) * ((W : Int) + 1) + (x : Int))]
          ++ [castUInt16 ((y : Int) * ((W : Int) + 1) + (x : Int))]) id _
      (fun x s => by simp [castUInt16_upper, castUInt16_lower]) _ l
  · have h1 : (y + 1) % 2 ≠ 1 := by omega
    have h0 : y % 2 ≠ 0 := by omega
    simp only [h, h1, h0, decide_False, decide_True, Bool.not_true, if_false]
    rw [forDownToZero_natCast]
    congr 1
    exact foldl_proj_append (fun (x : Nat) (s : List Nat) =>
        s ++ [castUInt16 ((y : Int) * ((W : Int) + 1) + (x : Int))]
          ++ [castUInt16 (((y : Int) + 1) * ((W : Int) + 1) + (x : Int))]) id _
      (fun x s => by simp [castUInt16_upper, castUInt16_lower]) _ l

/-- The state of the index loop after the rows `0 .. n-1`: `oddRow` is the
parity of `n` and the rows pushed are the specification's, modulo `2^16`. -/
theorem indexLoop06_eq (W n : Nat) (l : List Nat) :
    sphereIndexLoop W n l
      = (decide (n % 2 = 1), l ++ (zigzagStream W n).map (fun i => i % 65536)) := by
  unfold sphereIndexLoop zigzagStream
  rw [forBelow_zero_natCast]
  induction n with
  | zero => simp
  | succ n ih =>
    rw [List.range_succ, List.foldl_append, ih, List.foldl_cons, List.foldl_nil,
      indexRow06_parity]
    simp [List.flatMap_append, List.append_assoc]

/-- The index loop bounded by `H` passes through every state `sphereIndexLoop W y`
with `y ≤ H`: that is its state when the counter has reached `y`. -/
theorem indexLoop06_split (W H y : Nat) (hy : y ≤ H) (l : List Nat) :
    sphereIndexLoop W H l = forBelow H (sphereIndexRow W) y (sphereIndexLoop W y l) := by
  unfold sphereIndexLoop
  exact forBelow_split (H : Int) (y : Int) _ y 0 _ (by omega) (by omega)

end Sample06

namespace Sample07

/-- One pass of the outer index loop on the row `y`, entered with `oddRow`
equal to the parity of `y`, pushes the specification's row `y` reduced
modulo `2^16`. -/
theorem indexRow07_parity (W y : Nat) (l : List Nat) :
    sphereIndexRow W y (decide (y % 2 = 1), l)
      = (decide ((y + 1) % 2 = 1), l ++ (zigzagRow W y).map (fun i => i % 65536)) := by
  rw [zigzagRow_map_mod]
  unfold sphereIndexRow
  rcases Nat.mod_two_eq_zero_or_one y with h | h
  · have h1 : (y + 1) % 2 = 1 := by omega
    simp only [h, h1, Nat.zero_ne_one, decide_False, decide_True, Bool.not_false, if_true]
    rw [forUpTo_zero_natCast]
    congr 1
    exact foldl_proj_append (fun (x : Nat) (s : List Nat) =>
        s ++ [castUInt16 (((y : Int) + 1) * ((W : Int) + 1) + (x : Int))]
          ++ [castUInt16 ((y : Int) * ((W : Int) + 1) + (x : Int))]) id _
      (fun x s => by simp [castUInt16_upper, castUInt16_lower]) _ l
  · have h1 : (y + 1) % 2 ≠ 1 := by omega
    have h0 : y % 2 ≠ 0 := by omega
    simp only [h, h1, h0, decide_False, decide_True, Bool.not_true, if_false]
    rw [forDownToZero_natCast]
    congr 1
    exact foldl_proj_append (fun (x : Nat) (s : List Nat) =>
        s ++ [castUInt16 ((y : Int) * ((W : Int) + 1) + (x : Int))]
          ++ [castUInt16 (((y : Int) + 1) * ((W : Int) + 1) + (x : Int))]) id _
      (fun x s => by simp [castUInt16_upper, castUInt16_lower]) _ l

/-- The state of the index loop after the rows `0 .. n-1`: `oddRow` is the
parity of `n` and the rows pushed are the specification's, modulo `2^16`. -/
theorem indexLoop07_eq (W n : Nat) (l : List Nat) :
    sphereIndexLoop W n l
      = (decide (n % 2 = 1), l ++ (zigzagStream W n).map (fun i => i % 65536)) := by
  unfold sphereIndexLoop zigzagStream
  rw [forBelow_zero_natCast]
  induction n with
  | zero => simp
  | succ n ih =>
    rw [List.range_succ, List.foldl_append, ih, List.foldl_cons, List.foldl_nil,
      indexRow07_parity]
    simp [List.flatMap_append, List.append_assoc]

/-- The index loop bounded by `H` passes through every state `sphereIndexLoop W y`
with `y ≤ H`: that is its state when the counter has reached `y`. -/
theorem indexLoop07_split (W H y : Nat) (hy : y ≤ H) (l : List Nat) :
    sphereIndexLoop W H l = forBelow H (sphereIndexRow W) y (sphereIndexLoop W y l) := by
  unfold sphereIndexLoop
  exact forBelow_split (H : Int) (y : Int) _ y 0 _ (by omega) (by omega)

end Sample07

/-! ## The specification's index stream -/

theorem length_zigzagRow (W y : Nat) : (zigzagRow W y).length = 2 * (W + 1) := by
  unfold zigzagRow
  split
  · rw [length_flatMap_const (fun x => [(y + 1) * (W + 1) + x, y * (W + 1) + x]) 2
      (fun _ => rfl), List.length_range, Nat.mul_comm]
  · rw [length_flatMap_const (fun x => [y * (W + 1) + x, (y + 1) * (W + 1) + x]) 2
      (fun _ => rfl), List.length_reverse, List.length_range, Nat.mul_comm]

theorem length_zigzagStream (W H : Nat) : (zigzagStream W H).length = 2 * (W + 1) * H := by
  unfold zigzagStream
  rw [length_flatMap_const _ (2 * (W + 1)) (length_zigzagRow W), List.length_range, Nat.mul_comm]

theorem grid_index_lt (W H y x : Nat) (hy : y ≤ H) (hx : x ≤ W) :
    y * (W + 1) + x < (H + 1) * (W + 1) := by
  have h1 : y * (W + 1) ≤ H * (W + 1) := Nat.mul_le_mul_right _ hy
  have h2 : (H + 1) * (W + 1) = H * (W + 1) + (W + 1) := Nat.succ_mul _ _
  omega

theorem mem_zigzagRow (W y i : Nat) (hi : i ∈ zigzagRow W y) :
    ∃ x, x ≤ W ∧ (i = y * (W + 1) + x ∨ i = (y + 1) * (W + 1) + x) := by
  unfold zigzagRow at hi
  split at hi
  · simp only [List.mem_flatMap, List.mem_range, List.mem_cons, List.mem_singleton,
      List.not_mem_nil, or_false] at hi
    obtain ⟨x, hx, h⟩ := hi
    exact ⟨x, by omega, h.symm⟩
  · simp only [List.mem_flatMap, List.mem_reverse, List.mem_range, List.mem_cons,
      List.mem_singleton, List.not_mem_nil, or_false] at hi
    obtain ⟨x, hx, h⟩ := hi
    exact ⟨x, by omega, h⟩

theorem mem_zigzagStream_lt (W H i : Nat) (hi : i ∈ zigzagStream W H) :
    i < (H + 1) * (W + 1) := by
  unfold zigzagStream at hi
  rw [List.mem_flatMap] at hi
  obtain ⟨y, hy, hiy⟩ := hi
  rw [List.mem_range] at hy
  obtain ⟨x, hx, h | h⟩ := mem_zigzagRow W y i hiy
  · rw [h]; exact grid_index_lt W H y x (by omega) hx
  · rw [h]; exact grid_index_lt W H (y + 1) x (by omega) hx

theorem length_grid {γ : Type} (W H : Nat) (f : Nat → Nat → γ) :
    ((List.range (H + 1)).flatMap (fun y => (List.range (W + 1)).map (f y))).length
      = (H + 1) * (W + 1) := by
  rw [length_flatMap_const _ (W + 1) (fun _ => by simp), List.length_range]

theorem getElem?_grid {γ : Type} (W H : Nat) (f : Nat → Nat → γ) (y x : Nat)
    (hy : y ≤ H) (hx : x ≤ W) :
    ((List.range (H + 1)).flatMap (fun y => (List.range (W + 1)).map (f y)))[y * (W + 1) + x]?
      = some (f y x) := by
  rw [getElem?_flatMap_const _ (W + 1) (fun _ => by simp) x (by omega),
    List.getElem?_range (by omega)]
  simp [List.getElem?_range (show x < W + 1 by omega)]

/-! ## The generated buffers -/

namespace Sample06

section
variable {α : Type} [IntCast α] [Mul α] [Div α] [OfNat α 2]
variable (cos sin : α → α) (pi : α)

theorem initSphereMesh06_positions (W H : Nat) :
    (initSphereMesh cos sin pi W H).positions
      = (List.range (H + 1)).flatMap (fun (y : Nat) =>
          (List.range (W + 1)).map (fun (x : Nat) => spherePosition cos sin pi W H y x)) := by
  unfold initSphereMesh
  simp [vertexLoop06_positions]

theorem initSphereMesh06_normals (W H : Nat) :
    (initSphereMesh cos sin pi W H).normals
      = (List.range (H + 1)).flatMap (fun (y : Nat) =>
          (List.range (W + 1)).map (fun (x : Nat) => spherePosition cos sin pi W H y x)) := by
  unfold initSphereMesh
  simp [vertexLoop06_normals]

theorem initSphereMesh06_indices (W H : Nat) :
    (initSphereMesh cos sin pi W H).indices = (sphereIndexLoop W H []).2 := by
  unfold initSphereMesh
  simp [vertexLoop06_indices]

end

end Sample06

namespace Sample07

section
variable {α : Type} [IntCast α] [Mul α] [Div α] [OfNat α 2]
variable (cos sin : α → α) (pi : α)

theorem initSphereMesh07_positions (W H : Nat) :
    (initSphereMesh cos sin pi W H).positions
      = (List.range (H + 1)).flatMap (fun (y : Nat) =>
          (List.range (W + 1)).map (fun (x : Nat) => spherePosition cos sin pi W H y x)) := by
  unfold initSphereMesh
  simp [vertexLoop07_positions]

theorem initSphereMesh07_normals (W H : Nat) :
    (initSphereMesh cos sin pi W H).normals
      = (List.range (H + 1)).flatMap (fun (y : Nat) =>
          (List.range (W + 1)).map (fun (x : Nat) => spherePosition cos sin pi W H y x)) := by
  unfold initSphereMesh
  simp [vertexLoop07_normals]

theorem initSphereMesh07_uv (W H : Nat) :
    (initSphereMesh cos sin pi W H).uv
      = (List.range (H + 1)).flatMap (fun (y : Nat) =>
          (List.range (W + 1)).map (fun (x : Nat) => sphereTexCoord W H y x)) := by
  unfold initSphereMesh
  simp [vertexLoop07_uv]

theorem initSphereMesh07_indices (W H : Nat) :
    (initSphereMesh cos sin pi W H).indices = (sphereIndexLoop W H []).2 := by
  unfold initSphereMesh
  simp [vertexLoop07_indices]

end

end Sample07

/-! ## Sizes of the sphere buffers -/

/-- C1: for all segment counts `W` (longitude) and `H` (latitude), in
particular for all positive ones, the vertex loop of `initSphereMesh` emits
exactly `(H+1)*(W+1)` positions and as many normals, in sample_06 and in
sample_07, where it also emits as many texture coordinates; for the
source's `64 x 64` the count is `4225`. -/
theorem sphere_vertex_count {α : Type} [IntCast α] [Mul α] [Div α] [OfNat α 2]
    (cos sin : α → α) (pi : α) (W H : Nat) :
    ((Sample06.initSphereMesh cos sin pi W H).positions.length = (H + 1) * (W + 1)
      ∧ (Sample06.initSphereMesh cos sin pi W H).normals.length = (H + 1) * (W + 1))
    ∧ ((Sample07.initSphereMesh cos sin pi W H).positions.length = (H + 1) * (W + 1)
      ∧ (Sample07.initSphereMesh cos sin pi W H).normals.length = (H + 1) * (W + 1)
      ∧ (Sample07.initSphereMesh cos sin pi W H).uv.length = (H + 1) * (W + 1))
    ∧ ((Sample06.initSphereMesh cos sin pi 64 64).positions.length = 4225
      ∧ (Sample07.initSphereMesh cos sin pi 64 64).positions.length = 4225) := by
  refine ⟨⟨?_, ?_⟩, ⟨?_, ?_, ?_⟩, ⟨?_, ?_⟩⟩
  · rw [Sample06.initSphereMesh06_positions, length_grid]
  · rw [Sample06.initSphereMesh06_normals, length_grid]
  · rw [Sample07.initSphereMesh07_positions, length_grid]
  · rw [Sample07.initSphereMesh07_normals, length_grid]
  · rw [Sample07.initSphereMesh07_uv, length_grid]
  · have h := Sample06.initSphereMesh06_positions cos sin pi 64 64
    rw [Nat.cast_ofNat] at h
    rw [h, length_grid]
  · have h := Sample07.initSphereMesh07_positions cos sin pi 64 64
    rw [Nat.cast_ofNat] at h
    rw [h, length_grid]

/-- C2: for all segment counts `W` and `H`, in particular for all positive
ones, the index loop of `initSphereMesh` emits exactly `2*(W+1)*H` indices,
in sample_06 and in sample_07; for the source's `64 x 64` the count is
`8320`. -/
theorem sphere_index_count {α : Type} [IntCast α] [Mul α] [Div α] [OfNat α 2]
    (cos sin : α → α) (pi : α) (W H : Nat) :
    (Sample06.initSphereMesh cos sin pi W H).indices.length = 2 * (W + 1) * H
    ∧ (Sample07.initSphereMesh cos sin pi W H).indices.length = 2 * (W + 1) * H
    ∧ (Sample06.initSphereMesh cos sin pi 64 64).indices.length = 8320
    ∧ (Sample07.initSphereMesh cos sin pi 64 64).indices.length = 8320 := by
  have h6 : ∀ W H : Nat,
      (Sample06.initSphereMesh cos sin pi W H).indices.length = 2 * (W + 1) * H := by
    intro W H
    rw [Sample06.initSphereMesh06_indices, Sample06.indexLoop06_eq]
    simp [length_zigzagStream]
  have h7 : ∀ W H : Nat,
      (Sample07.initSphereMesh cos sin pi W H).indices.length = 2 * (W + 1) * H := by
    intro W H
    rw [Sample07.initSphereMesh07_indices, Sample07.indexLoop07_eq]
    simp [length_zigzagStream]
  refine ⟨h6 W H, h7 W H, ?_, ?_⟩
  · have h := h6 64 64
    rw [Nat.cast_ofNat] at h
    exact h
  · have h := h7 64 64
    rw [Nat.cast_ofNat] at h
    exact h

/-- C3: for all non-negative segment counts `W` and `H`, every value in the
index stream of sample_06's `initSphereMesh` (the values after the
`uint16_t` cast) is strictly less than the vertex count `(H+1)*(W+1)`, and
so is the index of an entry of the position array. -/
theorem sphere_index_in_range {α : Type} [IntCast α] [Mul α] [Div α] [OfNat α 2]
    (cos sin : α → α) (pi : α) (W H : Nat) (i : Nat)
    (hi : i ∈ (Sample06.initSphereMesh cos sin pi W H).indices) :
    i < (H + 1) * (W + 1)
    ∧ i < (Sample06.initSphereMesh cos sin pi W H).positions.length
    ∧ ∃ p, (Sample06.initSphereMesh cos sin pi W H).positions[i]? = some p := by
  have hlen : (Sample06.initSphereMesh cos sin pi W H).positions.length = (H + 1) * (W + 1) := by
    rw [Sample06.initSphereMesh06_positions, length_grid]
  rw [Sample06.initSphereMesh06_indices, Sample06.indexLoop06_eq] at hi
  simp only [List.nil_append, List.mem_map] at hi
  obtain ⟨j, hj, rfl⟩ := hi
  have hlt : j % 65536 < (H + 1) * (W + 1) :=
    lt_of_le_of_lt (Nat.mod_le _ _) (mem_zigzagStream_lt W H j hj)
  refine ⟨hlt, by rw [hlen]; exact hlt, ?_⟩
  exact ⟨_, List.getElem?_eq_getElem (by rw [hlen]; exact hlt)⟩

/-- Witness of C3 on the `2 x 2` sphere, whose index stream contains the
largest vertex index `8`. -/
theorem sphere_index_in_range_witness :
    8 ∈ (Sample06.initSphereMesh Real.cos Real.sin Real.pi ((2 : Nat) : Int) ((2 : Nat) : Int)).indices
    ∧ (8 < (2 + 1) * (2 + 1)
      ∧ 8 < (Sample06.initSphereMesh Real.cos Real.sin Real.pi
              ((2 : Nat) : Int) ((2 : Nat) : Int)).positions.length
      ∧ ∃ p, (Sample06.initSphereMesh Real.cos Real.sin Real.pi
              ((2 : Nat) : Int) ((2 : Nat) : Int)).positions[8]? = some p) :=
  have hmem : 8 ∈ (Sample06.initSphereMesh Real.cos Real.sin Real.pi
      ((2 : Nat) : Int) ((2 : Nat) : Int)).indices := by
    rw [Sample06.initSphereMesh06_indices, Sample06.indexLoop06_eq]
    decide
  ⟨hmem, sphere_index_in_range Real.cos Real.sin Real.pi 2 2 8 hmem⟩

/-! ## The zig-zag index stream -/

theorem map_mod_eq_self (L : List Nat) (h : ∀ i ∈ L, i < 65536) :
    L.map (fun i => i % 65536) = L := by
  induction L with
  | nil => rfl
  | cons a L ih =>
    rw [List.map_cons, ih (fun i hi => h i (List.mem_cons_of_mem _ hi)),
      Nat.mod_eq_of_lt (h a (List.mem_cons_self _ _))]

/-- Counterexample to C4 as stated: for `W = H = 256` the specification's
stream contains `65536` (row `255`, `x = 1`: `255*257+1`), which the
`uint16_t` index vector of sample_06 stores as `0`; the generated stream
holds no value `65536` and so differs from the stated one. -/
theorem sphere_index_stream_wraps :
    65536 ∈ zigzagStream 256 256
    ∧ 65536 ∉ (Sample06.initSphereMesh Real.cos Real.sin Real.pi 256 256).indices
    ∧ (Sample06.initSphereMesh Real.cos Real.sin Real.pi 256 256).indices
        ≠ zigzagStream 256 256 := by
  have hmem : 65536 ∈ zigzagStream 256 256 := by
    unfold zigzagStream
    rw [List.mem_flatMap]
    refine ⟨255, List.mem_range.2 (by decide), ?_⟩
    unfold zigzagRow
    rw [if_neg (by decide), List.mem_flatMap]
    exact ⟨1, List.mem_reverse.2 (List.mem_range.2 (by decide)), by decide⟩
  have hnot : 65536 ∉ (Sample06.initSphereMesh Real.cos Real.sin Real.pi 256 256).indices := by
    have h := Sample06.initSphereMesh06_indices Real.cos Real.sin Real.pi 256 256
    rw [Nat.cast_ofNat] at h
    have h2 := Sample06.indexLoop06_eq 256 256 []
    rw [Nat.cast_ofNat] at h2
    rw [h, h2]
    simp only [List.nil_append, List.mem_map, not_exists, not_and]
    intro j _ hj
    have := Nat.mod_lt j (show 65536 > 0 by decide)
    omega
  exact ⟨hmem, hnot, fun h => hnot (h ▸ hmem)⟩

/-- C4, amended: the index stream of `initSphereMesh` (sample_06 and
sample_07) is the concatenation, for the rows `y = 0 .. H-1` in order, of
the specification's zig-zag rows with every value reduced modulo `2^16` by
the `uint16_t` cast; when `(H+1)*(W+1) ≤ 65536`, as for the source's
`64 x 64`, it is exactly that concatenation.  At every iteration `y ≤ H` of
the outer loop (the state from which the loop bounded by `H` continues at
the counter `y`) the boolean `oddRow` is the parity of `y`. -/
theorem sphere_index_stream {α : Type} [IntCast α] [Mul α] [Div α] [OfNat α 2]
    (cos sin : α → α) (pi : α) (W H : Nat) :
    ((Sample06.initSphereMesh cos sin pi W H).indices
        = (zigzagStream W H).map (fun i => i % 65536)
      ∧ (Sample07.initSphereMesh cos sin pi W H).indices
        = (zigzagStream W H).map (fun i => i % 65536))
    ∧ ((H + 1) * (W + 1) ≤ 65536 →
        (Sample06.initSphereMesh cos sin pi W H).indices = zigzagStream W H
        ∧ (Sample07.initSphereMesh cos sin pi W H).indices = zigzagStream W H)
    ∧ (∀ y : Nat, y ≤ H →
        (Sample06.sphereIndexLoop W H []
            = forBelow H (Sample06.sphereIndexRow W) y (Sample06.sphereIndexLoop W y [])
          ∧ (Sample06.sphereIndexLoop W y []).1 = decide (y % 2 = 1))
        ∧ (Sample07.sphereIndexLoop W H []
            = forBelow H (Sample07.sphereIndexRow W) y (Sample07.sphereIndexLoop W y [])
          ∧ (Sample07.sphereIndexLoop W y []).1 = decide (y % 2 = 1))) := by
  have h6 : (Sample06.initSphereMesh cos sin pi W H).indices
      = (zigzagStream W H).map (fun i => i % 65536) := by
    rw [Sample06.initSphereMesh06_indices, Sample06.indexLoop06_eq, List.nil_append]
  have h7 : (Sample07.initSphereMesh cos sin pi W H).indices
      = (zigzagStream W H).map (fun i => i % 65536) := by
    rw [Sample07.initSphereMesh07_indices, Sample07.indexLoop07_eq, List.nil_append]
  refine ⟨⟨h6, h7⟩, ?_, ?_⟩
  · intro hsmall
    have hid := map_mod_eq_self (zigzagStream W H)
      (fun i hi => lt_of_lt_of_le (mem_zigzagStream_lt W H i hi) hsmall)
    rw [h6, h7, hid]
    exact ⟨rfl, rfl⟩
  · intro y hy
    refine ⟨⟨Sample06.indexLoop06_split W H y hy [], ?_⟩,
      ⟨Sample07.indexLoop07_split W H y hy [], ?_⟩⟩
    · rw [Sample06.indexLoop06_eq]
    · rw [Sample07.indexLoop07_eq]

/-- Witness of C4 on the source's `64 x 64` sphere, at the row `y = 3`. -/
theorem sphere_index_stream_witness :
    ((Sample06.initSphereMesh Real.cos Real.sin Real.pi ((64 : Nat) : Int) ((64 : Nat) : Int)).indices
        = zigzagStream 64 64
      ∧ (Sample07.initSphereMesh Real.cos Real.sin Real.pi ((64 : Nat) : Int)
          ((64 : Nat) : Int)).indices = zigzagStream 64 64)
    ∧ (Sample06.sphereIndexLoop ((64 : Nat) : Int) ((3 : Nat) : Int) []).1 = true :=
  ⟨(sphere_index_stream Real.cos Real.sin Real.pi 64 64).2.1 (by decide),
    ((sphere_index_stream Real.cos Real.sin Real.pi 64 64).2.2 3 (by decide)).1.2⟩

/-! ## Coordinates of the sphere vertices -/

theorem spherePosition06_real (W H y x : Nat) :
    Sample06.spherePosition Real.cos Real.sin Real.pi W H y x
      = Vec3.mk
          (Real.cos (2 * Real.pi * x / W) * Real.sin (Real.pi * y / H))
          (Real.cos (Real.pi * y / H))
          (Real.sin (2 * Real.pi * x / W) * Real.sin (Real.pi * y / H)) := by
  unfold Sample06.spherePosition
  simp only [Int.cast_natCast]
  have hx : (x : ℝ) / (W : ℝ) * 2 * Real.pi = 2 * Real.pi * x / W := by ring
  have hy : (y : ℝ) / (H : ℝ) * Real.pi = Real.pi * y / H := by ring
  rw [hx, hy]

theorem spherePosition07_real (W H y x : Nat) :
    Sample07.spherePosition Real.cos Real.sin Real.pi W H y x
      = Vec3.mk
          (Real.cos (2 * Real.pi * x / W) * Real.sin (Real.pi * y / H))
          (Real.cos (Real.pi * y / H))
          (Real.sin (2 * Real.pi * x / W) * Real.sin (Real.pi * y / H)) := by
  unfold Sample07.spherePosition
  simp only [Int.cast_natCast]
  have hx : (x : ℝ) / (W : ℝ) * 2 * Real.pi = 2 * Real.pi * x / W := by ring
  have hy : (y : ℝ) / (H : ℝ) * Real.pi = Real.pi * y / H := by ring
  rw [hx, hy]

/-- C5: for positive segment counts `W`, `H` and every grid point `(y, x)`
with `y ≤ H` and `x ≤ W`, the vertex stored at the array index `y*(W+1)+x`
is the one the vertex loop computes at the counters `y`, `x` (whatever the
scalar type and its `cos`, `sin`, `pi`): the vertices are laid out
row-major, the row being the latitude step.  With `cos`, `sin` and `pi`
read over the real numbers that vertex has the position
`(cos(2*pi*x/W)*sin(pi*y/H), cos(pi*y/H), sin(2*pi*x/W)*sin(pi*y/H))`.
Both hold in sample_06 and in sample_07. -/
theorem sphere_vertex_layout (W H : Nat) (_hW : 0 < W) (_hH : 0 < H)
    (y x : Nat) (hy : y ≤ H) (hx : x ≤ W) :
    (∀ (α : Type) [IntCast α] [Mul α] [Div α] [OfNat α 2] (cos sin : α → α) (pi : α),
      (Sample06.initSphereMesh cos sin pi W H).positions[y * (W + 1) + x]?
        = some (Vec3.mk
            (cos (((x : Int) : α) / ((W : Int) : α) * 2 * pi)
              * sin (((y : Int) : α) / ((H : Int) : α) * pi))
            (cos (((y : Int) : α) / ((H : Int) : α) * pi))
            (sin (((x : Int) : α) / ((W : Int) : α) * 2 * pi)
              * sin (((y : Int) : α) / ((H : Int) : α) * pi)))
      ∧ (Sample07.initSphereMesh cos sin pi W H).positions[y * (W + 1) + x]?
        = some (Vec3.mk
            (cos (((x : Int) : α) / ((W : Int) : α) * 2 * pi)
              * sin (((y : Int) : α) / ((H : Int) : α) * pi))
            (cos (((y : Int) : α) / ((H : Int) : α) * pi))
            (sin (((x : Int) : α) / ((W : Int) : α) * 2 * pi)
              * sin (((y : Int) : α) / ((H : Int) : α) * pi))))
    ∧ (Sample06.initSphereMesh Real.cos Real.sin Real.pi W H).positions[y * (W + 1) + x]?
      = some (Vec3.mk
          (Real.cos (2 * Real.pi * x / W) * Real.sin (Real.pi * y / H))
          (Real.cos (Real.pi * y / H))
          (Real.sin (2 * Real.pi * x / W) * Real.sin (Real.pi * y / H)))
    ∧ (Sample07.initSphereMesh Real.cos Real.sin Real.pi W H).positions[y * (W + 1) + x]?
      = some (Vec3.mk
          (Real.cos (2 * Real.pi * x / W) * Real.sin (Real.pi * y / H))
          (Real.cos (Real.pi * y / H))
          (Real.sin (2 * Real.pi * x / W) * Real.sin (Real.pi * y / H))) := by
  refine ⟨?_, ?_, ?_⟩
  · intro α _ _ _ _ cos sin pi
    constructor
    · rw [Sample06.initSphereMesh06_positions,
        getElem?_grid W H (fun (y x : Nat) =>
          Sample06.spherePosition cos sin pi W H y x) y x hy hx]
      rfl
    · rw [Sample07.initSphereMesh07_positions,
        getElem?_grid W H (fun (y x : Nat) =>
          Sample07.spherePosition cos sin pi W H y x) y x hy hx]
      rfl
  · rw [Sample06.initSphereMesh06_positions,
      getElem?_grid W H (fun (y x : Nat) =>
        Sample06.spherePosition Real.cos Real.sin Real.pi W H y x) y x hy hx,
      spherePosition06_real]
  · rw [Sample07.initSphereMesh07_positions,
      getElem?_grid W H (fun (y x : Nat) =>
        Sample07.spherePosition Real.cos Real.sin Real.pi W H y x) y x hy hx,
      spherePosition07_real]

/-- Witness of C5 on the `4 x 4` sphere at the grid point `(y, x) = (1, 2)`. -/
theorem sphere_vertex_layout_witness :
    (Sample06.initSphereMesh Real.cos Real.sin Real.pi ((4 : Nat) : Int)
        ((4 : Nat) : Int)).positions[1 * (4 + 1) + 2]?
      = some (Vec3.mk
          (Real.cos (2 * Real.pi * ((2 : Nat) : ℝ) / ((4 : Nat) : ℝ))
            * Real.sin (Real.pi * ((1 : Nat) : ℝ) / ((4 : Nat) : ℝ)))
          (Real.cos (Real.pi * ((1 : Nat) : ℝ) / ((4 : Nat) : ℝ)))
          (Real.sin (2 * Real.pi * ((2 : Nat) : ℝ) / ((4 : Nat) : ℝ))
            * Real.sin (Real.pi * ((1 : Nat) : ℝ) / ((4 : Nat) : ℝ))))
    ∧ (Sample07.initSphereMesh Real.cos Real.sin Real.pi ((4 : Nat) : Int)
        ((4 : Nat) : Int)).positions[1 * (4 + 1) + 2]?
      = some (Vec3.mk
          (Real.cos (2 * Real.pi * ((2 : Nat) : ℝ) / ((4 : Nat) : ℝ))
            * Real.sin (Real.pi * ((1 : Nat) : ℝ) / ((4 : Nat) : ℝ)))
          (Real.cos (Real.pi * ((1 : Nat) : ℝ) / ((4 : Nat) : ℝ)))
          (Real.sin (2 * Real.pi * ((2 : Nat) : ℝ) / ((4 : Nat) : ℝ))
            * Real.sin (Real.pi * ((1 : Nat) : ℝ) / ((4 : Nat) : ℝ)))) :=
  (sphere_vertex_layout 4 4 (by decide) (by decide) 1 2 (by decide) (by decide)).2

theorem foldl_invariant {σ β : Type} (P : σ → Prop) (step : σ → β → σ)
    (hstep : ∀ s b, P s → P (step s b)) (L : List β) (s : σ) (hs : P s) :
    P (L.foldl step s) := by
  induction L generalizing s with
  | nil => exact hs
  | cons b L ih => exact ih (step s b) (hstep s b hs)

/-- A property of the state that every pass of the body keeps is kept by the
whole loop, whatever the bounds. -/
theorem forUpTo_invariant {σ : Type} (P : σ → Prop) (bound : Int) (body : Int → σ → σ)
    (hbody : ∀ i s, P s → P (body i s)) (i : Int) (s : σ) (hs : P s) :
    P (forUpTo bound body i s) := by
  by_cases h : i ≤ bound
  · rw [forUpTo_eq_foldl bound body (bound + 1 - i).toNat i s (by omega)]
    exact foldl_invariant P _ (fun s k hs => hbody _ s hs) _ s hs
  · rw [forUpTo, if_neg h]
    exact hs

theorem vertexLoop06_normals_eq {α : Type} [IntCast α] [Mul α] [Div α] [OfNat α 2]
    (cos sin : α → α) (pi : α) (W H : Int) (s : Sample06.SphereBuffers α)
    (hs : s.normals = s.positions) :
    (Sample06.sphereVertexLoop cos sin pi W H s).normals
      = (Sample06.sphereVertexLoop cos sin pi W H s).positions := by
  unfold Sample06.sphereVertexLoop
  refine forUpTo_invariant (fun s => s.normals = s.positions) H _ ?_ 0 s hs
  intro y s hs
  refine forUpTo_invariant (fun s => s.normals = s.positions) W _ ?_ 0 s hs
  intro x s hs
  simp only [Sample06.sphereVertex, hs]

theorem vertexLoop07_normals_eq {α : Type} [IntCast α] [Mul α] [Div α] [OfNat α 2]
    (cos sin : α → α) (pi : α) (W H : Int) (s : Sample07.SphereBuffers α)
    (hs : s.normals = s.positions) :
    (Sample07.sphereVertexLoop cos sin pi W H s).normals
      = (Sample07.sphereVertexLoop cos sin pi W H s).positions := by
  unfold Sample07.sphereVertexLoop
  refine forUpTo_invariant (fun s => s.normals = s.positions) H _ ?_ 0 s hs
  intro y s hs
  refine forUpTo_invariant (fun s => s.normals = s.positions) W _ ?_ 0 s hs
  intro x s hs
  simp only [Sample07.sphereVertex, hs]

/-- C6: in sample_06 and in sample_07, for every scalar type and all segment
counts (of any sign), the normal array has the length of the position array and
`normals[i]` is `positions[i]` at every index `i`. -/
theorem sphere_normal_eq_position {α : Type} [IntCast α] [Mul α] [Div α] [OfNat α 2]
    (cos sin : α → α) (pi : α) (W H : Int) :
    ((Sample06.initSphereMesh cos sin pi W H).normals.length
        = (Sample06.initSphereMesh cos sin pi W H).positions.length
      ∧ ∀ i : Nat, (Sample06.initSphereMesh cos sin pi W H).normals[i]?
          = (Sample06.initSphereMesh cos sin pi W H).positions[i]?)
    ∧ ((Sample07.initSphereMesh cos sin pi W H).normals.length
        = (Sample07.initSphereMesh cos sin pi W H).positions.length
      ∧ ∀ i : Nat, (Sample07.initSphereMesh cos sin pi W H).normals[i]?
          = (Sample07.initSphereMesh cos sin pi W H).positions[i]?) := by
  have h6 : (Sample06.initSphereMesh cos sin pi W H).normals
      = (Sample06.initSphereMesh cos sin pi W H).positions :=
    vertexLoop06_normals_eq cos sin pi W H ⟨[], [], []⟩ rfl
  have h7 : (Sample07.initSphereMesh cos sin pi W H).normals
      = (Sample07.initSphereMesh cos sin pi W H).positions :=
    vertexLoop07_normals_eq cos sin pi W H ⟨[], [], [], []⟩ rfl
  exact ⟨⟨by rw [h6], fun i => by rw [h6]⟩, ⟨by rw [h7], fun i => by rw [h7]⟩⟩

theorem spherePosition06_norm (W H y x : Int) :
    (Sample06.spherePosition Real.cos Real.sin Real.pi W H y x).x ^ 2
      + (Sample06.spherePosition Real.cos Real.sin Real.pi W H y x).y ^ 2
      + (Sample06.spherePosition Real.cos Real.sin Real.pi W H y x).z ^ 2 = 1 := by
  unfold Sample06.spherePosition
  simp only
  have ha := Real.cos_sq_add_sin_sq ((x : ℝ) / (W : ℝ) * 2 * Real.pi)
  have hb := Real.cos_sq_add_sin_sq ((y : ℝ) / (H : ℝ) * Real.pi)
  linear_combination (Real.sin ((y : ℝ) / (H : ℝ) * Real.pi)) ^ 2 * ha + hb

/-- C7: with `cos`, `sin` and `pi` read over the real numbers and positive
segment counts, every vertex generated by sample_06's `initSphereMesh` lies
on the unit sphere, `xPos^2 + yPos^2 + zPos^2 = 1`: every entry of the
position array, and in particular the entry emitted for each grid point
`(y, x)` with `y ≤ H`, `x ≤ W`. -/
theorem sphere_vertex_unit_norm (W H : Nat) (_hW : 0 < W) (_hH : 0 < H) :
    (∀ p ∈ (Sample06.initSphereMesh Real.cos Real.sin Real.pi W H).positions,
        p.x ^ 2 + p.y ^ 2 + p.z ^ 2 = 1)
    ∧ (∀ y x : Nat, y ≤ H → x ≤ W →
        ∃ p, (Sample06.initSphereMesh Real.cos Real.sin Real.pi W H).positions[y * (W + 1) + x]?
              = some p
          ∧ p.x ^ 2 + p.y ^ 2 + p.z ^ 2 = 1) := by
  rw [Sample06.initSphereMesh06_positions]
  constructor
  · intro p hp
    simp only [List.mem_flatMap, List.mem_map] at hp
    obtain ⟨y, _, x, _, rfl⟩ := hp
    exact spherePosition06_norm W H y x
  · intro y x hy hx
    refine ⟨_, getElem?_grid W H (fun (y x : Nat) =>
        Sample06.spherePosition Real.cos Real.sin Real.pi W H y x) y x hy hx, ?_⟩
    exact spherePosition06_norm W H y x

/-- Witness of C7 on the source's `64 x 64` sphere at the grid point
`(y, x) = (32, 16)`. -/
theorem sphere_vertex_unit_norm_witness :
    ∃ p, (Sample06.initSphereMesh Real.cos Real.sin Real.pi ((64 : Nat) : Int)
            ((64 : Nat) : Int)).positions[32 * (64 + 1) + 16]? = some p
      ∧ p.x ^ 2 + p.y ^ 2 + p.z ^ 2 = 1 :=
  (sphere_vertex_unit_norm 64 64 (by decide) (by decide)).2 32 16 (by decide) (by decide)

/-- C8: in sample_07's `initSphereMesh`, over any ordered field of scalars
and for positive segment counts `W`, `H`, the texture coordinate of the
grid point `(y, x)` with `y ≤ H`, `x ≤ W` is `(x/W, y/H)`; it is stored at
the array index `y*(W+1)+x`, which is also the index of the position
emitted for that grid point, and both its components lie in `[0, 1]`. -/
theorem sphere_texcoord {α : Type} [LinearOrderedField α] (cos sin : α → α) (pi : α)
    (W H : Nat) (hW : 0 < W) (hH : 0 < H) (y x : Nat) (hy : y ≤ H) (hx : x ≤ W) :
    (Sample07.initSphereMesh cos sin pi W H).uv[y * (W + 1) + x]?
      = some (Vec2.mk ((x : α) / (W : α)) ((y : α) / (H : α)))
    ∧ (Sample07.initSphereMesh cos sin pi W H).positions[y * (W + 1) + x]?
      = some (Vec3.mk
          (cos ((x : α) / (W : α) * 2 * pi) * sin ((y : α) / (H : α) * pi))
          (cos ((y : α) / (H : α) * pi))
          (sin ((x : α) / (W : α) * 2 * pi) * sin ((y : α) / (H : α) * pi)))
    ∧ (0 ≤ (x : α) / (W : α) ∧ (x : α) / (W : α) ≤ 1)
    ∧ (0 ≤ (y : α) / (H : α) ∧ (y : α) / (H : α) ≤ 1) := by
  have hWα : (0 : α) < (W : α) := Nat.cast_pos.2 hW
  have hHα : (0 : α) < (H : α) := Nat.cast_pos.2 hH
  have hxα : (x : α) ≤ (W : α) := Nat.cast_le.2 hx
  have hyα : (y : α) ≤ (H : α) := Nat.cast_le.2 hy
  refine ⟨?_, ?_, ⟨?_, ?_⟩, ⟨?_, ?_⟩⟩
  · rw [Sample07.initSphereMesh07_uv,
      getElem?_grid W H (fun (y x : Nat) => Sample07.sphereTexCoord (W : Int) H y x) y x hy hx]
    simp [Sample07.sphereTexCoord]
  · rw [Sample07.initSphereMesh07_positions,
      getElem?_grid W H (fun (y x : Nat) =>
        Sample07.spherePosition cos sin pi W H y x) y x hy hx]
    simp [Sample07.spherePosition]
  · exact div_nonneg (Nat.cast_nonneg x) hWα.le
  · exact (div_le_one hWα).2 hxα
  · exact div_nonneg (Nat.cast_nonneg y) hHα.le
  · exact (div_le_one hHα).2 hyα

/-- Witness of C8 over the real numbers on the `4 x 4` sphere at the grid
point `(y, x) = (1, 2)`. -/
theorem sphere_texcoord_witness :
    (Sample07.initSphereMesh Real.cos Real.sin Real.pi ((4 : Nat) : Int)
        ((4 : Nat) : Int)).uv[1 * (4 + 1) + 2]?
      = some (Vec2.mk (((2 : Nat) : ℝ) / ((4 : Nat) : ℝ)) (((1 : Nat) : ℝ) / ((4 : Nat) : ℝ)))
    ∧ (0 ≤ ((2 : Nat) : ℝ) / ((4 : Nat) : ℝ) ∧ ((2 : Nat) : ℝ) / ((4 : Nat) : ℝ) ≤ 1) :=
  ⟨(sphere_texcoord Real.cos Real.sin Real.pi 4 4 (by decide) (by decide) 1 2
      (by decide) (by decide)).1,
    (sphere_texcoord Real.cos Real.sin Real.pi 4 4 (by decide) (by decide) 1 2
      (by decide) (by decide)).2.2.1⟩

/-! ## The cube tables -/

/-- C9: the tables of `initCubeMesh` (sample_01 and sample_05) hold exactly
24 positions, 24 normals, 24 colors and 36 indices, that is 4 vertices for
each of the 6 faces and 3 indices for each of the 2 triangles of each
face (12 triangles). -/
theorem cube_table_sizes :
    (Sample01.initCubeMesh.positions.length = 24
      ∧ Sample01.initCubeMesh.normals.length = 24
      ∧ Sample01.initCubeMesh.colors.length = 24
      ∧ Sample01.initCubeMesh.indices.length = 36)
    ∧ (Sample05.initCubeMesh.positions.length = 24
      ∧ Sample05.initCubeMesh.normals.length = 24
      ∧ Sample05.initCubeMesh.colors.length = 24
      ∧ Sample05.initCubeMesh.indices.length = 36)
    ∧ Sample01.initCubeMesh.positions.length = 4 * 6
    ∧ Sample01.initCubeMesh.indices.length = 3 * 12
    ∧ Sample01.initCubeMesh.indices.length = 3 * (2 * 6) := by
  decide

/-- C10: for every cube face `f < 6` and all vertices `i`, `j` among
`4f, 4f+1, 4f+2, 4f+3`, the normal table has one and the same entry at `i`
and at `j`, and so has the color table (sample_01, and the identical tables
of sample_05). -/
theorem cube_face_constant (f i j : Nat) (hf : f < 6)
    (hi₁ : 4 * f ≤ i) (hi₂ : i < 4 * f + 4) (hj₁ : 4 * f ≤ j) (hj₂ : j < 4 * f + 4) :
    (∃ n c,
      Sample01.initCubeMesh.normals[i]? = some n ∧ Sample01.initCubeMesh.normals[j]? = some n
      ∧ Sample01.initCubeMesh.colors[i]? = some c ∧ Sample01.initCubeMesh.colors[j]? = some c)
    ∧ (∃ n c,
      Sample05.initCubeMesh.normals[i]? = some n ∧ Sample05.initCubeMesh.normals[j]? = some n
      ∧ Sample05.initCubeMesh.colors[i]? = some c ∧ Sample05.initCubeMesh.colors[j]? = some c) := by
  interval_cases f <;> interval_cases i <;> interval_cases j <;>
    exact ⟨⟨_, _, rfl, rfl, rfl, rfl⟩, ⟨_, _, rfl, rfl, rfl, rfl⟩⟩

/-- Witness of C10 on the bottom face `f = 4`, at its vertices `16` and `19`. -/
theorem cube_face_constant_witness :
    (∃ n c,
      Sample01.initCubeMesh.normals[16]? = some n ∧ Sample01.initCubeMesh.normals[19]? = some n
      ∧ Sample01.initCubeMesh.colors[16]? = some c ∧ Sample01.initCubeMesh.colors[19]? = some c)
    ∧ (∃ n c,
      Sample05.initCubeMesh.normals[16]? = some n ∧ Sample05.initCubeMesh.normals[19]? = some n
      ∧ Sample05.initCubeMesh.colors[16]? = some c ∧ Sample05.initCubeMesh.colors[19]? = some c) :=
  cube_face_constant 4 16 19 (by decide) (by decide) (by decide) (by decide) (by decide)

/-- C11: every entry of the cube index list (sample_01, and the identical
list of sample_05) is strictly less than the vertex count 24, the length of
the position, normal and color tables, so it resolves to a position, a
normal and a color. -/
theorem cube_index_in_range (i : Nat) :
    (i ∈ Sample01.initCubeMesh.indices →
      i < 24 ∧ i < Sample01.initCubeMesh.positions.length
      ∧ ∃ p n c, Sample01.initCubeMesh.positions[i]? = some p
          ∧ Sample01.initCubeMesh.normals[i]? = some n
          ∧ Sample01.initCubeMesh.colors[i]? = some c)
    ∧ (i ∈ Sample05.initCubeMesh.indices →
      i < 24 ∧ i < Sample05.initCubeMesh.positions.length
      ∧ ∃ p n c, Sample05.initCubeMesh.positions[i]? = some p
          ∧ Sample05.initCubeMesh.normals[i]? = some n
          ∧ Sample05.initCubeMesh.colors[i]? = some c) := by
  have h1 : ∀ j ∈ Sample01.initCubeMesh.indices, j < 24 := by decide
  have h5 : ∀ j ∈ Sample05.initCubeMesh.indices, j < 24 := by decide
  constructor
  · intro hi
    have hlt := h1 i hi
    have hp : i < Sample01.initCubeMesh.positions.length := hlt
    have hn : i < Sample01.initCubeMesh.normals.length := hlt
    have hc : i < Sample01.initCubeMesh.colors.length := hlt
    exact ⟨hlt, hlt, _, _, _, List.getElem?_eq_getElem hp, List.getElem?_eq_getElem hn,
      List.getElem?_eq_getElem hc⟩
  · intro hi
    have hlt := h5 i hi
    have hp : i < Sample05.initCubeMesh.positions.length := hlt
    have hn : i < Sample05.initCubeMesh.normals.length := hlt
    have hc : i < Sample05.initCubeMesh.colors.length := hlt
    exact ⟨hlt, hlt, _, _, _, List.getElem?_eq_getElem hp, List.getElem?_eq_getElem hn,
      List.getElem?_eq_getElem hc⟩

/-- Witness of C11 at the largest entry `23` of the cube index list. -/
theorem cube_index_in_range_witness :
    23 ∈ Sample01.initCubeMesh.indices
    ∧ 23 < 24
    ∧ ∃ p n c, Sample01.initCubeMesh.positions[23]? = some p
        ∧ Sample01.initCubeMesh.normals[23]? = some n
        ∧ Sample01.initCubeMesh.colors[23]? = some c :=
  ⟨by decide, ((cube_index_in_range 23).1 (by decide)).1,
    ((cube_index_in_range 23).1 (by decide)).2.2⟩

/-- C12: the cube index list of sample_01 begins with `0, 2, 1`, and these
three indices resolve through the position table to `(-1,-1,-1)`,
`(-1,1,-1)` and `(1,-1,-1)`, in that order. -/
theorem cube_first_triangle :
    Sample01.initCubeMesh.indices.take 3 = [0, 2, 1]
    ∧ (Sample01.initCubeMesh.indices.take 3).map (fun i => Sample01.initCubeMesh.positions[i]?)
        = [some (Vec3.mk (-1) (-1) (-1)), some (Vec3.mk (-1) 1 (-1)), some (Vec3.mk 1 (-1) (-1))]
    ∧ Sample01.initCubeMesh.positions[0]? = some (Vec3.mk (-1) (-1) (-1))
    ∧ Sample01.initCubeMesh.positions[2]? = some (Vec3.mk (-1) 1 (-1))
    ∧ Sample01.initCubeMesh.positions[1]? = some (Vec3.mk 1 (-1) (-1)) := by
  decide

/-- C13: with `longitudeSegments = 4` and `latitudeSegments = 4` the
generation loops of sample_06's `initSphereMesh` (which emits no texture
coordinates) give exactly 25 positions, 25 normals and 40 indices, and,
`cos` and `sin` being the real functions, vertex 0 is
`(cos(0)*sin(0), cos(0), sin(0)*sin(0)) = (0, 1, 0)`. -/
theorem sphere_4x4_scenario :
    (Sample06.initSphereMesh Real.cos Real.sin Real.pi 4 4).positions.length = 25
    ∧ (Sample06.initSphereMesh Real.cos Real.sin Real.pi 4 4).normals.length = 25
    ∧ (Sample06.initSphereMesh Real.cos Real.sin Real.pi 4 4).indices.length = 40
    ∧ (Sample06.initSphereMesh Real.cos Real.sin Real.pi 4 4).positions[0]?
        = some (Vec3.mk (Real.cos 0 * Real.sin 0) (Real.cos 0) (Real.sin 0 * Real.sin 0))
    ∧ (Sample06.initSphereMesh Real.cos Real.sin Real.pi 4 4).positions[0]?
        = some (Vec3.mk 0 1 0) := by
  have hp := Sample06.initSphereMesh06_positions Real.cos Real.sin Real.pi 4 4
  have hn := Sample06.initSphereMesh06_normals Real.cos Real.sin Real.pi 4 4
  have hi := Sample06.initSphereMesh06_indices Real.cos Real.sin Real.pi 4 4
  have hl := Sample06.indexLoop06_eq 4 4 []
  rw [Nat.cast_ofNat] at hp hn hi hl
  have h0 := getElem?_grid 4 4 (fun (y x : Nat) =>
    Sample06.spherePosition Real.cos Real.sin Real.pi ((4 : Nat) : Int) ((4 : Nat) : Int) y x)
    0 0 (by decide) (by decide)
  simp only [Nat.cast_ofNat, Nat.zero_mul, Nat.zero_add] at h0
  have hv : Sample06.spherePosition Real.cos Real.sin Real.pi 4 4 ((0 : Nat) : Int) ((0 : Nat) : Int)
      = Vec3.mk (Real.cos 0 * Real.sin 0) (Real.cos 0) (Real.sin 0 * Real.sin 0) := by
    simp [Sample06.spherePosition]
  refine ⟨?_, ?_, ?_, ?_, ?_⟩
  · rw [hp, length_grid]
  · rw [hn, length_grid]
  · rw [hi, hl, List.nil_append, List.length_map, length_zigzagStream]
  · rw [hp, h0, hv]
  · rw [hp, h0, hv]
    simp

/-! ## Draw modes -/

/-- C14: the primitive set built by `initCubeMesh` declares the draw mode
`Triangles` and the one built by `initSphereMesh` declares `TriangleStrip`
(sample_01 and sample_06, likewise sample_05 and sample_07).  The cube
declares 36 indices, a multiple of 3; the sphere of the source's `64 x 64`
declares 8320 indices, and for all positive segment counts the sphere
index count is at least 3. -/
theorem draw_modes {α : Type} [IntCast α] [Mul α] [Div α] [OfNat α 2]
    (cos sin : α → α) (pi : α) :
    ((Sample01.cubePrimitiveSet Sample01.initCubeMesh).mode = some Lug.Mode.Triangles
      ∧ (Sample05.cubePrimitiveSet Sample05.initCubeMesh).mode = some Lug.Mode.Triangles
      ∧ (∀ b : Sample06.SphereBuffers α,
          (Sample06.spherePrimitiveSet b).mode = some Lug.Mode.TriangleStrip)
      ∧ (∀ b : Sample07.SphereBuffers α,
          (Sample07.spherePrimitiveSet b).mode = some Lug.Mode.TriangleStrip))
    ∧ ((Sample01.cubePrimitiveSet Sample01.initCubeMesh).indexCount = some 36
      ∧ Sample01.initCubeMesh.indices.length = 36 ∧ 36 % 3 = 0)
    ∧ ((Sample06.spherePrimitiveSet
          (Sample06.initSphereMesh cos sin pi 64 64)).indexCount = some 8320
      ∧ 3 ≤ 8320)
    ∧ (∀ W H : Nat, 0 < W → 0 < H →
        3 ≤ (Sample06.initSphereMesh cos sin pi W H).indices.length) := by
  refine ⟨⟨rfl, rfl, fun _ => rfl, fun _ => rfl⟩, ⟨by decide, by decide, by decide⟩, ⟨?_, by decide⟩, ?_⟩
  · have hi := Sample06.initSphereMesh06_indices cos sin pi 64 64
    have hl := Sample06.indexLoop06_eq 64 64 []
    rw [Nat.cast_ofNat] at hi hl
    have hlen : (Sample06.initSphereMesh cos sin pi 64 64).indices.length = 8320 := by
      rw [hi, hl, List.nil_append, List.length_map, length_zigzagStream]
    simp [Sample06.spherePrimitiveSet, Lug.PrimitiveSet.indexCount,
      Lug.PrimitiveSet.addAttributeBuffer, Lug.PrimitiveSet.setMode, Lug.PrimitiveSet.fresh,
      hlen, castUInt32]
  · intro W H hW hH
    rw [Sample06.initSphereMesh06_indices, Sample06.indexLoop06_eq, List.nil_append,
      List.length_map, length_zigzagStream]
    have h1 : 2 * (W + 1) * 1 ≤ 2 * (W + 1) * H := Nat.mul_le_mul_left _ hH
    omega

/-- Witness of C14 on the `1 x 1` sphere over the real numbers. -/
theorem draw_modes_witness :
    3 ≤ (Sample06.initSphereMesh Real.cos Real.sin Real.pi ((1 : Nat) : Int)
          ((1 : Nat) : Int)).indices.length :=
  (draw_modes Real.cos Real.sin Real.pi).2.2.2 1 1 (by decide) (by decide)

/-! ## The `uint16_t` cast of the sphere indices -/

theorem mem_zigzagRow_of_le (W y x : Nat) (hx : x ≤ W) :
    y * (W + 1) + x ∈ zigzagRow W y ∧ (y + 1) * (W + 1) + x ∈ zigzagRow W y := by
  unfold zigzagRow
  split
  · simp only [List.mem_flatMap, List.mem_range, List.mem_cons, List.mem_singleton,
      List.not_mem_nil, or_false]
    exact ⟨⟨x, by omega, Or.inr rfl⟩, ⟨x, by omega, Or.inl rfl⟩⟩
  · simp only [List.mem_flatMap, List.mem_reverse, List.mem_range, List.mem_cons,
      List.mem_singleton, List.not_mem_nil, or_false]
    exact ⟨⟨x, by omega, Or.inl rfl⟩, ⟨x, by omega, Or.inr rfl⟩⟩

theorem mem_zigzagStream_of_lt (W H y x : Nat) (hy : y < H) (hx : x ≤ W) :
    y * (W + 1) + x ∈ zigzagStream W H ∧ (y + 1) * (W + 1) + x ∈ zigzagStream W H := by
  unfold zigzagStream
  simp only [List.mem_flatMap, List.mem_range]
  exact ⟨⟨y, hy, (mem_zigzagRow_of_le W y x hx).1⟩, ⟨y, hy, (mem_zigzagRow_of_le W y x hx).2⟩⟩

/-- The stored stream is the specification's stream exactly when the vertex
count fits in sixteen bits. -/
theorem map_mod_zigzagStream_eq_iff (W H : Nat) (hH : 0 < H) :
    (zigzagStream W H).map (fun i => i % 65536) = zigzagStream W H
      ↔ (H + 1) * (W + 1) ≤ 65536 := by
  constructor
  · intro h
    by_contra hbig
    have hmem := (mem_zigzagStream_of_lt W H (H - 1) W (by omega) le_rfl).2
    rw [← h, List.mem_map] at hmem
    obtain ⟨j, _, hj⟩ := hmem
    have hlt := Nat.mod_lt j (show 65536 > 0 by decide)
    have h1 : (H - 1 + 1) * (W + 1) = H * (W + 1) := by
      rw [Nat.sub_add_cancel hH]
    have h2 : (H + 1) * (W + 1) = H * (W + 1) + (W + 1) := Nat.succ_mul _ _
    omega
  · intro hsmall
    exact map_mod_eq_self _ (fun i hi => lt_of_lt_of_le (mem_zigzagStream_lt W H i hi) hsmall)

/-- C20: for positive segment counts `W`, `H`, every index stored by
`initSphereMesh` after `static_cast<uint16_t>` equals the untruncated value
(`row*(W+1)+x`, resp. `(row+1)*(W+1)+x`, in the order of the
specification's stream) if and only if `(H+1)*(W+1) ≤ 65536`, in sample_06
and in sample_07.  For the source's `64 x 64` the largest stored index is
`4224` and the stored stream is the untruncated one. -/
theorem sphere_index_cast_lossless {α : Type} [IntCast α] [Mul α] [Div α] [OfNat α 2]
    (cos sin : α → α) (pi : α) (W H : Nat) (_hW : 0 < W) (hH : 0 < H) :
    ((Sample06.initSphereMesh cos sin pi W H).indices = zigzagStream W H
        ↔ (H + 1) * (W + 1) ≤ 65536)
    ∧ ((Sample07.initSphereMesh cos sin pi W H).indices = zigzagStream W H
        ↔ (H + 1) * (W + 1) ≤ 65536)
    ∧ (4224 ∈ (Sample06.initSphereMesh cos sin pi 64 64).indices
      ∧ (∀ i ∈ (Sample06.initSphereMesh cos sin pi 64 64).indices, i ≤ 4224)
      ∧ (Sample06.initSphereMesh cos sin pi 64 64).indices = zigzagStream 64 64
      ∧ (Sample07.initSphereMesh cos sin pi 64 64).indices = zigzagStream 64 64) := by
  have h6 : ∀ W H : Nat, (Sample06.initSphereMesh cos sin pi W H).indices
      = (zigzagStream W H).map (fun i => i % 65536) := by
    intro W H
    rw [Sample06.initSphereMesh06_indices, Sample06.indexLoop06_eq, List.nil_append]
  have h7 : ∀ W H : Nat, (Sample07.initSphereMesh cos sin pi W H).indices
      = (zigzagStream W H).map (fun i => i % 65536) := by
    intro W H
    rw [Sample07.initSphereMesh07_indices, Sample07.indexLoop07_eq, List.nil_append]
  have hs := (map_mod_zigzagStream_eq_iff 64 64 (by decide)).2 (by decide)
  have e6 := h6 64 64
  have e7 := h7 64 64
  rw [Nat.cast_ofNat, hs] at e6 e7
  refine ⟨?_, ?_, ?_, ?_, e6, e7⟩
  · rw [h6]; exact map_mod_zigzagStream_eq_iff W H hH
  · rw [h7]; exact map_mod_zigzagStream_eq_iff W H hH
  · rw [e6]; exact (mem_zigzagStream_of_lt 64 64 63 64 (by decide) (by decide)).2
  · intro i hi
    rw [e6] at hi
    have := mem_zigzagStream_lt 64 64 i hi
    omega

/-- Witness of C20 on the source's `64 x 64` sphere over the real numbers. -/
theorem sphere_index_cast_lossless_witness :
    ((Sample06.initSphereMesh Real.cos Real.sin Real.pi ((64 : Nat) : Int)
        ((64 : Nat) : Int)).indices = zigzagStream 64 64
      ↔ (64 + 1) * (64 + 1) ≤ 65536)
    ∧ (64 + 1) * (64 + 1) ≤ 65536 :=
  ⟨(sphere_index_cast_lossless Real.cos Real.sin Real.pi 64 64 (by decide) (by decide)).1,
    by decide⟩

/-! ## Entries of the specification's stream by position -/

theorem getElem?_zigzagRow (W y j b : Nat) (hj : j ≤ W) (hb : b < 2) :
    (zigzagRow W y)[j * 2 + b]? = some (zigzagEntry W y j b) := by
  unfold zigzagRow zigzagEntry
  split
  · rw [getElem?_flatMap_const (fun x => [(y + 1) * (W + 1) + x, y * (W + 1) + x]) 2
      (fun _ => rfl) b hb, List.getElem?_range (by omega)]
    interval_cases b <;> rfl
  · rw [getElem?_flatMap_const (fun x => [y * (W + 1) + x, (y + 1) * (W + 1) + x]) 2
      (fun _ => rfl) b hb, List.getElem?_reverse (by simp; omega),
      List.getElem?_range (by simp; omega)]
    simp only [List.length_range, Option.some_bind]
    have hsub : W + 1 - 1 - j = W - j := by omega
    rw [hsub]
    interval_cases b <;> rfl

/-- The entry of the specification's stream at the position `2*(W+1)*y + 2*j + b`. -/
theorem getElem?_zigzagStream (W H y j b : Nat) (hy : y < H) (hj : j ≤ W) (hb : b < 2) :
    (zigzagStream W H)[2 * (W + 1) * y + 2 * j + b]? = some (zigzagEntry W y j b) := by
  have hk : 2 * (W + 1) * y + 2 * j + b = y * (2 * (W + 1)) + (j * 2 + b) := by ring
  unfold zigzagStream
  rw [hk, getElem?_flatMap_const (zigzagRow W) (2 * (W + 1)) (length_zigzagRow W)
    (j * 2 + b) (by omega), List.getElem?_range hy]
  exact getElem?_zigzagRow W y j b hj hb

theorem stream_position_decomp (W H k : Nat) (hk : k < 2 * (W + 1) * H) :
    ∃ y j b, y < H ∧ j ≤ W ∧ b < 2 ∧ k = 2 * (W + 1) * y + 2 * j + b := by
  have hn : 0 < 2 * (W + 1) := by omega
  refine ⟨k / (2 * (W + 1)), k % (2 * (W + 1)) / 2, k % (2 * (W + 1)) % 2, ?_, ?_, ?_, ?_⟩
  · exact Nat.div_lt_of_lt_mul hk
  · have := Nat.mod_lt k hn
    omega
  · omega
  · have h1 := Nat.div_add_mod k (2 * (W + 1))
    omega

theorem row_lt_of_position_lt (W H y r : Nat) (h : 2 * (W + 1) * y + r < 2 * (W + 1) * H) :
    y < H := by
  by_contra hge
  have h1 : 2 * (W + 1) * H ≤ 2 * (W + 1) * y := Nat.mul_le_mul_left _ (by omega)
  omega

/-- The three entries `k, k+1, k+2` of the specification's stream, by the
place of `k` in its row `y`: inside the row at an even or an odd offset, or
at one of the last two offsets of a row that is not the last. -/
theorem zigzagStream_triple (W H k : Nat) (hk : k + 2 < 2 * (W + 1) * H) :
    ∃ y j, y < H ∧ j ≤ W ∧
      ((j < W ∧ k = 2 * (W + 1) * y + 2 * j
          ∧ (zigzagStream W H)[k]? = some (zigzagEntry W y j 0)
          ∧ (zigzagStream W H)[k + 1]? = some (zigzagEntry W y j 1)
          ∧ (zigzagStream W H)[k + 2]? = some (zigzagEntry W y (j + 1) 0))
      ∨ (j < W ∧ k = 2 * (W + 1) * y + 2 * j + 1
          ∧ (zigzagStream W H)[k]? = some (zigzagEntry W y j 1)
          ∧ (zigzagStream W H)[k + 1]? = some (zigzagEntry W y (j + 1) 0)
          ∧ (zigzagStream W H)[k + 2]? = some (zigzagEntry W y (j + 1) 1))
      ∨ (j = W ∧ y + 1 < H ∧ k + 2 = 2 * (W + 1) * (y + 1)
          ∧ (zigzagStream W H)[k]? = some (zigzagEntry W y W 0)
          ∧ (zigzagStream W H)[k + 1]? = some (zigzagEntry W y W 1)
          ∧ (zigzagStream W H)[k + 2]? = some (zigzagEntry W (y + 1) 0 0))
      ∨ (j = W ∧ y + 1 < H ∧ k + 1 = 2 * (W + 1) * (y + 1)
          ∧ (zigzagStream W H)[k]? = some (zigzagEntry W y W 1)
          ∧ (zigzagStream W H)[k + 1]? = some (zigzagEntry W (y + 1) 0 0)
          ∧ (zigzagStream W H)[k + 2]? = some (zigzagEntry W (y + 1) 0 1))) := by
  obtain ⟨y, j, b, hy, hj, hb, rfl⟩ := stream_position_decomp W H k (by omega)
  have hmul : 2 * (W + 1) * (y + 1) = 2 * (W + 1) * y + 2 * (W + 1) := Nat.mul_succ _ _
  refine ⟨y, j, hy, hj, ?_⟩
  rcases Nat.lt_or_ge j W with hjW | hjW
  · interval_cases b
    · refine Or.inl ⟨hjW, rfl, getElem?_zigzagStream W H y j 0 hy hj (by decide), ?_, ?_⟩
      · exact getElem?_zigzagStream W H y j 1 hy hj (by decide)
      · have e : 2 * (W + 1) * y + 2 * j + 0 + 2 = 2 * (W + 1) * y + 2 * (j + 1) + 0 := by ring
        rw [e]
        exact getElem?_zigzagStream W H y (j + 1) 0 hy (by omega) (by decide)
    · refine Or.inr (Or.inl ⟨hjW, rfl, getElem?_zigzagStream W H y j 1 hy hj (by decide), ?_, ?_⟩)
      · have e : 2 * (W + 1) * y + 2 * j + 1 + 1 = 2 * (W + 1) * y + 2 * (j + 1) + 0 := by ring
        rw [e]
        exact getElem?_zigzagStream W H y (j + 1) 0 hy (by omega) (by decide)
      · have e : 2 * (W + 1) * y + 2 * j + 1 + 2 = 2 * (W + 1) * y + 2 * (j + 1) + 1 := by ring
        rw [e]
        exact getElem?_zigzagStream W H y (j + 1) 1 hy (by omega) (by decide)
  · have hjeq : W = j := by omega
    subst hjeq
    interval_cases b
    · have hy1 : y + 1 < H := row_lt_of_position_lt W H (y + 1) 0 (by omega)
      refine Or.inr (Or.inr (Or.inl ⟨rfl, hy1, by omega,
        getElem?_zigzagStream W H y W 0 hy hj (by decide),
        getElem?_zigzagStream W H y W 1 hy hj (by decide), ?_⟩))
      have e : 2 * (W + 1) * y + 2 * W + 0 + 2 = 2 * (W + 1) * (y + 1) + 2 * 0 + 0 := by ring
      rw [e]
      exact getElem?_zigzagStream W H (y + 1) 0 0 hy1 (by omega) (by decide)
    · have hy1 : y + 1 < H := row_lt_of_position_lt W H (y + 1) 0 (by omega)
      refine Or.inr (Or.inr (Or.inr ⟨rfl, hy1, by omega,
        getElem?_zigzagStream W H y W 1 hy hj (by decide), ?_, ?_⟩))
      · have e : 2 * (W + 1) * y + 2 * W + 1 + 1 = 2 * (W + 1) * (y + 1) + 2 * 0 + 0 := by ring
        rw [e]
        exact getElem?_zigzagStream W H (y + 1) 0 0 hy1 (by omega) (by decide)
      · have e : 2 * (W + 1) * y + 2 * W + 1 + 2 = 2 * (W + 1) * (y + 1) + 2 * 0 + 1 := by ring
        rw [e]
        exact getElem?_zigzagStream W H (y + 1) 0 1 hy1 (by omega) (by decide)

theorem boundary_position_iff (W y r q d : Nat) (hr : r < 2 * (W + 1)) (hd : 0 < d)
    (hd2 : d ≤ 2) :
    2 * (W + 1) * y + r + d = 2 * (W + 1) * (q + 1) ↔ q = y ∧ r + d = 2 * (W + 1) := by
  have hq : 2 * (W + 1) * (q + 1) = 2 * (W + 1) * q + 2 * (W + 1) := Nat.mul_succ _ _
  constructor
  · intro h
    rcases Nat.lt_trichotomy q y with hlt | heq | hgt
    · have h1 : 2 * (W + 1) * (q + 1) ≤ 2 * (W + 1) * y := Nat.mul_le_mul_left _ (by omega)
      omega
    · subst heq
      exact ⟨rfl, by omega⟩
    · have h1 : 2 * (W + 1) * (y + 1) ≤ 2 * (W + 1) * q := Nat.mul_le_mul_left _ (by omega)
      have h2 : 2 * (W + 1) * (y + 1) = 2 * (W + 1) * y + 2 * (W + 1) := Nat.mul_succ _ _
      omega
  · rintro ⟨rfl, h⟩
    omega

/-- The three entries `k, k+1, k+2` of the specification's stream as grid
points, by the parity of the row `y` of `k`, the parity of `k`, and whether
a row boundary lies at `k+1` or `k+2`. -/
theorem zigzagStream_triple_coords (W H k : Nat) (hk : k + 2 < 2 * (W + 1) * H) :
    ∃ y x, y < H ∧
      ((y % 2 = 0 ∧ x < W ∧ k % 2 = 0 ∧ ¬ StraddlesRowBoundary W H k
          ∧ StreamTriple (zigzagStream W H) k
              (gridIndex W (y + 1) x) (gridIndex W y x) (gridIndex W (y + 1) (x + 1)))
      ∨ (y % 2 = 0 ∧ x < W ∧ k % 2 = 1 ∧ ¬ StraddlesRowBoundary W H k
          ∧ StreamTriple (zigzagStream W H) k
              (gridIndex W y x) (gridIndex W (y + 1) (x + 1)) (gridIndex W y (x + 1)))
      ∨ (y % 2 = 1 ∧ x < W ∧ k % 2 = 0 ∧ ¬ StraddlesRowBoundary W H k
          ∧ StreamTriple (zigzagStream W H) k
              (gridIndex W y (x + 1)) (gridIndex W (y + 1) (x + 1)) (gridIndex W y x))
      ∨ (y % 2 = 1 ∧ x < W ∧ k % 2 = 1 ∧ ¬ StraddlesRowBoundary W H k
          ∧ StreamTriple (zigzagStream W H) k
              (gridIndex W (y + 1) (x + 1)) (gridIndex W y x) (gridIndex W (y + 1) x))
      ∨ (y % 2 = 0 ∧ y + 1 < H ∧ k % 2 = 0 ∧ k + 2 = 2 * (W + 1) * (y + 1)
          ∧ StreamTriple (zigzagStream W H) k
              (gridIndex W (y + 1) W) (gridIndex W y W) (gridIndex W (y + 1) W))
      ∨ (y % 2 = 0 ∧ y + 1 < H ∧ k % 2 = 1 ∧ k + 1 = 2 * (W + 1) * (y + 1)
          ∧ StreamTriple (zigzagStream W H) k
              (gridIndex W y W) (gridIndex W (y + 1) W) (gridIndex W (y + 2) W))
      ∨ (y % 2 = 1 ∧ y + 1 < H ∧ k % 2 = 0 ∧ k + 2 = 2 * (W + 1) * (y + 1)
          ∧ StreamTriple (zigzagStream W H) k
              (gridIndex W y 0) (gridIndex W (y + 1) 0) (gridIndex W (y + 2) 0))
      ∨ (y % 2 = 1 ∧ y + 1 < H ∧ k % 2 = 1 ∧ k + 1 = 2 * (W + 1) * (y + 1)
          ∧ StreamTriple (zigzagStream W H) k
              (gridIndex W (y + 1) 0) (gridIndex W (y + 2) 0) (gridIndex W (y + 1) 0))) := by
  obtain ⟨y, j, hy, hj, hshape⟩ := zigzagStream_triple W H k hk
  have heven : 2 * (W + 1) * y = 2 * ((W + 1) * y) := Nat.mul_assoc _ _ _
  have heven1 : 2 * (W + 1) * (y + 1) = 2 * ((W + 1) * (y + 1)) := Nat.mul_assoc _ _ _
  have hinner : ∀ r, r < 2 * (W + 1) → r + 2 < 2 * (W + 1) → k = 2 * (W + 1) * y + r →
      ¬ StraddlesRowBoundary W H k := by
    intro r hr hr2 hkr
    rintro ⟨q, _, h | h⟩
    · rw [hkr, boundary_position_iff W y r q 1 hr (by decide) (by decide)] at h
      omega
    · rw [hkr, boundary_position_iff W y r q 2 hr (by decide) (by decide)] at h
      omega
  rcases Nat.mod_two_eq_zero_or_one y with hp | hp
  · have hp1 : (y + 1) % 2 ≠ 0 := by omega
    rcases hshape with ⟨hjW, hkeq, h0, h1, h2⟩ | ⟨hjW, hkeq, h0, h1, h2⟩
      | ⟨hjW, hy1, hkeq, h0, h1, h2⟩ | ⟨hjW, hy1, hkeq, h0, h1, h2⟩
    · refine ⟨y, j, hy, Or.inl ⟨hp, hjW, by omega, hinner (2 * j) (by omega) (by omega) hkeq, ?_⟩⟩
      simpa [zigzagEntry, hp, gridIndex, StreamTriple] using And.intro h0 (And.intro h1 h2)
    · refine ⟨y, j, hy, Or.inr (Or.inl ⟨hp, hjW, by omega,
        hinner (2 * j + 1) (by omega) (by omega) (by omega), ?_⟩)⟩
      simpa [zigzagEntry, hp, gridIndex, StreamTriple] using And.intro h0 (And.intro h1 h2)
    · refine ⟨y, j, hy, Or.inr (Or.inr (Or.inr (Or.inr (Or.inl
        ⟨hp, hy1, by omega, hkeq, ?_⟩))))⟩
      simpa [zigzagEntry, hp, hp1, gridIndex, StreamTriple] using
        And.intro h0 (And.intro h1 h2)
    · refine ⟨y, j, hy, Or.inr (Or.inr (Or.inr (Or.inr (Or.inr (Or.inl
        ⟨hp, hy1, by omega, hkeq, ?_⟩)))))⟩
      simpa [zigzagEntry, hp, hp1, gridIndex, StreamTriple] using
        And.intro h0 (And.intro h1 h2)
  · have hp0 : y % 2 ≠ 0 := by omega
    have hp1 : (y + 1) % 2 = 0 := by omega
    rcases hshape with ⟨hjW, hkeq, h0, h1, h2⟩ | ⟨hjW, hkeq, h0, h1, h2⟩
      | ⟨hjW, hy1, hkeq, h0, h1, h2⟩ | ⟨hjW, hy1, hkeq, h0, h1, h2⟩
    · obtain ⟨x, rfl⟩ : ∃ x, W = j + 1 + x := ⟨W - (j + 1), by omega⟩
      have e1 : j + 1 + x - j = x + 1 := by omega
      have e2 : j + 1 + x - (j + 1) = x := by omega
      refine ⟨y, x, hy, Or.inr (Or.inr (Or.inl ⟨hp, by omega, by omega,
        hinner (2 * j) (by omega) (by omega) hkeq, ?_⟩))⟩
      simpa [zigzagEntry, hp0, gridIndex, StreamTriple, e1, e2] using
        And.intro h0 (And.intro h1 h2)
    · obtain ⟨x, rfl⟩ : ∃ x, W = j + 1 + x := ⟨W - (j + 1), by omega⟩
      have e1 : j + 1 + x - j = x + 1 := by omega
      have e2 : j + 1 + x - (j + 1) = x := by omega
      refine ⟨y, x, hy, Or.inr (Or.inr (Or.inr (Or.inl ⟨hp, by omega, by omega,
        hinner (2 * j + 1) (by omega) (by omega) (by omega), ?_⟩)))⟩
      simpa [zigzagEntry, hp0, gridIndex, StreamTriple, e1, e2] using
        And.intro h0 (And.intro h1 h2)
    · refine ⟨y, j, hy, Or.inr (Or.inr (Or.inr (Or.inr (Or.inr (Or.inr (Or.inl
        ⟨hp, hy1, by omega, hkeq, ?_⟩))))))⟩
      simpa [zigzagEntry, hp0, hp1, gridIndex, StreamTriple] using
        And.intro h0 (And.intro h1 h2)
    · refine ⟨y, j, hy, Or.inr (Or.inr (Or.inr (Or.inr (Or.inr (Or.inr (Or.inr
        ⟨hp, hy1, by omega, hkeq, ?_⟩))))))⟩
      simpa [zigzagEntry, hp0, hp1, gridIndex, StreamTriple] using
        And.intro h0 (And.intro h1 h2)

theorem boundary_unique (W k y q d e : Nat) (hd : d = 1 ∨ d = 2) (he : e = 1 ∨ e = 2)
    (h1 : k + d = 2 * (W + 1) * (y + 1)) (h2 : k + e = 2 * (W + 1) * (q + 1)) :
    q = y ∧ e = d := by
  have e1 : 2 * (W + 1) * (y + 1) = 2 * ((W + 1) * (y + 1)) := Nat.mul_assoc _ _ _
  have e2 : 2 * (W + 1) * (q + 1) = 2 * ((W + 1) * (q + 1)) := Nat.mul_assoc _ _ _
  have hde : e = d := by omega
  subst hde
  have hmul : 2 * (W + 1) * (q + 1) = 2 * (W + 1) * (y + 1) := by omega
  have := Nat.eq_of_mul_eq_mul_left (show 0 < 2 * (W + 1) by omega) hmul
  exact ⟨by omega, rfl⟩

theorem gridIndex_inj (W r c r' c' : Nat) (hc : c ≤ W) (hc' : c' ≤ W) :
    gridIndex W r c = gridIndex W r' c' ↔ r = r' ∧ c = c' := by
  unfold gridIndex
  constructor
  · intro h
    rcases Nat.lt_trichotomy r r' with hlt | heq | hgt
    · have h1 : (r + 1) * (W + 1) ≤ r' * (W + 1) := Nat.mul_le_mul_right _ (by omega)
      have h2 : (r + 1) * (W + 1) = r * (W + 1) + (W + 1) := Nat.succ_mul _ _
      omega
    · subst heq
      exact ⟨rfl, by omega⟩
    · have h1 : (r' + 1) * (W + 1) ≤ r * (W + 1) := Nat.mul_le_mul_right _ (by omega)
      have h2 : (r' + 1) * (W + 1) = r' * (W + 1) + (W + 1) := Nat.succ_mul _ _
      omega
  · rintro ⟨rfl, rfl⟩
    rfl

theorem streamTriple_eq {s : List Nat} {k a b c a' b' c' : Nat}
    (h : StreamTriple s k a b c) (h' : StreamTriple s k a' b' c') :
    a = a' ∧ b = b' ∧ c = c' :=
  ⟨Option.some.inj (h.1.symm.trans h'.1), Option.some.inj (h.2.1.symm.trans h'.2.1),
    Option.some.inj (h.2.2.symm.trans h'.2.2)⟩

theorem streamTriple_lt {s : List Nat} {k a b c : Nat} (h : StreamTriple s k a b c) :
    k + 2 < s.length := by
  by_contra hge
  have := h.2.2
  rw [List.getElem?_eq_none (by omega)] at this
  exact Option.noConfusion this

/-- In the specification's stream the entries `k` and `k+1` differ, the
entries `k+1` and `k+2` differ, and the entries `k` and `k+2` are the same
vertex exactly at the turn of a row: two entries before the end of an even
row, one entry before the end of an odd row, the last row apart. -/
theorem zigzagStream_triple_distinct (W H k a b c : Nat)
    (h : StreamTriple (zigzagStream W H) k a b c) :
    a ≠ b ∧ b ≠ c
    ∧ (a = c ↔ ∃ y, y + 1 < H ∧ ((y % 2 = 0 ∧ k + 2 = 2 * (W + 1) * (y + 1))
        ∨ (y % 2 = 1 ∧ k + 1 = 2 * (W + 1) * (y + 1)))) := by
  have hk : k + 2 < 2 * (W + 1) * H := by
    have := streamTriple_lt h
    rwa [length_zigzagStream] at this
  have hno : ¬ StraddlesRowBoundary W H k →
      ¬ ∃ y, y + 1 < H ∧ ((y % 2 = 0 ∧ k + 2 = 2 * (W + 1) * (y + 1))
        ∨ (y % 2 = 1 ∧ k + 1 = 2 * (W + 1) * (y + 1))) := by
    rintro hns ⟨q, hq, h | h⟩
    · exact hns ⟨q, hq, Or.inr h.2⟩
    · exact hns ⟨q, hq, Or.inl h.2⟩
  obtain ⟨y, x, hy, hcase⟩ := zigzagStream_triple_coords W H k hk
  rcases hcase with ⟨hp, hx, hk2, hns, ht⟩ | ⟨hp, hx, hk2, hns, ht⟩ | ⟨hp, hx, hk2, hns, ht⟩
    | ⟨hp, hx, hk2, hns, ht⟩ | ⟨hp, hy1, hk2, hkb, ht⟩ | ⟨hp, hy1, hk2, hkb, ht⟩
    | ⟨hp, hy1, hk2, hkb, ht⟩ | ⟨hp, hy1, hk2, hkb, ht⟩ <;>
    obtain ⟨rfl, rfl, rfl⟩ := streamTriple_eq h ht
  · refine ⟨?_, ?_, ?_⟩
    · rw [Ne, gridIndex_inj W _ _ _ _ (by omega) (by omega)]; omega
    · rw [Ne, gridIndex_inj W _ _ _ _ (by omega) (by omega)]; omega
    · rw [gridIndex_inj W _ _ _ _ (by omega) (by omega)]
      exact ⟨fun h => by omega, fun h => absurd h (hno hns)⟩
  · refine ⟨?_, ?_, ?_⟩
    · rw [Ne, gridIndex_inj W _ _ _ _ (by omega) (by omega)]; omega
    · rw [Ne, gridIndex_inj W _ _ _ _ (by omega) (by omega)]; omega
    · rw [gridIndex_inj W _ _ _ _ (by omega) (by omega)]
      exact ⟨fun h => by omega, fun h => absurd h (hno hns)⟩
  · refine ⟨?_, ?_, ?_⟩
    · rw [Ne, gridIndex_inj W _ _ _ _ (by omega) (by omega)]; omega
    · rw [Ne, gridIndex_inj W _ _ _ _ (by omega) (by omega)]; omega
    · rw [gridIndex_inj W _ _ _ _ (by omega) (by omega)]
      exact ⟨fun h => by omega, fun h => absurd h (hno hns)⟩
  · refine ⟨?_, ?_, ?_⟩
    · rw [Ne, gridIndex_inj W _ _ _ _ (by omega) (by omega)]; omega
    · rw [Ne, gridIndex_inj W _ _ _ _ (by omega) (by omega)]; omega
    · rw [gridIndex_inj W _ _ _ _ (by omega) (by omega)]
      exact ⟨fun h => by omega, fun h => absurd h (hno hns)⟩
  · refine ⟨?_, ?_, ?_⟩
    · rw [Ne, gridIndex_inj W _ _ _ _ (by omega) (by omega)]; omega
    · rw [Ne, gridIndex_inj W _ _ _ _ (by omega) (by omega)]; omega
    · exact ⟨fun _ => ⟨y, hy1, Or.inl ⟨hp, hkb⟩⟩, fun _ => rfl⟩
  · refine ⟨?_, ?_, ?_⟩
    · rw [Ne, gridIndex_inj W _ _ _ _ (by omega) (by omega)]; omega
    · rw [Ne, gridIndex_inj W _ _ _ _ (by omega) (by omega)]; omega
    · rw [gridIndex_inj W _ _ _ _ (by omega) (by omega)]
      refine ⟨fun h => by omega, ?_⟩
      rintro ⟨q, _, ⟨_, hq⟩ | ⟨hq2, hq⟩⟩
      · have := boundary_unique W k y q 1 2 (by decide) (by decide) hkb hq
        omega
      · have := boundary_unique W k y q 1 1 (by decide) (by decide) hkb hq
        omega
  · refine ⟨?_, ?_, ?_⟩
    · rw [Ne, gridIndex_inj W _ _ _ _ (by omega) (by omega)]; omega
    · rw [Ne, gridIndex_inj W _ _ _ _ (by omega) (by omega)]; omega
    · rw [gridIndex_inj W _ _ _ _ (by omega) (by omega)]
      refine ⟨fun h => by omega, ?_⟩
      rintro ⟨q, _, ⟨hq2, hq⟩ | ⟨_, hq⟩⟩
      · have := boundary_unique W k y q 2 2 (by decide) (by decide) hkb hq
        omega
      · have := boundary_unique W k y q 2 1 (by decide) (by decide) hkb hq
        omega
  · refine ⟨?_, ?_, ?_⟩
    · rw [Ne, gridIndex_inj W _ _ _ _ (by omega) (by omega)]; omega
    · rw [Ne, gridIndex_inj W _ _ _ _ (by omega) (by omega)]; omega
    · exact ⟨fun _ => ⟨y, hy1, Or.inr ⟨hp, hkb⟩⟩, fun _ => rfl⟩

/-! ## Triangles of the generated strip -/

theorem indices06_eq_zigzagStream {α : Type} [IntCast α] [Mul α] [Div α] [OfNat α 2]
    (cos sin : α → α) (pi : α) (W H : Nat) (hsmall : (H + 1) * (W + 1) ≤ 65536) :
    (Sample06.initSphereMesh cos sin pi W H).indices = zigzagStream W H := by
  rw [Sample06.initSphereMesh06_indices, Sample06.indexLoop06_eq, List.nil_append]
  exact map_mod_eq_self _ (fun i hi => lt_of_lt_of_le (mem_zigzagStream_lt W H i hi) hsmall)

theorem indices07_eq_zigzagStream {α : Type} [IntCast α] [Mul α] [Div α] [OfNat α 2]
    (cos sin : α → α) (pi : α) (W H : Nat) (hsmall : (H + 1) * (W + 1) ≤ 65536) :
    (Sample07.initSphereMesh cos sin pi W H).indices = zigzagStream W H := by
  rw [Sample07.initSphereMesh07_indices, Sample07.indexLoop07_eq, List.nil_append]
  exact map_mod_eq_self _ (fun i hi => lt_of_lt_of_le (mem_zigzagStream_lt W H i hi) hsmall)

theorem indices06_getElem? {α : Type} [IntCast α] [Mul α] [Div α] [OfNat α 2]
    (cos sin : α → α) (pi : α) (W H k : Nat) :
    (Sample06.initSphereMesh cos sin pi W H).indices[k]?
      = ((zigzagStream W H)[k]?).map (fun i => i % 65536) := by
  rw [Sample06.initSphereMesh06_indices, Sample06.indexLoop06_eq, List.nil_append,
    List.getElem?_map]

theorem indices06_lt {α : Type} [IntCast α] [Mul α] [Div α] [OfNat α 2]
    (cos sin : α → α) (pi : α) (W H i : Nat)
    (hi : i ∈ (Sample06.initSphereMesh cos sin pi W H).indices) : i < 65536 := by
  rw [Sample06.initSphereMesh06_indices, Sample06.indexLoop06_eq, List.nil_append,
    List.mem_map] at hi
  obtain ⟨j, _, rfl⟩ := hi
  exact Nat.mod_lt j (by decide)

/-- Counterexample to C17 as stated.  On the `2 x 2` sphere the entries
`4, 5, 6` of the index stream are `5, 2, 5`: the triple at the turn from
row 0 to row 1 repeats the vertex 5.  And on the `65535 x 2` sphere, whose
indices no longer fit in a `uint16_t`, the entries `0` and `1` are both
the value `0`. -/
theorem sphere_strip_repeats_vertex :
    ((Sample06.initSphereMesh Real.cos Real.sin Real.pi 2 2).indices
        = [3, 0, 4, 1, 5, 2, 5, 8, 4, 7, 3, 6]
      ∧ StreamTriple (Sample06.initSphereMesh Real.cos Real.sin Real.pi 2 2).indices 4 5 2 5)
    ∧ StreamTriple (Sample06.initSphereMesh Real.cos Real.sin Real.pi 65535 2).indices 0 0 0 1 := by
  have h2 := indices06_eq_zigzagStream Real.cos Real.sin Real.pi 2 2 (by decide)
  rw [Nat.cast_ofNat] at h2
  have hlist : (Sample06.initSphereMesh Real.cos Real.sin Real.pi 2 2).indices
      = [3, 0, 4, 1, 5, 2, 5, 8, 4, 7, 3, 6] := by
    rw [h2]; decide
  refine ⟨⟨hlist, ?_⟩, ?_⟩
  · rw [hlist]; exact ⟨rfl, rfl, rfl⟩
  · have e0 := indices06_getElem? Real.cos Real.sin Real.pi 65535 2 0
    have e1 := indices06_getElem? Real.cos Real.sin Real.pi 65535 2 1
    have e2 := indices06_getElem? Real.cos Real.sin Real.pi 65535 2 2
    have z0 := getElem?_zigzagStream 65535 2 0 0 0 (by decide) (by decide) (by decide)
    have z1 := getElem?_zigzagStream 65535 2 0 0 1 (by decide) (by decide) (by decide)
    have z2 := getElem?_zigzagStream 65535 2 0 1 0 (by decide) (by decide) (by decide)
    rw [Nat.cast_ofNat] at e0 e1 e2
    simp only [Nat.mul_zero, Nat.zero_add, Nat.add_zero, Nat.mul_one] at z0 z1 z2
    rw [z0] at e0
    rw [z1] at e1
    rw [z2] at e2
    exact ⟨e0, e1, e2⟩

/-- C17, amended: when `(H+1)*(W+1) ≤ 65536` (as for the source's
`64 x 64`), for every three consecutive entries `a, b, c` at the positions
`k, k+1, k+2` of the index stream of `initSphereMesh` (sample_06 and
sample_07), `a` differs from `b` and `b` differs from `c`; `a` and `c` are
the same vertex, a degenerate connecting triangle, exactly for one triple
at each of the `H-1` row boundaries: the one that starts two entries
before the end of an even row, or one entry before the end of an odd
row. -/
theorem sphere_strip_triples {α : Type} [IntCast α] [Mul α] [Div α] [OfNat α 2]
    (cos sin : α → α) (pi : α) (W H : Nat) (hsmall : (H + 1) * (W + 1) ≤ 65536)
    (k a b c : Nat) :
    (StreamTriple (Sample06.initSphereMesh cos sin pi W H).indices k a b c →
      a ≠ b ∧ b ≠ c
      ∧ (a = c ↔ ∃ y, y + 1 < H ∧ ((y % 2 = 0 ∧ k + 2 = 2 * (W + 1) * (y + 1))
          ∨ (y % 2 = 1 ∧ k + 1 = 2 * (W + 1) * (y + 1)))))
    ∧ (StreamTriple (Sample07.initSphereMesh cos sin pi W H).indices k a b c →
      a ≠ b ∧ b ≠ c
      ∧ (a = c ↔ ∃ y, y + 1 < H ∧ ((y % 2 = 0 ∧ k + 2 = 2 * (W + 1) * (y + 1))
          ∨ (y % 2 = 1 ∧ k + 1 = 2 * (W + 1) * (y + 1))))) := by
  rw [indices06_eq_zigzagStream cos sin pi W H hsmall,
    indices07_eq_zigzagStream cos sin pi W H hsmall]
  exact ⟨zigzagStream_triple_distinct W H k a b c, zigzagStream_triple_distinct W H k a b c⟩

/-- Witness of C17 on the `2 x 2` sphere over the real numbers, at the
first triple `3, 0, 4` of the stream. -/
theorem sphere_strip_triples_witness :
    StreamTriple (Sample06.initSphereMesh Real.cos Real.sin Real.pi ((2 : Nat) : Int)
        ((2 : Nat) : Int)).indices 0 3 0 4
    ∧ (3 ≠ 0 ∧ 0 ≠ 4) :=
  have ht : StreamTriple (Sample06.initSphereMesh Real.cos Real.sin Real.pi ((2 : Nat) : Int)
      ((2 : Nat) : Int)).indices 0 3 0 4 := by
    rw [indices06_eq_zigzagStream Real.cos Real.sin Real.pi 2 2 (by decide)]
    exact ⟨by decide, by decide, by decide⟩
  ⟨ht, ((sphere_strip_triples Real.cos Real.sin Real.pi 2 2 (by decide) 0 3 0 4).1 ht).1,
    ((sphere_strip_triples Real.cos Real.sin Real.pi 2 2 (by decide) 0 3 0 4).1 ht).2.1⟩

/-- The two triangles of the cell `(y, x)` cut by the diagonal from `(y, x)`
to `(y+1, x+1)` both occur in the specification's stream. -/
theorem zigzagStream_covers_cell (W H y x : Nat) (hy : y < H) (hx : x < W) :
    OccursAsTriangle (zigzagStream W H)
        (gridIndex W y x) (gridIndex W (y + 1) x) (gridIndex W (y + 1) (x + 1))
    ∧ OccursAsTriangle (zigzagStream W H)
        (gridIndex W y x) (gridIndex W y (x + 1)) (gridIndex W (y + 1) (x + 1)) := by
  rcases Nat.mod_two_eq_zero_or_one y with hp | hp
  · have h0 := getElem?_zigzagStream W H y x 0 hy (by omega) (by decide)
    have h1 := getElem?_zigzagStream W H y x 1 hy (by omega) (by decide)
    have h2 := getElem?_zigzagStream W H y (x + 1) 0 hy (by omega) (by decide)
    have h3 := getElem?_zigzagStream W H y (x + 1) 1 hy (by omega) (by decide)
    simp only [zigzagEntry, hp, if_true, Nat.add_zero, Nat.one_ne_zero, if_false] at h0 h1 h2 h3
    have e2 : 2 * (W + 1) * y + 2 * (x + 1) = 2 * (W + 1) * y + 2 * x + 2 := by ring
    have e3 : 2 * (W + 1) * y + 2 * (x + 1) + 1 = 2 * (W + 1) * y + 2 * x + 1 + 2 := by ring
    have e4 : 2 * (W + 1) * y + 2 * (x + 1) = 2 * (W + 1) * y + 2 * x + 1 + 1 := by ring
    constructor
    · refine ⟨2 * (W + 1) * y + 2 * x, _, _, _, ⟨h0, h1, e2 ▸ h2⟩, ?_⟩
      intro v
      unfold gridIndex
      tauto
    · refine ⟨2 * (W + 1) * y + 2 * x + 1, _, _, _, ⟨h1, e4 ▸ h2, e3 ▸ h3⟩, ?_⟩
      intro v
      unfold gridIndex
      tauto
  · have hp0 : y % 2 ≠ 0 := by omega
    obtain ⟨j, rfl⟩ : ∃ j, W = x + 1 + j := ⟨W - (x + 1), by omega⟩
    have h0 := getElem?_zigzagStream (x + 1 + j) H y j 0 hy (by omega) (by decide)
    have h1 := getElem?_zigzagStream (x + 1 + j) H y j 1 hy (by omega) (by decide)
    have h2 := getElem?_zigzagStream (x + 1 + j) H y (j + 1) 0 hy (by omega) (by decide)
    have h3 := getElem?_zigzagStream (x + 1 + j) H y (j + 1) 1 hy (by omega) (by decide)
    have s1 : x + 1 + j - j = x + 1 := by omega
    have s2 : x + 1 + j - (j + 1) = x := by omega
    simp only [zigzagEntry, hp0, if_true, Nat.add_zero, Nat.one_ne_zero, if_false, s1, s2]
      at h0 h1 h2 h3
    have e2 : 2 * (x + 1 + j + 1) * y + 2 * (j + 1)
        = 2 * (x + 1 + j + 1) * y + 2 * j + 2 := by ring
    have e3 : 2 * (x + 1 + j + 1) * y + 2 * (j + 1) + 1
        = 2 * (x + 1 + j + 1) * y + 2 * j + 1 + 2 := by ring
    have e4 : 2 * (x + 1 + j + 1) * y + 2 * (j + 1)
        = 2 * (x + 1 + j + 1) * y + 2 * j + 1 + 1 := by ring
    constructor
    · refine ⟨2 * (x + 1 + j + 1) * y + 2 * j + 1, _, _, _, ⟨h1, e4 ▸ h2, e3 ▸ h3⟩, ?_⟩
      intro v
      unfold gridIndex
      tauto
    · refine ⟨2 * (x + 1 + j + 1) * y + 2 * j, _, _, _, ⟨h0, h1, e2 ▸ h2⟩, ?_⟩
      intro v
      unfold gridIndex
      tauto

theorem occursAsTriangle_mem {s : List Nat} {p q r : Nat} (h : OccursAsTriangle s p q r) :
    p ∈ s ∧ q ∈ s ∧ r ∈ s := by
  obtain ⟨k, a, b, c, ⟨ha, hb, hc⟩, hset⟩ := h
  have ma := List.getElem?_mem ha
  have mb := List.getElem?_mem hb
  have mc := List.getElem?_mem hc
  refine ⟨?_, ?_, ?_⟩
  · rcases (hset p).2 (Or.inl rfl) with h | h | h <;> rw [h] <;> assumption
  · rcases (hset q).2 (Or.inr (Or.inl rfl)) with h | h | h <;> rw [h] <;> assumption
  · rcases (hset r).2 (Or.inr (Or.inr rfl)) with h | h | h <;> rw [h] <;> assumption

/-- Counterexample to C18 as stated: on the `256 x 256` sphere the cell
`(y, x) = (255, 0)` is not covered.  Each of its four candidate triangles
has a corner in row 256, the vertex `256*257+0 = 65792` or
`256*257+1 = 65793`, and no entry of the `uint16_t` index stream has such
a value. -/
theorem sphere_strip_misses_cell :
    ¬ ((OccursAsTriangle (Sample06.initSphereMesh Real.cos Real.sin Real.pi 256 256).indices
          (gridIndex 256 255 0) (gridIndex 256 256 0) (gridIndex 256 256 1)
        ∧ OccursAsTriangle (Sample06.initSphereMesh Real.cos Real.sin Real.pi 256 256).indices
          (gridIndex 256 255 0) (gridIndex 256 255 1) (gridIndex 256 256 1))
      ∨ (OccursAsTriangle (Sample06.initSphereMesh Real.cos Real.sin Real.pi 256 256).indices
          (gridIndex 256 255 0) (gridIndex 256 256 0) (gridIndex 256 255 1)
        ∧ OccursAsTriangle (Sample06.initSphereMesh Real.cos Real.sin Real.pi 256 256).indices
          (gridIndex 256 256 0) (gridIndex 256 255 1) (gridIndex 256 256 1))) := by
  have hlt : ∀ i ∈ (Sample06.initSphereMesh Real.cos Real.sin Real.pi 256 256).indices,
      i < 65536 := by
    intro i hi
    have h := indices06_lt Real.cos Real.sin Real.pi 256 256 i
    rw [Nat.cast_ofNat] at h
    exact h hi
  have hbig : ¬ gridIndex 256 256 0 < 65536 := by decide
  rintro (⟨h1, _⟩ | ⟨h1, _⟩)
  · exact hbig (hlt _ (occursAsTriangle_mem h1).2.1)
  · exact hbig (hlt _ (occursAsTriangle_mem h1).2.1)

/-- C18, amended: for positive segment counts with `(H+1)*(W+1) ≤ 65536`
(as for the source's `64 x 64`) the strip of `initSphereMesh` (sample_06
and sample_07) covers the whole grid: for every cell `(y, x)` with `y < H`
and `x < W`, the two triangles `{(y,x), (y+1,x), (y+1,x+1)}` and
`{(y,x), (y,x+1), (y+1,x+1)}` both occur as the set of three consecutive
entries of the index stream, the grid point `(r, c)` being the vertex index
`r*(W+1)+c`. -/
theorem sphere_strip_covers_grid {α : Type} [IntCast α] [Mul α] [Div α] [OfNat α 2]
    (cos sin : α → α) (pi : α) (W H : Nat) (_hW : 0 < W) (_hH : 0 < H)
    (hsmall : (H + 1) * (W + 1) ≤ 65536) (y x : Nat) (hy : y < H) (hx : x < W) :
    (OccursAsTriangle (Sample06.initSphereMesh cos sin pi W H).indices
          (gridIndex W y x) (gridIndex W (y + 1) x) (gridIndex W (y + 1) (x + 1))
      ∧ OccursAsTriangle (Sample06.initSphereMesh cos sin pi W H).indices
          (gridIndex W y x) (gridIndex W y (x + 1)) (gridIndex W (y + 1) (x + 1)))
    ∧ (OccursAsTriangle (Sample07.initSphereMesh cos sin pi W H).indices
          (gridIndex W y x) (gridIndex W (y + 1) x) (gridIndex W (y + 1) (x + 1))
      ∧ OccursAsTriangle (Sample07.initSphereMesh cos sin pi W H).indices
          (gridIndex W y x) (gridIndex W y (x + 1)) (gridIndex W (y + 1) (x + 1))) := by
  rw [indices06_eq_zigzagStream cos sin pi W H hsmall,
    indices07_eq_zigzagStream cos sin pi W H hsmall]
  exact ⟨zigzagStream_covers_cell W H y x hy hx, zigzagStream_covers_cell W H y x hy hx⟩

/-- Witness of C18 on the source's `64 x 64` sphere over the real numbers,
at the cell `(y, x) = (63, 63)`. -/
theorem sphere_strip_covers_grid_witness :
    OccursAsTriangle (Sample06.initSphereMesh Real.cos Real.sin Real.pi ((64 : Nat) : Int)
        ((64 : Nat) : Int)).indices
      (gridIndex 64 63 63) (gridIndex 64 (63 + 1) 63) (gridIndex 64 (63 + 1) (63 + 1))
    ∧ OccursAsTriangle (Sample06.initSphereMesh Real.cos Real.sin Real.pi ((64 : Nat) : Int)
        ((64 : Nat) : Int)).indices
      (gridIndex 64 63 63) (gridIndex 64 63 (63 + 1)) (gridIndex 64 (63 + 1) (63 + 1)) :=
  (sphere_strip_covers_grid Real.cos Real.sin Real.pi 64 64 (by decide) (by decide) (by decide)
    63 63 (by decide) (by decide)).1

/-! ## Winding of the strip -/

theorem gridPoint_gridIndex (W r c : Nat) (hc : c ≤ W) :
    gridPoint W (gridIndex W r c) = ((c : Int), (r : Int)) := by
  unfold gridPoint gridIndex
  rw [Nat.add_comm (r * (W + 1)) c, Nat.add_mul_mod_self_right,
    Nat.add_mul_div_right _ _ (by omega : 0 < W + 1), Nat.mod_eq_of_lt (by omega),
    Nat.div_eq_of_lt (by omega), Nat.zero_add]

/-- Signed areas of the triples of the specification's stream. -/
theorem zigzagStream_triple_area (W H k a b c : Nat)
    (h : StreamTriple (zigzagStream W H) k a b c) :
    (signedArea (gridPoint W a) (gridPoint W b) (gridPoint W c) = 0
      ∨ signedArea (gridPoint W a) (gridPoint W b) (gridPoint W c)
          = if k % 2 = 0 then 1 else -1)
    ∧ (signedArea (gridPoint W a) (gridPoint W b) (gridPoint W c) = 0
        ↔ StraddlesRowBoundary W H k) := by
  have hk : k + 2 < 2 * (W + 1) * H := by
    have := streamTriple_lt h
    rwa [length_zigzagStream] at this
  obtain ⟨y, x, hy, hcase⟩ := zigzagStream_triple_coords W H k hk
  rcases hcase with ⟨hp, hx, hk2, hns, ht⟩ | ⟨hp, hx, hk2, hns, ht⟩ | ⟨hp, hx, hk2, hns, ht⟩
    | ⟨hp, hx, hk2, hns, ht⟩ | ⟨hp, hy1, hk2, hkb, ht⟩ | ⟨hp, hy1, hk2, hkb, ht⟩
    | ⟨hp, hy1, hk2, hkb, ht⟩ | ⟨hp, hy1, hk2, hkb, ht⟩ <;>
    obtain ⟨rfl, rfl, rfl⟩ := streamTriple_eq h ht
  · rw [gridPoint_gridIndex W _ _ (by omega), gridPoint_gridIndex W _ _ (by omega),
      gridPoint_gridIndex W _ _ (by omega)]
    have hA : signedArea ((x : Int), ((y + 1 : Nat) : Int)) ((x : Int), (y : Int))
        (((x + 1 : Nat) : Int), ((y + 1 : Nat) : Int)) = 1 := by
      simp only [signedArea]; push_cast; ring
    rw [hA, if_pos hk2]
    exact ⟨Or.inr rfl, fun h => absurd h (by decide), fun h => absurd h hns⟩
  · rw [gridPoint_gridIndex W _ _ (by omega), gridPoint_gridIndex W _ _ (by omega),
      gridPoint_gridIndex W _ _ (by omega)]
    have hA : signedArea ((x : Int), (y : Int)) (((x + 1 : Nat) : Int), ((y + 1 : Nat) : Int))
        (((x + 1 : Nat) : Int), (y : Int)) = -1 := by
      simp only [signedArea]; push_cast; ring
    rw [hA, if_neg (by omega)]
    exact ⟨Or.inr rfl, fun h => absurd h (by decide), fun h => absurd h hns⟩
  · rw [gridPoint_gridIndex W _ _ (by omega), gridPoint_gridIndex W _ _ (by omega),
      gridPoint_gridIndex W _ _ (by omega)]
    have hA : signedArea (((x + 1 : Nat) : Int), (y : Int))
        (((x + 1 : Nat) : Int), ((y + 1 : Nat) : Int)) ((x : Int), (y : Int)) = 1 := by
      simp only [signedArea]; push_cast; ring
    rw [hA, if_pos hk2]
    exact ⟨Or.inr rfl, fun h => absurd h (by decide), fun h => absurd h hns⟩
  · rw [gridPoint_gridIndex W _ _ (by omega), gridPoint_gridIndex W _ _ (by omega),
      gridPoint_gridIndex W _ _ (by omega)]
    have hA : signedArea (((x + 1 : Nat) : Int), ((y + 1 : Nat) : Int)) ((x : Int), (y : Int))
        ((x : Int), ((y + 1 : Nat) : Int)) = -1 := by
      simp only [signedArea]; push_cast; ring
    rw [hA, if_neg (by omega)]
    exact ⟨Or.inr rfl, fun h => absurd h (by decide), fun h => absurd h hns⟩
  · rw [gridPoint_gridIndex W _ _ (by omega), gridPoint_gridIndex W _ _ (by omega)]
    have hA : signedArea ((W : Int), ((y + 1 : Nat) : Int)) ((W : Int), (y : Int))
        ((W : Int), ((y + 1 : Nat) : Int)) = 0 := by
      simp only [signedArea]; push_cast; ring
    rw [hA]
    exact ⟨Or.inl rfl, fun _ => ⟨y, hy1, Or.inr hkb⟩, fun _ => rfl⟩
  · rw [gridPoint_gridIndex W _ _ (by omega), gridPoint_gridIndex W _ _ (by omega),
      gridPoint_gridIndex W _ _ (by omega)]
    have hA : signedArea ((W : Int), (y : Int)) ((W : Int), ((y + 1 : Nat) : Int))
        ((W : Int), ((y + 2 : Nat) : Int)) = 0 := by
      simp only [signedArea]; push_cast; ring
    rw [hA]
    exact ⟨Or.inl rfl, fun _ => ⟨y, hy1, Or.inl hkb⟩, fun _ => rfl⟩
  · rw [gridPoint_gridIndex W _ _ (by omega), gridPoint_gridIndex W _ _ (by omega),
      gridPoint_gridIndex W _ _ (by omega)]
    have hA : signedArea (((0 : Nat) : Int), (y : Int)) (((0 : Nat) : Int), ((y + 1 : Nat) : Int))
        (((0 : Nat) : Int), ((y + 2 : Nat) : Int)) = 0 := by
      simp only [signedArea]; push_cast; ring
    rw [hA]
    exact ⟨Or.inl rfl, fun _ => ⟨y, hy1, Or.inr hkb⟩, fun _ => rfl⟩
  · rw [gridPoint_gridIndex W _ _ (by omega), gridPoint_gridIndex W _ _ (by omega)]
    have hA : signedArea (((0 : Nat) : Int), ((y + 1 : Nat) : Int))
        (((0 : Nat) : Int), ((y + 2 : Nat) : Int)) (((0 : Nat) : Int), ((y + 1 : Nat) : Int))
        = 0 := by
      simp only [signedArea]; push_cast; ring
    rw [hA]
    exact ⟨Or.inl rfl, fun _ => ⟨y, hy1, Or.inl hkb⟩, fun _ => rfl⟩

/-- Counterexample to C19 as stated: on the `256 x 256` sphere the entries
`131580, 131581, 131582` of the index stream, inside the last row, are the
untruncated values `65536, 65793, 65535` stored as `0, 257, 65535`; their
grid points `(0,0)`, `(0,1)`, `(0,255)` have signed area `0` although the
triple straddles no row boundary. -/
theorem sphere_strip_area_wraps :
    StreamTriple (Sample06.initSphereMesh Real.cos Real.sin Real.pi 256 256).indices
        131580 0 257 65535
    ∧ signedArea (gridPoint 256 0) (gridPoint 256 257) (gridPoint 256 65535) = 0
    ∧ ¬ StraddlesRowBoundary 256 256 131580 := by
  refine ⟨?_, by decide, ?_⟩
  · have e0 := indices06_getElem? Real.cos Real.sin Real.pi 256 256 131580
    have e1 := indices06_getElem? Real.cos Real.sin Real.pi 256 256 131581
    have e2 := indices06_getElem? Real.cos Real.sin Real.pi 256 256 131582
    have z0 := getElem?_zigzagStream 256 256 255 255 0 (by decide) (by decide) (by decide)
    have z1 := getElem?_zigzagStream 256 256 255 255 1 (by decide) (by decide) (by decide)
    have z2 := getElem?_zigzagStream 256 256 255 256 0 (by decide) (by decide) (by decide)
    rw [Nat.cast_ofNat] at e0 e1 e2
    have i0 : 2 * (256 + 1) * 255 + 2 * 255 + 0 = 131580 := by decide
    have i1 : 2 * (256 + 1) * 255 + 2 * 255 + 1 = 131581 := by decide
    have i2 : 2 * (256 + 1) * 255 + 2 * 256 + 0 = 131582 := by decide
    rw [i0] at z0
    rw [i1] at z1
    rw [i2] at z2
    rw [z0] at e0
    rw [z1] at e1
    rw [z2] at e2
    exact ⟨e0, e1, e2⟩
  · rintro ⟨y, hy, h | h⟩ <;> omega

/-- C19, amended: when `(H+1)*(W+1) ≤ 65536` (as for the source's
`64 x 64`), map each entry `i` of the index stream of `initSphereMesh`
(sample_06 and sample_07) to the grid point `(i mod (W+1), i div (W+1))`.
For every three consecutive entries at the positions `k, k+1, k+2` the
signed area `det(P[k+1]-P[k], P[k+2]-P[k])` is `0`, or it is `+1` for even
`k` and `-1` for odd `k`; it is `0` exactly for the triples that straddle
one of the `H-1` row boundaries.  So after the parity flip of the
triangle strip every non-degenerate triangle has the signed area `+1`. -/
theorem sphere_strip_winding {α : Type} [IntCast α] [Mul α] [Div α] [OfNat α 2]
    (cos sin : α → α) (pi : α) (W H : Nat) (hsmall : (H + 1) * (W + 1) ≤ 65536)
    (k a b c : Nat) :
    (StreamTriple (Sample06.initSphereMesh cos sin pi W H).indices k a b c →
      (signedArea (gridPoint W a) (gridPoint W b) (gridPoint W c) = 0
        ∨ signedArea (gridPoint W a) (gridPoint W b) (gridPoint W c)
            = if k % 2 = 0 then 1 else -1)
      ∧ (signedArea (gridPoint W a) (gridPoint W b) (gridPoint W c) = 0
          ↔ StraddlesRowBoundary W H k)
      ∧ (signedArea (gridPoint W a) (gridPoint W b) (gridPoint W c) ≠ 0 →
          (if k % 2 = 0 then signedArea (gridPoint W a) (gridPoint W b) (gridPoint W c)
            else -signedArea (gridPoint W a) (gridPoint W b) (gridPoint W c)) = 1))
    ∧ (StreamTriple (Sample07.initSphereMesh cos sin pi W H).indices k a b c →
      (signedArea (gridPoint W a) (gridPoint W b) (gridPoint W c) = 0
        ∨ signedArea (gridPoint W a) (gridPoint W b) (gridPoint W c)
            = if k % 2 = 0 then 1 else -1)
      ∧ (signedArea (gridPoint W a) (gridPoint W b) (gridPoint W c) = 0
          ↔ StraddlesRowBoundary W H k)
      ∧ (signedArea (gridPoint W a) (gridPoint W b) (gridPoint W c) ≠ 0 →
          (if k % 2 = 0 then signedArea (gridPoint W a) (gridPoint W b) (gridPoint W c)
            else -signedArea (gridPoint W a) (gridPoint W b) (gridPoint W c)) = 1)) := by
  have key : StreamTriple (zigzagStream W H) k a b c →
      (signedArea (gridPoint W a) (gridPoint W b) (gridPoint W c) = 0
        ∨ signedArea (gridPoint W a) (gridPoint W b) (gridPoint W c)
            = if k % 2 = 0 then 1 else -1)
      ∧ (signedArea (gridPoint W a) (gridPoint W b) (gridPoint W c) = 0
          ↔ StraddlesRowBoundary W H k)
      ∧ (signedArea (gridPoint W a) (gridPoint W b) (gridPoint W c) ≠ 0 →
          (if k % 2 = 0 then signedArea (gridPoint W a) (gridPoint W b) (gridPoint W c)
            else -signedArea (gridPoint W a) (gridPoint W b) (gridPoint W c)) = 1) := by
    intro h
    obtain ⟨h1, h2⟩ := zigzagStream_triple_area W H k a b c h
    refine ⟨h1, h2, fun hne => ?_⟩
    rcases h1 with h0 | h1
    · exact absurd h0 hne
    · rw [h1]
      split <;> simp
  rw [indices06_eq_zigzagStream cos sin pi W H hsmall,
    indices07_eq_zigzagStream cos sin pi W H hsmall]
  exact ⟨key, key⟩

/-- Witness of C19 on the `2 x 2` sphere over the real numbers, at the
first triple `3, 0, 4` of the stream. -/
theorem sphere_strip_winding_witness :
    StreamTriple (Sample06.initSphereMesh Real.cos Real.sin Real.pi ((2 : Nat) : Int)
        ((2 : Nat) : Int)).indices 0 3 0 4
    ∧ (signedArea (gridPoint 2 3) (gridPoint 2 0) (gridPoint 2 4) = 0
      ∨ signedArea (gridPoint 2 3) (gridPoint 2 0) (gridPoint 2 4)
          = if 0 % 2 = 0 then 1 else -1) :=
  have ht : StreamTriple (Sample06.initSphereMesh Real.cos Real.sin Real.pi ((2 : Nat) : Int)
      ((2 : Nat) : Int)).indices 0 3 0 4 := by
    rw [indices06_eq_zigzagStream Real.cos Real.sin Real.pi 2 2 (by decide)]
    exact ⟨by decide, by decide, by decide⟩
  ⟨ht, ((sphere_strip_winding Real.cos Real.sin Real.pi 2 2 (by decide) 0 3 0 4).1 ht).1⟩

/-! ## Initialisation failures -/

/-- A loop whose body, from a state satisfying `Inv`, either goes on with
`Inv` kept (when `ok i`) or returns `false` in a state satisfying `Bad`
(when not `ok i`): the loop goes on with `Inv` when every pass is `ok`, and
otherwise returns `false` in a state satisfying `Bad`. -/
theorem forBelowRet_spec {σ : Type} (bound : Int) (body : Int → σ → ControlFlow σ)
    (ok : Int → Prop) (Inv Bad : σ → Prop)
    (hbody : ∀ i s, Inv s →
      (ok i ∧ ∃ s', body i s = ControlFlow.next s' ∧ Inv s')
      ∨ (¬ ok i ∧ ∃ s', body i s = ControlFlow.ret false s' ∧ Bad s')) :
    ∀ (n : Nat) (i : Int) (s : σ), bound - i ≤ n → Inv s →
      ((∀ j, i ≤ j → j < bound → ok j)
        ∧ ∃ s', forBelowRet bound body i s = ControlFlow.next s' ∧ Inv s')
      ∨ ((∃ j, i ≤ j ∧ j < bound ∧ ¬ ok j)
        ∧ ∃ s', forBelowRet bound body i s = ControlFlow.ret false s' ∧ Bad s') := by
  intro n
  induction n with
  | zero =>
    intro i s hn hs
    rw [forBelowRet, if_neg (by omega)]
    exact Or.inl ⟨fun j h1 h2 => absurd h2 (by omega), s, rfl, hs⟩
  | succ n ih =>
    intro i s hn hs
    by_cases hlt : i < bound
    · rw [forBelowRet, if_pos hlt]
      rcases hbody i s hs with ⟨hok, s', hb, hs'⟩ | ⟨hnok, s', hb, hs'⟩
      · rw [hb]
        rcases ih (i + 1) s' (by omega) hs' with ⟨hall, s'', hl, hs''⟩ | ⟨⟨j, h1, h2, h3⟩, s'', hl, hs''⟩
        · refine Or.inl ⟨fun j h1 h2 => ?_, s'', hl, hs''⟩
          by_cases hj : j = i
          · rw [hj]; exact hok
          · exact hall j (by omega) h2
        · exact Or.inr ⟨⟨j, by omega, h2, h3⟩, s'', hl, hs''⟩
      · rw [hb]
        exact Or.inr ⟨⟨i, le_refl i, hlt, hnok⟩, s', rfl, hs'⟩
    · rw [forBelowRet, if_neg hlt]
      exact Or.inl ⟨fun j h1 h2 => absurd h2 (by omega), s, rfl, hs⟩

namespace Sample06

theorem clean_append (l₁ l₂ : List Call) : Clean (l₁ ++ l₂) ↔ Clean l₁ ∧ Clean l₂ := by
  unfold Clean
  simp only [List.mem_append]
  constructor
  · intro h
    exact ⟨fun c hc => h c (Or.inl hc), fun c hc => h c (Or.inr hc)⟩
  · rintro ⟨h1, h2⟩ c (hc | hc)
    · exact h1 c hc
    · exact h2 c hc

theorem stopped_of_clean (pre : List Call) (c : Call) (hpre : Clean pre)
    (hc : c.failed = true) : StoppedAtFailure (pre ++ [c]) :=
  ⟨pre, c, rfl, hc, hpre⟩

/-- The block "Attach the spheres": it goes on, without a failed call, when
all 49 materials build, and returns `false` at the first one that does
not. -/
theorem attachSpheres_spec (e : Engine) (calls : List Call) (hc : Clean calls) :
    ((∀ row, 0 ≤ row → row < 7 → ∀ col, 0 ≤ col → col < 7 → e.material row col = true)
      ∧ ∃ calls', Application.attachSpheres e calls = ControlFlow.next calls' ∧ Clean calls')
    ∨ ((∃ row, 0 ≤ row ∧ row < 7 ∧ ∃ col, 0 ≤ col ∧ col < 7 ∧ e.material row col = false)
      ∧ ∃ calls', Application.attachSpheres e calls = ControlFlow.ret false calls'
          ∧ StoppedAtFailure calls') := by
  unfold Application.attachSpheres
  have hrows := forBelowRet_spec 7
    (fun row calls =>
      forBelowRet 7 (fun col calls =>
        if (!e.material row col) = true then
          ControlFlow.ret false
            (calls ++ [Call.createSceneNode ("sphere" ++ toString (row * 7 + col)),
                Call.rootAttachChild ("sphere" ++ toString (row * 7 + col))]
              ++ [Call.materialBuild ((row : ℚ) / ((7 : Int) : ℚ))
                (if col = 0 then 0.05 else (col : ℚ) / ((7 : Int) : ℚ)) (e.material row col)])
        else
          ControlFlow.next
            (calls ++ [Call.createSceneNode ("sphere" ++ toString (row * 7 + col)),
                Call.rootAttachChild ("sphere" ++ toString (row * 7 + col))]
              ++ [Call.materialBuild ((row : ℚ) / ((7 : Int) : ℚ))
                (if col = 0 then 0.05 else (col : ℚ) / ((7 : Int) : ℚ)) (e.material row col)]
              ++ [Call.attachMeshInstance ("sphere" ++ toString (row * 7 + col))]
              ++ [Call.setPosition ("sphere" ++ toString (row * 7 + col))
                (Vec3.mk (((col - 7 / 2 : Int) : ℚ) * 2.5) (((row - 7 / 2 : Int) : ℚ) * 2.5) 0)]))
        0 calls)
    (fun row => ∀ col, 0 ≤ col → col < 7 → e.material row col = true)
    Clean StoppedAtFailure ?_ 7 0 calls (by omega) hc
  · rcases hrows with ⟨hall, calls', hrun, hclean⟩ | ⟨⟨row, h0, h7, hnot⟩, calls', hrun, hstop⟩
    · exact Or.inl ⟨fun row h0 h7 col c0 c7 => hall row h0 h7 col c0 c7, calls', hrun, hclean⟩
    · refine Or.inr ⟨?_, calls', hrun, hstop⟩
      by_contra hno
      apply hnot
      intro col c0 c7
      by_contra hf
      exact hno ⟨row, h0, h7, col, c0, c7, by simpa using hf⟩
  · intro row s hs
    have hcols := forBelowRet_spec 7
      (fun col calls =>
        if (!e.material row col) = true then
          ControlFlow.ret false
            (calls ++ [Call.createSceneNode ("sphere" ++ toString (row * 7 + col)),
                Call.rootAttachChild ("sphere" ++ toString (row * 7 + col))]
              ++ [Call.materialBuild ((row : ℚ) / ((7 : Int) : ℚ))
                (if col = 0 then 0.05 else (col : ℚ) / ((7 : Int) : ℚ)) (e.material row col)])
        else
          ControlFlow.next
            (calls ++ [Call.createSceneNode ("sphere" ++ toString (row * 7 + col)),
                Call.rootAttachChild ("sphere" ++ toString (row * 7 + col))]
              ++ [Call.materialBuild ((row : ℚ) / ((7 : Int) : ℚ))
                (if col = 0 then 0.05 else (col : ℚ) / ((7 : Int) : ℚ)) (e.material row col)]
              ++ [Call.attachMeshInstance ("sphere" ++ toString (row * 7 + col))]
              ++ [Call.setPosition ("sphere" ++ toString (row * 7 + col))
                (Vec3.mk (((col - 7 / 2 : Int) : ℚ) * 2.5) (((row - 7 / 2 : Int) : ℚ) * 2.5) 0)]))
      (fun col => e.material row col = true)
      Clean StoppedAtFailure ?_ 7 0 s (by omega) hs
    · rcases hcols with ⟨hall, s', hrun, hclean⟩ | ⟨⟨col, c0, c7, hnot⟩, s', hrun, hstop⟩
      · exact Or.inl ⟨fun col c0 c7 => hall col c0 c7, s', hrun, hclean⟩
      · exact Or.inr ⟨fun h => hnot (h col c0 c7), s', hrun, hstop⟩
    · intro col s hs
      by_cases hm : e.material row col = true
      · refine Or.inl ⟨hm, _, if_neg (by simp [hm]), ?_⟩
        simp only [clean_append]
        refine ⟨⟨⟨⟨hs, ?_⟩, ?_⟩, ?_⟩, ?_⟩ <;> intro c hcmem <;> simp at hcmem
        · rcases hcmem with rfl | rfl <;> rfl
        · subst hcmem; simp [Call.failed, hm]
        · subst hcmem; rfl
        · subst hcmem; rfl
      · have hm' : e.material row col = false := by simpa using hm
        refine Or.inr ⟨hm, _, if_pos (by simp [hm']), ?_⟩
        refine stopped_of_clean _ _ ?_ (by simp [Call.failed, hm'])
        simp only [clean_append]
        refine ⟨hs, ?_⟩
        intro c hcmem
        simp at hcmem
        rcases hcmem with rfl | rfl <;> rfl

/-- The loop "Attach 4 lights": it goes on, without a failed call, when all
four lights build, and returns `false` at the first one that does not. -/
theorem attachLights_spec (e : Engine) (calls : List Call) (hc : Clean calls) :
    ((∀ i, 0 ≤ i → i < 4 → e.light i = true)
      ∧ ∃ calls', Application.attachLights e calls = ControlFlow.next calls' ∧ Clean calls')
    ∨ ((∃ i, 0 ≤ i ∧ i < 4 ∧ e.light i = false)
      ∧ ∃ calls', Application.attachLights e calls = ControlFlow.ret false calls'
          ∧ StoppedAtFailure calls') := by
  unfold Application.attachLights
  have hloop := forBelowRet_spec 4
    (fun i calls =>
      if (!e.light i) = true then
        ControlFlow.ret false (calls ++ [Call.lightBuild (Vec4.mk 300 300 300 1) (e.light i)])
      else
        ControlFlow.next
          (calls ++ [Call.lightBuild (Vec4.mk 300 300 300 1) (e.light i)]
            ++ [Call.createSceneNode ("light" ++ toString i),
              Call.rootAttachChild ("light" ++ toString i)]
            ++ [Call.setPosition ("light" ++ toString i)
              (Application.lightPositions.getD i.toNat (Vec3.mk 0 0 0))]
            ++ [Call.attachLight ("light" ++ toString i) (Vec4.mk 300 300 300 1)]))
    (fun i => e.light i = true) Clean StoppedAtFailure ?_ 4 0 calls (by omega) hc
  · rcases hloop with ⟨hall, calls', hrun, hclean⟩ | ⟨⟨i, h0, h4, hnot⟩, calls', hrun, hstop⟩
    · exact Or.inl ⟨hall, calls', hrun, hclean⟩
    · exact Or.inr ⟨⟨i, h0, h4, by simpa using hnot⟩, calls', hrun, hstop⟩
  · intro i s hs
    by_cases hl : e.light i = true
    · refine Or.inl ⟨hl, _, if_neg (by simp [hl]), ?_⟩
      simp only [clean_append]
      refine ⟨⟨⟨⟨hs, ?_⟩, ?_⟩, ?_⟩, ?_⟩ <;> intro c hcmem <;> simp at hcmem
      · subst hcmem; simp [Call.failed, hl]
      · rcases hcmem with rfl | rfl <;> rfl
      · subst hcmem; rfl
      · subst hcmem; rfl
    · have hl' : e.light i = false := by simpa using hl
      refine Or.inr ⟨hl, _, if_pos (by simp [hl']), ?_⟩
      exact stopped_of_clean _ _ hs (by simp [Call.failed, hl'])

/-- The function `init` of sample_06 either succeeds, every call that can
fail having succeeded, or returns `false` right after the first failed
call. -/
theorem init_spec (e : Engine) :
    ((e.coreInit = true ∧ e.scene = true ∧ e.camera = true ∧ e.sphereMesh = true
        ∧ (∀ row, 0 ≤ row → row < 7 → ∀ col, 0 ≤ col → col < 7 → e.material row col = true)
        ∧ (∀ i, 0 ≤ i → i < 4 → e.light i = true))
      ∧ (Application.init e).1 = true ∧ Clean (Application.init e).2)
    ∨ (¬ (e.coreInit = true ∧ e.scene = true ∧ e.camera = true ∧ e.sphereMesh = true
        ∧ (∀ row, 0 ≤ row → row < 7 → ∀ col, 0 ≤ col → col < 7 → e.material row col = true)
        ∧ (∀ i, 0 ≤ i → i < 4 → e.light i = true))
      ∧ (Application.init e).1 = false ∧ StoppedAtFailure (Application.init e).2) := by
  unfold Application.init
  by_cases h1 : e.coreInit = true
  swap
  · have h1' : e.coreInit = false := by simpa using h1
    refine Or.inr ⟨fun h => h1 h.1, ?_⟩
    simp only [h1', Bool.not_false, if_true]
    exact ⟨trivial, stopped_of_clean [] _ (fun c hc => absurd hc (List.not_mem_nil c)) rfl⟩
  by_cases h2 : e.scene = true
  swap
  · have h2' : e.scene = false := by simpa using h2
    refine Or.inr ⟨fun h => h2 h.2.1, ?_⟩
    simp only [h1, h2', Bool.not_true, Bool.not_false, if_true, Bool.false_eq_true, if_false]
    refine ⟨trivial, stopped_of_clean _ _ ?_ rfl⟩
    intro c hc
    simp at hc
    subst hc
    rfl
  by_cases h3 : e.camera = true
  swap
  · have h3' : e.camera = false := by simpa using h3
    refine Or.inr ⟨fun h => h3 h.2.2.1, ?_⟩
    simp only [h1, h2, h3', Bool.not_true, Bool.not_false, if_true, Bool.false_eq_true, if_false]
    refine ⟨trivial, stopped_of_clean _ _ ?_ rfl⟩
    intro c hc
    simp at hc
    rcases hc with rfl | rfl <;> rfl
  have hpre : Clean ([Call.coreInit true] ++ [Call.sceneBuild true] ++ [Call.cameraBuild true]
      ++ [Call.createSceneNode "camera", Call.rootAttachChild "camera"]
      ++ [Call.attachCamera "camera"]
      ++ [Call.moverSetTargetNode "camera", Call.moverSetEventSource]
      ++ [Call.renderViewAttachCamera 0]) := by
    intro c hc
    simp at hc
    rcases hc with rfl | rfl | rfl | rfl | rfl | rfl | rfl | rfl | rfl <;> rfl
  simp only [h1, h2, h3, Bool.not_true, Bool.false_eq_true, if_false, Application.initSphereMesh]
  by_cases h4 : e.sphereMesh = true
  swap
  · have h4' : e.sphereMesh = false := by simpa using h4
    refine Or.inr ⟨fun h => h4 h.2.2.2.1, ?_⟩
    simp only [h4', Bool.not_false, if_true]
    exact ⟨trivial, stopped_of_clean _ _ hpre rfl⟩
  simp only [h4, Bool.not_true, Bool.false_eq_true, if_false]
  have hpre2 : Clean ([Call.coreInit true] ++ [Call.sceneBuild true] ++ [Call.cameraBuild true]
      ++ [Call.createSceneNode "camera", Call.rootAttachChild "camera"]
      ++ [Call.attachCamera "camera"]
      ++ [Call.moverSetTargetNode "camera", Call.moverSetEventSource]
      ++ [Call.renderViewAttachCamera 0] ++ [Call.meshBuild true]) := by
    rw [clean_append]
    refine ⟨hpre, ?_⟩
    intro c hc
    simp at hc
    subst hc
    rfl
  rcases attachSpheres_spec e _ hpre2 with ⟨hmat, calls', hrun, hclean⟩
    | ⟨⟨row, r0, r7, col, c0, c7, hbad⟩, calls', hrun, hstop⟩
  swap
  · refine Or.inr ⟨fun h => ?_, ?_⟩
    · have := h.2.2.2.2.1 row r0 r7 col c0 c7
      rw [hbad] at this
      exact Bool.noConfusion this
    · rw [hrun]
      exact ⟨rfl, hstop⟩
  rw [hrun]
  simp only
  have hclean2 : Clean (calls' ++ [Call.setPosition "camera" (Vec3.mk 0 0 25),
      Call.cameraLookAt "camera"]) := by
    rw [clean_append]
    refine ⟨hclean, ?_⟩
    intro c hc
    simp at hc
    rcases hc with rfl | rfl <;> rfl
  rcases attachLights_spec e _ hclean2 with ⟨hlights, calls'', hrun2, hclean3⟩
    | ⟨⟨i, i0, i4, hbad⟩, calls'', hrun2, hstop⟩
  · rw [hrun2]
    exact Or.inl ⟨⟨trivial, trivial, trivial, trivial, hmat, hlights⟩, rfl, hclean3⟩
  · refine Or.inr ⟨fun h => ?_, ?_⟩
    · have := h.2.2.2.2.2 i i0 i4
      rw [hbad] at this
      exact Bool.noConfusion this
    · rw [hrun2]
      exact ⟨rfl, hstop⟩

end Sample06

/-- C15: in sample_06, with every engine call that can fail returning a
handle or empty, `Application::init` returns `true` if and only if the base
`init` succeeds and every `build()` gives a non-empty handle: the scene, the
camera, the sphere mesh, the material of each of the `7 x 7 = 49` spheres
and each of the 4 point lights.  When it returns `false`, the failed call is
the last engine call it has made and the only one that failed: nothing is
constructed after it.  When it returns `true` no call has failed. -/
theorem sample06_init_result (e : Sample06.Engine) :
    ((Sample06.Application.init e).1 = true ↔
      (e.coreInit = true ∧ e.scene = true ∧ e.camera = true ∧ e.sphereMesh = true
        ∧ (∀ row, 0 ≤ row → row < 7 → ∀ col, 0 ≤ col → col < 7 → e.material row col = true)
        ∧ (∀ i, 0 ≤ i → i < 4 → e.light i = true)))
    ∧ ((Sample06.Application.init e).1 = false →
        ∃ pre c, (Sample06.Application.init e).2 = pre ++ [c] ∧ c.failed = true
          ∧ ∀ d ∈ pre, d.failed = false)
    ∧ ((Sample06.Application.init e).1 = true →
        ∀ c ∈ (Sample06.Application.init e).2, c.failed = false) := by
  rcases Sample06.init_spec e with ⟨hok, hres, hclean⟩ | ⟨hnok, hres, hstop⟩
  · refine ⟨⟨fun _ => hok, fun _ => hres⟩, fun h => ?_, fun _ => hclean⟩
    rw [hres] at h
    exact Bool.noConfusion h
  · refine ⟨⟨fun h => ?_, fun h => absurd h hnok⟩, fun _ => hstop, fun h => ?_⟩
    · rw [hres] at h
      exact Bool.noConfusion h
    · rw [hres] at h
      exact Bool.noConfusion h

/-- Witness of C15 on the engine in which everything succeeds: `init`
returns `true`. -/
theorem sample06_init_result_witness :
    (Sample06.Application.init
      ⟨true, true, true, true, fun _ _ => true, fun _ => true⟩).1 = true :=
  (sample06_init_result ⟨true, true, true, true, fun _ _ => true, fun _ => true⟩).1.2
    ⟨rfl, rfl, rfl, rfl, fun _ _ _ _ _ _ => rfl, fun _ _ _ => rfl⟩

/-- C16, the code as it is: in sample_05 the value returned by
`Application::init` does not depend on the outcome of the second camera's
`build()`, because the check after it tests `camera` again.  On the engine
in which only that `build()` fails, `init` returns `true`, has attached the
empty `camera2` to the node "camera2" and to the render view 1, and has
gone on to the end. -/
theorem sample05_camera2_unchecked :
    (∀ e : Sample05.Engine, (Sample05.Application.init e).1 = true ↔
      (e.coreInit = true ∧ e.scene = true ∧ e.camera = true ∧ e.cubeMesh = true
        ∧ e.material = true ∧ e.directionalLight = true ∧ e.pointLight = true))
    ∧ (Sample05.Application.init ⟨true, true, true, false, true, true, true, true⟩).1 = true
    ∧ Sample05.Call.cameraBuild false
        ∈ (Sample05.Application.init ⟨true, true, true, false, true, true, true, true⟩).2
    ∧ Sample05.Call.attachCamera "camera2" false
        ∈ (Sample05.Application.init ⟨true, true, true, false, true, true, true, true⟩).2
    ∧ Sample05.Call.renderViewAttachCamera 1 false
        ∈ (Sample05.Application.init ⟨true, true, true, false, true, true, true, true⟩).2
    ∧ Sample05.Call.cameraLookAt "camera2"
        ∈ (Sample05.Application.init ⟨true, true, true, false, true, true, true, true⟩).2 := by
  refine ⟨?_, ?_, ?_, ?_, ?_, ?_⟩
  · rintro ⟨a, b, c, d, f, g, h, i⟩
    cases a <;> cases b <;> cases c <;> cases d <;> cases f <;> cases g <;> cases h <;>
      cases i <;> simp [Sample05.Application.init, Sample05.Application.initCubeMesh]
  all_goals simp [Sample05.Application.init, Sample05.Application.initCubeMesh]

/-! ## Winding and tessellation of the cube -/

/-- C21: all 12 triangles of the cube of sample_01 wind outward: for every
triangle `(i0, i1, i2)` of the index list the cross product
`(positions[i1] - positions[i0]) x (positions[i2] - positions[i0])` is
exactly `4 * normals[i0]`, and the three normals are equal.  The bottom
and the top face (triangles 8 to 11) are among them. -/
theorem cube_winding_outward :
    (triangleList Sample01.initCubeMesh.indices).length = 12
    ∧ ∀ t ∈ triangleList Sample01.initCubeMesh.indices,
        ∃ p0 p1 p2 n0 n1 n2,
          Sample01.initCubeMesh.positions[t.1]? = some p0
          ∧ Sample01.initCubeMesh.positions[t.2.1]? = some p1
          ∧ Sample01.initCubeMesh.positions[t.2.2]? = some p2
          ∧ Sample01.initCubeMesh.normals[t.1]? = some n0
          ∧ Sample01.initCubeMesh.normals[t.2.1]? = some n1
          ∧ Sample01.initCubeMesh.normals[t.2.2]? = some n2
          ∧ Vec3.cross (Vec3.sub p1 p0) (Vec3.sub p2 p0) = Vec3.scale 4 n0
          ∧ n0 = n1 ∧ n1 = n2 := by
  have hl : triangleList Sample01.initCubeMesh.indices
      = [(0, 2, 1), (1, 2, 3), (6, 4, 5), (7, 6, 5), (10, 8, 9), (11, 10, 9),
        (14, 13, 12), (15, 13, 14), (17, 16, 19), (19, 16, 18), (23, 20, 21), (22, 20, 23)] := by
    decide
  refine ⟨by rw [hl]; rfl, ?_⟩
  intro t ht
  rw [hl] at ht
  simp only [List.mem_cons, List.mem_singleton, List.not_mem_nil, or_false] at ht
  rcases ht with rfl | rfl | rfl | rfl | rfl | rfl | rfl | rfl | rfl | rfl | rfl | rfl <;>
    exact ⟨_, _, _, _, _, _, rfl, rfl, rfl, rfl, rfl, rfl, by decide, by decide, by decide⟩

/-- Witness of C21 on the first triangle of the bottom face, `(17, 16, 19)`. -/
theorem cube_winding_outward_witness :
    ∃ p0 p1 p2 n0 n1 n2,
      Sample01.initCubeMesh.positions[17]? = some p0
      ∧ Sample01.initCubeMesh.positions[16]? = some p1
      ∧ Sample01.initCubeMesh.positions[19]? = some p2
      ∧ Sample01.initCubeMesh.normals[17]? = some n0
      ∧ Sample01.initCubeMesh.normals[16]? = some n1
      ∧ Sample01.initCubeMesh.normals[19]? = some n2
      ∧ Vec3.cross (Vec3.sub p1 p0) (Vec3.sub p2 p0) = Vec3.scale 4 n0
      ∧ n0 = n1 ∧ n1 = n2 :=
  cube_winding_outward.2 (17, 16, 19) (by decide)

/-- C22: the local index pattern of the bottom face (face 4) and of the top
face (face 5) of the cube of sample_01 differs from the local index
pattern of each of the back, front, left and right faces (faces 0 to 3).
The six patterns are listed. -/
theorem cube_face_patterns :
    (List.range 6).map (facePattern Sample01.initCubeMesh.indices)
      = [[0, 2, 1, 1, 2, 3], [2, 0, 1, 3, 2, 1], [2, 0, 1, 3, 2, 1], [2, 1, 0, 3, 1, 2],
          [1, 0, 3, 3, 0, 2], [3, 0, 1, 2, 0, 3]]
    ∧ (∀ f : Fin 4, facePattern Sample01.initCubeMesh.indices 4
          ≠ facePattern Sample01.initCubeMesh.indices f.val)
    ∧ (∀ f : Fin 4, facePattern Sample01.initCubeMesh.indices 5
          ≠ facePattern Sample01.initCubeMesh.indices f.val) := by
  decide

/-- C23: every face `f < 6` of the cube of sample_01 is tessellated by its
own vertices only.  Its six index entries lie in `4f .. 4f+3` and use all
four of these vertices; each of its two triangles has three distinct
vertices; the two triangles share exactly two vertices, and the positions
of these two differ in exactly two coordinates (a diagonal of the face).
So each of the 24 vertices occurs in the index list. -/
theorem cube_face_tessellation :
    (∀ f, f < 6 →
      (∀ i ∈ faceIndices Sample01.initCubeMesh.indices f, 4 * f ≤ i ∧ i < 4 * f + 4)
      ∧ (∀ v, 4 * f ≤ v → v < 4 * f + 4 → v ∈ faceIndices Sample01.initCubeMesh.indices f)
      ∧ ∃ a b c a' b' c' s t pS pT,
          faceIndices Sample01.initCubeMesh.indices f = [a, b, c, a', b', c']
          ∧ (a ≠ b ∧ b ≠ c ∧ a ≠ c) ∧ (a' ≠ b' ∧ b' ≠ c' ∧ a' ≠ c')
          ∧ [a, b, c].filter (fun i => decide (i ∈ [a', b', c'])) = [s, t]
          ∧ Sample01.initCubeMesh.positions[s]? = some pS
          ∧ Sample01.initCubeMesh.positions[t]? = some pT
          ∧ Vec3.diffCount pS pT = 2)
    ∧ (∀ v, v < 24 → v ∈ Sample01.initCubeMesh.indices) := by
  constructor
  · intro f hf
    interval_cases f <;>
      refine ⟨by decide, ?_, _, _, _, _, _, _, _, _, _, _, rfl, by decide, by decide, rfl,
        rfl, rfl, by decide⟩ <;>
      intro v h1 h2 <;> interval_cases v <;> decide
  · decide

/-- Witness of C23 on the top face `f = 5`. -/
theorem cube_face_tessellation_witness :
    (∀ i ∈ faceIndices Sample01.initCubeMesh.indices 5, 4 * 5 ≤ i ∧ i < 4 * 5 + 4)
    ∧ 23 ∈ Sample01.initCubeMesh.indices :=
  ⟨(cube_face_tessellation.1 5 (by decide)).1, cube_face_tessellation.2 23 (by decide)⟩

/-! ## The two sphere generators side by side -/

theorem foldl_related {σ τ β : Type} (R : σ → τ → Prop) (f : σ → β → σ) (g : τ → β → τ)
    (h : ∀ s t b, R s t → R (f s b) (g t b)) (L : List β) (s : σ) (t : τ) (hst : R s t) :
    R (L.foldl f s) (L.foldl g t) := by
  induction L generalizing s t with
  | nil => exact hst
  | cons b L ih => exact ih (f s b) (g t b) (h s t b hst)

/-- Two loops over the same range whose bodies keep a relation between
their states keep it to the end. -/
theorem forUpTo_related {σ τ : Type} (R : σ → τ → Prop) (bound : Int)
    (f : Int → σ → σ) (g : Int → τ → τ) (h : ∀ i s t, R s t → R (f i s) (g i t))
    (i : Int) (s : σ) (t : τ) (hst : R s t) :
    R (forUpTo bound f i s) (forUpTo bound g i t) := by
  by_cases hi : i ≤ bound
  · rw [forUpTo_eq_foldl bound f (bound + 1 - i).toNat i s (by omega),
      forUpTo_eq_foldl bound g (bound + 1 - i).toNat i t (by omega)]
    exact foldl_related R (fun s (k : Nat) => f (i + (k : Int)) s)
      (fun t (k : Nat) => g (i + (k : Int)) t) (fun s t k hst => h _ s t hst) _ s t hst
  · rw [forUpTo.eq_1 bound f i s, forUpTo.eq_1 bound g i t, if_neg hi, if_neg hi]
    exact hst

/-- C24: for every scalar type and all segment counts, the source's
`64 x 64` among them, the positions, the normals and the index stream
computed by sample_06's `initSphereMesh` are equal, element for element, to
those computed by sample_07's; sample_07 emits in addition one texture
coordinate for each vertex. -/
theorem sphere_generators_agree {α : Type} [IntCast α] [Mul α] [Div α] [OfNat α 2]
    (cos sin : α → α) (pi : α) (W H : Int) :
    ((Sample06.initSphereMesh cos sin pi W H).positions
        = (Sample07.initSphereMesh cos sin pi W H).positions
      ∧ (Sample06.initSphereMesh cos sin pi W H).normals
        = (Sample07.initSphereMesh cos sin pi W H).normals
      ∧ (Sample06.initSphereMesh cos sin pi W H).indices
        = (Sample07.initSphereMesh cos sin pi W H).indices
      ∧ (Sample07.initSphereMesh cos sin pi W H).uv.length
        = (Sample07.initSphereMesh cos sin pi W H).positions.length)
    ∧ (∀ i : Nat,
        (Sample06.initSphereMesh cos sin pi W H).positions[i]?
          = (Sample07.initSphereMesh cos sin pi W H).positions[i]?
        ∧ (Sample06.initSphereMesh cos sin pi W H).normals[i]?
          = (Sample07.initSphereMesh cos sin pi W H).normals[i]?
        ∧ (Sample06.initSphereMesh cos sin pi W H).indices[i]?
          = (Sample07.initSphereMesh cos sin pi W H).indices[i]?)
    ∧ ((Sample06.initSphereMesh cos sin pi 64 64).positions
        = (Sample07.initSphereMesh cos sin pi 64 64).positions
      ∧ (Sample06.initSphereMesh cos sin pi 64 64).normals
        = (Sample07.initSphereMesh cos sin pi 64 64).normals
      ∧ (Sample06.initSphereMesh cos sin pi 64 64).indices
        = (Sample07.initSphereMesh cos sin pi 64 64).indices) := by
  have key : ∀ W H : Int,
      (Sample06.initSphereMesh cos sin pi W H).positions
        = (Sample07.initSphereMesh cos sin pi W H).positions
      ∧ (Sample06.initSphereMesh cos sin pi W H).normals
        = (Sample07.initSphereMesh cos sin pi W H).normals
      ∧ (Sample06.initSphereMesh cos sin pi W H).indices
        = (Sample07.initSphereMesh cos sin pi W H).indices
      ∧ (Sample07.initSphereMesh cos sin pi W H).uv.length
        = (Sample07.initSphereMesh cos sin pi W H).positions.length := by
    intro W H
    have hrel : (fun (s : Sample06.SphereBuffers α) (t : Sample07.SphereBuffers α) =>
        s.positions = t.positions ∧ s.normals = t.normals ∧ s.indices = t.indices
          ∧ t.uv.length = t.positions.length)
        (Sample06.sphereVertexLoop cos sin pi W H ⟨[], [], []⟩)
        (Sample07.sphereVertexLoop cos sin pi W H ⟨[], [], [], []⟩) := by
      unfold Sample06.sphereVertexLoop Sample07.sphereVertexLoop
      refine forUpTo_related (fun (s : Sample06.SphereBuffers α) (t : Sample07.SphereBuffers α) =>
        s.positions = t.positions ∧ s.normals = t.normals ∧ s.indices = t.indices
          ∧ t.uv.length = t.positions.length) H _ _ ?_ 0 _ _ ⟨rfl, rfl, rfl, rfl⟩
      intro y s t hst
      refine forUpTo_related (fun (s : Sample06.SphereBuffers α) (t : Sample07.SphereBuffers α) =>
        s.positions = t.positions ∧ s.normals = t.normals ∧ s.indices = t.indices
          ∧ t.uv.length = t.positions.length) W _ _ ?_ 0 s t hst
      rintro x s t ⟨h1, h2, h3, h4⟩
      simp only [Sample06.sphereVertex, Sample07.sphereVertex, h1, h2, h3, List.length_append,
        List.length_singleton, h4]
      exact ⟨trivial, trivial, trivial, trivial⟩
    obtain ⟨h1, h2, h3, h4⟩ := hrel
    refine ⟨h1, h2, ?_, h4⟩
    show (Sample06.sphereIndexLoop W H _).2 = (Sample07.sphereIndexLoop W H _).2
    rw [h3]
    rfl
  obtain ⟨h1, h2, h3, h4⟩ := key W H
  exact ⟨⟨h1, h2, h3, h4⟩, fun i => ⟨by rw [h1], by rw [h2], by rw [h3]⟩,
    (key 64 64).1, (key 64 64).2.1, (key 64 64).2.2.1⟩

/-! ## Window events -/

theorem onEvent_pattern (event : Lug.Event) (calls : List Lug.AppCall)
    (f : Lug.Event → List Lug.AppCall → List Lug.AppCall)
    (hf : ∀ ev cs, f ev cs
      = if ev.type = Lug.EventType.Close then cs ++ [Lug.AppCall.close] else cs) :
    (f event calls = calls ++ [Lug.AppCall.close] ↔ event.type = Lug.EventType.Close)
    ∧ (Lug.AppCall.close ∈ f event [] ↔ event.type = Lug.EventType.Close)
    ∧ (event.type ≠ Lug.EventType.Close → f event calls = calls) := by
  rw [hf, hf]
  by_cases h : event.type = Lug.EventType.Close
  · simp [h]
  · simp [h]

/-- C28: in every sample that defines it (sample_base, sample_01, sample_05,
sample_06, sample_07, sample_09), `onEvent` calls `close()`, once, if and
only if the type of the event is `Close`; for an event of any other type it
makes no call and leaves the application as it was. -/
theorem onEvent_closes_iff_close (event : Lug.Event) (calls : List Lug.AppCall) :
    ((SampleBase.Application.onEvent event calls = calls ++ [Lug.AppCall.close]
          ↔ event.type = Lug.EventType.Close)
      ∧ (Lug.AppCall.close ∈ SampleBase.Application.onEvent event []
          ↔ event.type = Lug.EventType.Close)
      ∧ (event.type ≠ Lug.EventType.Close → SampleBase.Application.onEvent event calls = calls))
    ∧ ((Sample01.Application.onEvent event calls = calls ++ [Lug.AppCall.close]
          ↔ event.type = Lug.EventType.Close)
      ∧ (Lug.AppCall.close ∈ Sample01.Application.onEvent event []
          ↔ event.type = Lug.EventType.Close)
      ∧ (event.type ≠ Lug.EventType.Close → Sample01.Application.onEvent event calls = calls))
    ∧ ((Sample05.Application.onEvent event calls = calls ++ [Lug.AppCall.close]
          ↔ event.type = Lug.EventType.Close)
      ∧ (Lug.AppCall.close ∈ Sample05.Application.onEvent event []
          ↔ event.type = Lug.EventType.Close)
      ∧ (event.type ≠ Lug.EventType.Close → Sample05.Application.onEvent event calls = calls))
    ∧ ((Sample06.Application.onEvent event calls = calls ++ [Lug.AppCall.close]
          ↔ event.type = Lug.EventType.Close)
      ∧ (Lug.AppCall.close ∈ Sample06.Application.onEvent event []
          ↔ event.type = Lug.EventType.Close)
      ∧ (event.type ≠ Lug.EventType.Close → Sample06.Application.onEvent event calls = calls))
    ∧ ((Sample07.Application.onEvent event calls = calls ++ [Lug.AppCall.close]
          ↔ event.type = Lug.EventType.Close)
      ∧ (Lug.AppCall.close ∈ Sample07.Application.onEvent event []
          ↔ event.type = Lug.EventType.Close)
      ∧ (event.type ≠ Lug.EventType.Close → Sample07.Application.onEvent event calls = calls))
    ∧ ((Sample09.Application.onEvent event calls = calls ++ [Lug.AppCall.close]
          ↔ event.type = Lug.EventType.Close)
      ∧ (Lug.AppCall.close ∈ Sample09.Application.onEvent event []
          ↔ event.type = Lug.EventType.Close)
      ∧ (event.type ≠ Lug.EventType.Close → Sample09.Application.onEvent event calls = calls)) :=
  ⟨onEvent_pattern event calls _ (fun _ _ => rfl), onEvent_pattern event calls _ (fun _ _ => rfl),
    onEvent_pattern event calls _ (fun _ _ => rfl), onEvent_pattern event calls _ (fun _ _ => rfl),
    onEvent_pattern event calls _ (fun _ _ => rfl), onEvent_pattern event calls _ (fun _ _ => rfl)⟩

/-- Witness of C28 on an event of another type than `Close`, for sample_06. -/
theorem onEvent_closes_iff_close_witness :
    Sample06.Application.onEvent ⟨Lug.EventType.other 0⟩ [] = [] :=
  (onEvent_closes_iff_close ⟨Lug.EventType.other 0⟩ []).2.2.2.1.2.2 (by decide)

/-! ## The light sliders -/

theorem lightName_eq :
    "light" ++ toString (0 : Int) = "light0"
    ∧ "light" ++ toString (1 : Int) = "light1"
    ∧ "light" ++ toString (2 : Int) = "light2"
    ∧ "light" ++ toString (3 : Int) = "light3" := by
  decide

/-- The loop of `onFrame` that writes the colour of the four lights, on a
scene that has them. -/
theorem setColorLoop_eq {α : Type} (color : Vec4 α) (scene : Lug.SceneLights α)
    (c0 c1 c2 c3 : Vec4 α)
    (h0 : scene "light0" = some c0) (h1 : scene "light1" = some c1)
    (h2 : scene "light2" = some c2) (h3 : scene "light3" = some c3) :
    forBelow 4 (fun i (scene : Option (Lug.SceneLights α)) =>
        scene.bind (fun scene =>
          match scene ("light" ++ toString i) with
          | none => none
          | some _ => some (scene.set ("light" ++ toString i) color))) 0 (some scene)
      = some ((((scene.set "light0" color).set "light1" color).set "light2" color).set
          "light3" color) := by
  have h := forBelow_zero_natCast (fun i (scene : Option (Lug.SceneLights α)) =>
        scene.bind (fun scene =>
          match scene ("light" ++ toString i) with
          | none => none
          | some _ => some (scene.set ("light" ++ toString i) color))) 4 (some scene)
  rw [Nat.cast_ofNat] at h
  rw [h]
  obtain ⟨n0, n1, n2, n3⟩ := lightName_eq
  simp only [List.range_succ, List.range_zero, List.nil_append, List.cons_append,
    List.foldl_cons, List.foldl_nil, n0, n1, n2, n3, Nat.cast_zero, Nat.cast_one,
    Nat.cast_ofNat, Option.some_bind]
  simp only [n0, n1, n2, n3, h0, Option.some_bind]
  have e1 : (scene.set "light0" color) "light1" = some c1 := by
    simp [Lug.SceneLights.set, h1]
  simp only [e1, Option.some_bind]
  have e2 : ((scene.set "light0" color).set "light1" color) "light2" = some c2 := by
    simp [Lug.SceneLights.set, h2]
  simp only [e2, Option.some_bind]
  have e3 : (((scene.set "light0" color).set "light1" color).set "light2" color) "light3"
      = some c3 := by
    simp [Lug.SceneLights.set, h3]
  simp only [e3]

theorem onFrame07_eq_onFrame06 {α : Type} [DecidableEq α] [OfNat α 1] (r g b : α)
    (scene : Lug.SceneLights α) :
    Sample07.Application.onFrame r g b scene = Sample06.Application.onFrame r g b scene :=
  rfl

theorem onFrame09_eq_onFrame06 {α : Type} [DecidableEq α] [OfNat α 1] (r g b : α)
    (scene : Lug.SceneLights α) :
    Sample09.Application.onFrame r g b scene = Sample06.Application.onFrame r g b scene :=
  rfl

/-- What `onFrame` of sample_06 does on a scene that has the four lights. -/
theorem onFrame06_spec {α : Type} [DecidableEq α] [OfNat α 1] (r g b : α)
    (scene : Lug.SceneLights α) (c0 c1 c2 c3 : Vec4 α)
    (h0 : scene "light0" = some c0) (h1 : scene "light1" = some c1)
    (h2 : scene "light2" = some c2) (h3 : scene "light3" = some c3) :
    ((r ≠ c0.x ∨ g ≠ c0.y ∨ b ≠ c0.z) →
      ∃ scene', Sample06.Application.onFrame r g b scene = some scene'
        ∧ scene' "light0" = some (Vec4.mk r g b 1) ∧ scene' "light1" = some (Vec4.mk r g b 1)
        ∧ scene' "light2" = some (Vec4.mk r g b 1) ∧ scene' "light3" = some (Vec4.mk r g b 1)
        ∧ ∀ n, n ≠ "light0" → n ≠ "light1" → n ≠ "light2" → n ≠ "light3" →
            scene' n = scene n)
    ∧ ((r = c0.x ∧ g = c0.y ∧ b = c0.z) →
      Sample06.Application.onFrame r g b scene = some scene) := by
  constructor
  · intro hne
    refine ⟨(((scene.set "light0" (Vec4.mk r g b 1)).set "light1" (Vec4.mk r g b 1)).set
      "light2" (Vec4.mk r g b 1)).set "light3" (Vec4.mk r g b 1), ?_, ?_, ?_, ?_, ?_, ?_⟩
    · unfold Sample06.Application.onFrame
      rw [h0]
      simp only
      rw [if_pos hne]
      exact setColorLoop_eq (Vec4.mk r g b 1) scene c0 c1 c2 c3 h0 h1 h2 h3
    · simp [Lug.SceneLights.set]
    · simp [Lug.SceneLights.set]
    · simp [Lug.SceneLights.set]
    · simp [Lug.SceneLights.set]
    · intro n n0 n1 n2 n3
      simp [Lug.SceneLights.set, n0, n1, n2, n3]
  · rintro ⟨hr, hg, hb⟩
    unfold Sample06.Application.onFrame
    rw [h0]
    simp only
    rw [if_neg (by simp [hr, hg, hb])]

/-- C25: in `onFrame` of sample_06, sample_07 and sample_09, on a scene in
which the nodes "light0" to "light3" have a light and with `r`, `g`, `b`
the values given by the sliders: if `(r, g, b)` differs from the colour of
light0 in at least one of the red, green, blue channels, then afterwards
each of the four lights has the colour `(r, g, b, 1.0)` and no other light
has changed; if the three channels are equal to those of light0, no colour
is written and the lights of the scene are unchanged. -/
theorem light_slider_frame {α : Type} [DecidableEq α] [OfNat α 1] (r g b : α)
    (scene : Lug.SceneLights α) (c0 c1 c2 c3 : Vec4 α)
    (h0 : scene "light0" = some c0) (h1 : scene "light1" = some c1)
    (h2 : scene "light2" = some c2) (h3 : scene "light3" = some c3) :
    (((r ≠ c0.x ∨ g ≠ c0.y ∨ b ≠ c0.z) →
        ∃ scene', Sample06.Application.onFrame r g b scene = some scene'
          ∧ scene' "light0" = some (Vec4.mk r g b 1) ∧ scene' "light1" = some (Vec4.mk r g b 1)
          ∧ scene' "light2" = some (Vec4.mk r g b 1) ∧ scene' "light3" = some (Vec4.mk r g b 1)
          ∧ ∀ n, n ≠ "light0" → n ≠ "light1" → n ≠ "light2" → n ≠ "light3" →
              scene' n = scene n)
      ∧ ((r = c0.x ∧ g = c0.y ∧ b = c0.z) →
        Sample06.Application.onFrame r g b scene = some scene))
    ∧ (((r ≠ c0.x ∨ g ≠ c0.y ∨ b ≠ c0.z) →
        ∃ scene', Sample07.Application.onFrame r g b scene = some scene'
          ∧ scene' "light0" = some (Vec4.mk r g b 1) ∧ scene' "light1" = some (Vec4.mk r g b 1)
          ∧ scene' "light2" = some (Vec4.mk r g b 1) ∧ scene' "light3" = some (Vec4.mk r g b 1)
          ∧ ∀ n, n ≠ "light0" → n ≠ "light1" → n ≠ "light2" → n ≠ "light3" →
              scene' n = scene n)
      ∧ ((r = c0.x ∧ g = c0.y ∧ b = c0.z) →
        Sample07.Application.onFrame r g b scene = some scene))
    ∧ (((r ≠ c0.x ∨ g ≠ c0.y ∨ b ≠ c0.z) →
        ∃ scene', Sample09.Application.onFrame r g b scene = some scene'
          ∧ scene' "light0" = some (Vec4.mk r g b 1) ∧ scene' "light1" = some (Vec4.mk r g b 1)
          ∧ scene' "light2" = some (Vec4.mk r g b 1) ∧ scene' "light3" = some (Vec4.mk r g b 1)
          ∧ ∀ n, n ≠ "light0" → n ≠ "light1" → n ≠ "light2" → n ≠ "light3" →
              scene' n = scene n)
      ∧ ((r = c0.x ∧ g = c0.y ∧ b = c0.z) →
        Sample09.Application.onFrame r g b scene = some scene)) := by
  refine ⟨onFrame06_spec r g b scene c0 c1 c2 c3 h0 h1 h2 h3, ?_, ?_⟩
  · simp only [onFrame07_eq_onFrame06]
    exact onFrame06_spec r g b scene c0 c1 c2 c3 h0 h1 h2 h3
  · simp only [onFrame09_eq_onFrame06]
    exact onFrame06_spec r g b scene c0 c1 c2 c3 h0 h1 h2 h3

/-- Witness of C25 over the rationals: every node has a light of the colour
`(300, 300, 300, 1)` and the red slider gives `100`. -/
theorem light_slider_frame_witness :
    ∃ scene', Sample06.Application.onFrame (100 : ℚ) 300 300
        (fun _ => some (Vec4.mk 300 300 300 1)) = some scene'
      ∧ scene' "light0" = some (Vec4.mk 100 300 300 1)
      ∧ scene' "light1" = some (Vec4.mk 100 300 300 1)
      ∧ scene' "light2" = some (Vec4.mk 100 300 300 1)
      ∧ scene' "light3" = some (Vec4.mk 100 300 300 1)
      ∧ ∀ n, n ≠ "light0" → n ≠ "light1" → n ≠ "light2" → n ≠ "light3" →
          scene' n = (fun _ => some (Vec4.mk 300 300 300 1)) n :=
  (light_slider_frame (100 : ℚ) 300 300 (fun _ => some (Vec4.mk 300 300 300 1))
    (Vec4.mk 300 300 300 1) (Vec4.mk 300 300 300 1) (Vec4.mk 300 300 300 1)
    (Vec4.mk 300 300 300 1) rfl rfl rfl rfl).1.1 (Or.inl (by norm_num))

/-! ## Node names and lights after `init` -/

/-- A loop with a `return` and an invariant that depends on the counter:
from `Inv i` at the counter `i`, the loop either runs to the end and gives
`Inv bound`, or returns `false` in a state satisfying `Bad`. -/
theorem forBelowRet_inv {σ : Type} (bound start : Int) (body : Int → σ → ControlFlow σ)
    (Inv : Int → σ → Prop) (Bad : σ → Prop)
    (hbody : ∀ i s, start ≤ i → i < bound → Inv i s →
      (∃ s', body i s = ControlFlow.next s' ∧ Inv (i + 1) s')
      ∨ (∃ s', body i s = ControlFlow.ret false s' ∧ Bad s')) :
    ∀ (n : Nat) (i : Int) (s : σ), start ≤ i → i ≤ bound → bound - i ≤ n → Inv i s →
      (∃ s', forBelowRet bound body i s = ControlFlow.next s' ∧ Inv bound s')
      ∨ (∃ s', forBelowRet bound body i s = ControlFlow.ret false s' ∧ Bad s') := by
  intro n
  induction n with
  | zero =>
    intro i s h1 h2 hn hs
    have hi : i = bound := by omega
    subst hi
    rw [forBelowRet, if_neg (by omega)]
    exact Or.inl ⟨s, rfl, hs⟩
  | succ n ih =>
    intro i s h1 h2 hn hs
    by_cases hlt : i < bound
    · rw [forBelowRet, if_pos hlt]
      rcases hbody i s h1 hlt hs with ⟨s', hb, hs'⟩ | ⟨s', hb, hs'⟩
      · rw [hb]
        exact ih (i + 1) s' (by omega) (by omega) (by omega) hs'
      · rw [hb]
        exact Or.inr ⟨s', rfl, hs'⟩
    · have hi : i = bound := by omega
      subst hi
      rw [forBelowRet, if_neg hlt]
      exact Or.inl ⟨s, rfl, hs⟩

theorem take_succ_of_getElem? {β : Type} (l : List β) (k : Nat) (a : β) (h : l[k]? = some a) :
    l.take (k + 1) = l.take k ++ [a] := by
  rw [List.take_succ, h]
  rfl

namespace Sample06

theorem createdNames_append (a b : List Call) :
    createdNames (a ++ b) = createdNames a ++ createdNames b := by
  unfold createdNames
  exact List.filterMap_append _ _ _

theorem sceneLights_append (a b : List Call) :
    sceneLights (a ++ b)
      = b.foldl (fun scene c =>
          match c with
          | Call.attachLight node color => Lug.SceneLights.set scene node color
          | _ => scene) (sceneLights a) := by
  unfold sceneLights
  exact List.foldl_append _ _ _ _

theorem allNames_sphere (j : Nat) (hj : j < 49) :
    allNames[1 + j]? = some ("sphere" ++ toString (j : Int)) := by
  unfold allNames
  rw [Nat.add_comm, List.getElem?_cons_succ, List.getElem?_append_left (by simpa using hj),
    List.getElem?_map, List.getElem?_range hj]
  rfl

theorem allNames_light (j : Nat) (hj : j < 4) :
    allNames[50 + j]? = some ("light" ++ toString (j : Int)) := by
  unfold allNames
  have e : 50 + j = (49 + j) + 1 := by omega
  rw [e, List.getElem?_cons_succ, List.getElem?_append_right (by simp),
    List.getElem?_map]
  simp [List.getElem?_range hj]

end Sample06

namespace Sample06

/-- The block "Attach the spheres" creates the nodes "sphere0" to "sphere48"
in order, as far as it gets, and attaches no light. -/
theorem attachSpheres_names (e : Engine) (calls : List Call)
    (hn : createdNames calls = allNames.take 1) (hl : sceneLights calls = fun _ => none) :
    (∃ calls', Application.attachSpheres e calls = ControlFlow.next calls'
        ∧ createdNames calls' = allNames.take 50 ∧ sceneLights calls' = fun _ => none)
    ∨ (∃ calls', Application.attachSpheres e calls = ControlFlow.ret false calls'
        ∧ ∃ m, 1 ≤ m ∧ createdNames calls' = allNames.take m) := by
  unfold Application.attachSpheres
  have hrows := forBelowRet_inv 7 0
    (fun row calls =>
      forBelowRet 7 (fun col calls =>
        if (!e.material row col) = true then
          ControlFlow.ret false
            (calls ++ [Call.createSceneNode ("sphere" ++ toString (row * 7 + col)),
                Call.rootAttachChild ("sphere" ++ toString (row * 7 + col))]
              ++ [Call.materialBuild ((row : ℚ) / ((7 : Int) : ℚ))
                (if col = 0 then 0.05 else (col : ℚ) / ((7 : Int) : ℚ)) (e.material row col)])
        else
          ControlFlow.next
            (calls ++ [Call.createSceneNode ("sphere" ++ toString (row * 7 + col)),
                Call.rootAttachChild ("sphere" ++ toString (row * 7 + col))]
              ++ [Call.materialBuild ((row : ℚ) / ((7 : Int) : ℚ))
                (if col = 0 then 0.05 else (col : ℚ) / ((7 : Int) : ℚ)) (e.material row col)]
              ++ [Call.attachMeshInstance ("sphere" ++ toString (row * 7 + col))]
              ++ [Call.setPosition ("sphere" ++ toString (row * 7 + col))
                (Vec3.mk (((col - 7 / 2 : Int) : ℚ) * 2.5) (((row - 7 / 2 : Int) : ℚ) * 2.5) 0)]))
        0 calls)
    (fun row s => createdNames s = allNames.take (1 + 7 * row.toNat)
      ∧ sceneLights s = fun _ => none)
    (fun s => ∃ m, 1 ≤ m ∧ createdNames s = allNames.take m)
    ?_ 7 0 calls (le_refl 0) (by omega) (by omega) ⟨hn, hl⟩
  · rcases hrows with ⟨calls', hrun, hnames, hlights⟩ | ⟨calls', hrun, hbad⟩
    · exact Or.inl ⟨calls', hrun, hnames, hlights⟩
    · exact Or.inr ⟨calls', hrun, hbad⟩
  · intro row s hrow0 hrow7 hs
    have hcols := forBelowRet_inv 7 0
      (fun col calls =>
        if (!e.material row col) = true then
          ControlFlow.ret false
            (calls ++ [Call.createSceneNode ("sphere" ++ toString (row * 7 + col)),
                Call.rootAttachChild ("sphere" ++ toString (row * 7 + col))]
              ++ [Call.materialBuild ((row : ℚ) / ((7 : Int) : ℚ))
                (if col = 0 then 0.05 else (col : ℚ) / ((7 : Int) : ℚ)) (e.material row col)])
        else
          ControlFlow.next
            (calls ++ [Call.createSceneNode ("sphere" ++ toString (row * 7 + col)),
                Call.rootAttachChild ("sphere" ++ toString (row * 7 + col))]
              ++ [Call.materialBuild ((row : ℚ) / ((7 : Int) : ℚ))
                (if col = 0 then 0.05 else (col : ℚ) / ((7 : Int) : ℚ)) (e.material row col)]
              ++ [Call.attachMeshInstance ("sphere" ++ toString (row * 7 + col))]
              ++ [Call.setPosition ("sphere" ++ toString (row * 7 + col))
                (Vec3.mk (((col - 7 / 2 : Int) : ℚ) * 2.5) (((row - 7 / 2 : Int) : ℚ) * 2.5) 0)]))
      (fun col s => createdNames s = allNames.take (1 + 7 * row.toNat + col.toNat)
        ∧ sceneLights s = fun _ => none)
      (fun s => ∃ m, 1 ≤ m ∧ createdNames s = allNames.take m)
      ?_ 7 0 s (le_refl 0) (by omega) (by omega) ⟨by simpa using hs.1, hs.2⟩
    · rcases hcols with ⟨s', hrun, hnames, hlights⟩ | ⟨s', hrun, hbad⟩
      · refine Or.inl ⟨s', hrun, ?_, hlights⟩
        rw [hnames]
        congr 1
        omega
      · exact Or.inr ⟨s', hrun, hbad⟩
    · rintro col s hcol0 hcol7 ⟨hnames, hlights⟩
      have hname : allNames[1 + 7 * row.toNat + col.toNat]?
          = some ("sphere" ++ toString (row * 7 + col)) := by
        have h := allNames_sphere (7 * row.toNat + col.toNat) (by omega)
        have e1 : ((7 * row.toNat + col.toNat : Nat) : Int) = row * 7 + col := by omega
        rw [e1, ← Nat.add_assoc] at h
        exact h
      have htake := take_succ_of_getElem? _ _ _ hname
      by_cases hm : e.material row col = true
      · refine Or.inl ⟨_, if_neg (by simp [hm]), ?_, ?_⟩
        · simp only [createdNames_append, hnames]
          have e2 : 1 + 7 * row.toNat + (col + 1).toNat = 1 + 7 * row.toNat + col.toNat + 1 := by
            omega
          rw [e2, htake]
          simp [createdNames]
        · simp only [sceneLights_append, hlights]
          rfl
      · refine Or.inr ⟨_, if_pos (by simpa using hm), 1 + 7 * row.toNat + col.toNat + 1,
          by omega, ?_⟩
        simp only [createdNames_append, hnames]
        rw [htake]
        simp [createdNames]

/-- The loop "Attach 4 lights" creates the nodes "light0" to "light3" in
order, as far as it gets, and gives each a light of the colour
`(300, 300, 300, 1)`. -/
theorem attachLights_names (e : Engine) (calls : List Call)
    (hn : createdNames calls = allNames.take 50) :
    (∃ calls', Application.attachLights e calls = ControlFlow.next calls'
        ∧ createdNames calls' = allNames.take 54
        ∧ ∀ j : Nat, j < 4 →
            sceneLights calls' ("light" ++ toString (j : Int)) = some (Vec4.mk 300 300 300 1))
    ∨ (∃ calls', Application.attachLights e calls = ControlFlow.ret false calls'
        ∧ ∃ m, 1 ≤ m ∧ createdNames calls' = allNames.take m) := by
  unfold Application.attachLights
  have hloop := forBelowRet_inv 4 0
    (fun i calls =>
      if (!e.light i) = true then
        ControlFlow.ret false (calls ++ [Call.lightBuild (Vec4.mk 300 300 300 1) (e.light i)])
      else
        ControlFlow.next
          (calls ++ [Call.lightBuild (Vec4.mk 300 300 300 1) (e.light i)]
            ++ [Call.createSceneNode ("light" ++ toString i),
              Call.rootAttachChild ("light" ++ toString i)]
            ++ [Call.setPosition ("light" ++ toString i)
              (Application.lightPositions.getD i.toNat (Vec3.mk 0 0 0))]
            ++ [Call.attachLight ("light" ++ toString i) (Vec4.mk 300 300 300 1)]))
    (fun i s => createdNames s = allNames.take (50 + i.toNat)
      ∧ ∀ j : Nat, (j : Int) < i →
          sceneLights s ("light" ++ toString (j : Int)) = some (Vec4.mk 300 300 300 1))
    (fun s => ∃ m, 1 ≤ m ∧ createdNames s = allNames.take m)
    ?_ 4 0 calls (le_refl 0) (by omega) (by omega)
    ⟨by simpa using hn, fun j hj => absurd hj (by omega)⟩
  · rcases hloop with ⟨calls', hrun, hnames, hlights⟩ | ⟨calls', hrun, hbad⟩
    · exact Or.inl ⟨calls', hrun, hnames, fun j hj => hlights j (by omega)⟩
    · exact Or.inr ⟨calls', hrun, hbad⟩
  · rintro i s hi0 hi4 ⟨hnames, hlights⟩
    by_cases hl : e.light i = true
    · refine Or.inl ⟨_, if_neg (by simp [hl]), ?_, ?_⟩
      · have hname : allNames[50 + i.toNat]? = some ("light" ++ toString i) := by
          have h := allNames_light i.toNat (by omega)
          have e1 : ((i.toNat : Nat) : Int) = i := by omega
          rw [e1] at h
          exact h
        have e2 : 50 + (i + 1).toNat = 50 + i.toNat + 1 := by omega
        simp only [createdNames_append, hnames]
        rw [e2, take_succ_of_getElem? _ _ _ hname]
        simp [createdNames]
      · intro j hj
        simp only [sceneLights_append, List.foldl_cons, List.foldl_nil]
        unfold Lug.SceneLights.set
        by_cases hji : "light" ++ toString (j : Int) = "light" ++ toString i
        · rw [if_pos hji]
        · rw [if_neg hji]
          have hne : (j : Int) ≠ i := fun h => hji (by rw [h])
          exact hlights j (by omega)
    · refine Or.inr ⟨_, if_pos (by simpa using hl), 50 + i.toNat, by omega, ?_⟩
      simp only [createdNames_append, hnames]
      simp [createdNames]

end Sample06

namespace Sample06

theorem allNames_take_all : allNames.take 54 = allNames :=
  List.take_of_length_le (by decide)

/-- The node names and the lights at the end of `init`: after a success all
54 nodes have been created in order and the four lights have the colour
`(300, 300, 300, 1)`; after a failure the nodes created are the first ones
of the list, and "camera" is among them if it has been looked up. -/
theorem init_names (e : Engine) :
    ((Application.init e).1 = true
      ∧ createdNames (Application.init e).2 = allNames
      ∧ ∀ j : Nat, j < 4 → sceneLights (Application.init e).2 ("light" ++ toString (j : Int))
          = some (Vec4.mk 300 300 300 1))
    ∨ ((Application.init e).1 = false
      ∧ ∃ m, createdNames (Application.init e).2 = allNames.take m
        ∧ (1 ≤ m ∨ (Call.cameraLookAt "camera" ∉ (Application.init e).2
            ∧ ∀ p, Call.setPosition "camera" p ∉ (Application.init e).2))) := by
  unfold Application.init
  by_cases h1 : e.coreInit = true
  swap
  · have h1' : e.coreInit = false := by simpa using h1
    refine Or.inr ?_
    simp only [h1', Bool.not_false, if_true]
    exact ⟨trivial, 0, by simp [createdNames], Or.inr (by simp)⟩
  by_cases h2 : e.scene = true
  swap
  · have h2' : e.scene = false := by simpa using h2
    refine Or.inr ?_
    simp only [h1, h2', Bool.not_true, Bool.not_false, if_true, Bool.false_eq_true, if_false]
    exact ⟨trivial, 0, by simp [createdNames], Or.inr (by simp)⟩
  by_cases h3 : e.camera = true
  swap
  · have h3' : e.camera = false := by simpa using h3
    refine Or.inr ?_
    simp only [h1, h2, h3', Bool.not_true, Bool.not_false, if_true, Bool.false_eq_true, if_false]
    exact ⟨trivial, 0, by simp [createdNames], Or.inr (by simp)⟩
  simp only [h1, h2, h3, Bool.not_true, Bool.false_eq_true, if_false, Application.initSphereMesh]
  by_cases h4 : e.sphereMesh = true
  swap
  · have h4' : e.sphereMesh = false := by simpa using h4
    refine Or.inr ?_
    simp only [h4', Bool.not_false, if_true]
    exact ⟨trivial, 1, by simp [createdNames, allNames], Or.inl (le_refl 1)⟩
  simp only [h4, Bool.not_true, Bool.false_eq_true, if_false]
  have hn : createdNames ([Call.coreInit true] ++ [Call.sceneBuild true]
      ++ [Call.cameraBuild true]
      ++ [Call.createSceneNode "camera", Call.rootAttachChild "camera"]
      ++ [Call.attachCamera "camera"]
      ++ [Call.moverSetTargetNode "camera", Call.moverSetEventSource]
      ++ [Call.renderViewAttachCamera 0] ++ [Call.meshBuild true]) = allNames.take 1 := by
    simp [createdNames, allNames]
  have hl : sceneLights ([Call.coreInit true] ++ [Call.sceneBuild true]
      ++ [Call.cameraBuild true]
      ++ [Call.createSceneNode "camera", Call.rootAttachChild "camera"]
      ++ [Call.attachCamera "camera"]
      ++ [Call.moverSetTargetNode "camera", Call.moverSetEventSource]
      ++ [Call.renderViewAttachCamera 0] ++ [Call.meshBuild true]) = fun _ => none := rfl
  rcases attachSpheres_names e _ hn hl with ⟨calls', hrun, hnames, hlights⟩
    | ⟨calls', hrun, m, hm, hnames⟩
  swap
  · rw [hrun]
    exact Or.inr ⟨rfl, m, hnames, Or.inl hm⟩
  rw [hrun]
  simp only
  have hn2 : createdNames (calls' ++ [Call.setPosition "camera" (Vec3.mk 0 0 25),
      Call.cameraLookAt "camera"]) = allNames.take 50 := by
    rw [createdNames_append, hnames]
    simp [createdNames]
  rcases attachLights_names e _ hn2 with ⟨calls'', hrun2, hnames2, hlights2⟩
    | ⟨calls'', hrun2, m, hm, hnames2⟩
  · rw [hrun2]
    exact Or.inl ⟨rfl, by rw [hnames2, allNames_take_all], hlights2⟩
  · rw [hrun2]
    exact Or.inr ⟨rfl, m, hnames2, Or.inl hm⟩

theorem allNames_literal :
    allNames = ["camera", "sphere0", "sphere1", "sphere2", "sphere3", "sphere4", "sphere5",
      "sphere6", "sphere7", "sphere8", "sphere9", "sphere10", "sphere11", "sphere12",
      "sphere13", "sphere14", "sphere15", "sphere16", "sphere17", "sphere18", "sphere19",
      "sphere20", "sphere21", "sphere22", "sphere23", "sphere24", "sphere25", "sphere26",
      "sphere27", "sphere28", "sphere29", "sphere30", "sphere31", "sphere32", "sphere33",
      "sphere34", "sphere35", "sphere36", "sphere37", "sphere38", "sphere39", "sphere40",
      "sphere41", "sphere42", "sphere43", "sphere44", "sphere45", "sphere46", "sphere47",
      "sphere48", "light0", "light1", "light2", "light3"] := by
  decide

theorem allNames_nodup : allNames.Nodup := by
  rw [allNames_literal]
  decide

end Sample06

/-! ## The four lights stay in sync -/

/-- One `onFrame` from a scene whose four lights have one colour of alpha
`1`: it finds the four lights and leaves them with one colour of alpha
`1`. -/
theorem onFrame_keeps_sync {α : Type} [DecidableEq α] [OfNat α 1] (r g b : α)
    (scene : Lug.SceneLights α) (c : Vec4 α)
    (h0 : scene "light0" = some c) (h1 : scene "light1" = some c)
    (h2 : scene "light2" = some c) (h3 : scene "light3" = some c) (hw : c.w = 1) :
    ∃ scene', Sample06.Application.onFrame r g b scene = some scene'
      ∧ ∃ c', scene' "light0" = some c' ∧ scene' "light1" = some c'
        ∧ scene' "light2" = some c' ∧ scene' "light3" = some c' ∧ c'.w = 1 := by
  obtain ⟨hchange, hsame⟩ := onFrame06_spec r g b scene c c c c h0 h1 h2 h3
  by_cases hne : r ≠ c.x ∨ g ≠ c.y ∨ b ≠ c.z
  · obtain ⟨scene', hrun, e0, e1, e2, e3, _⟩ := hchange hne
    exact ⟨scene', hrun, Vec4.mk r g b 1, e0, e1, e2, e3, rfl⟩
  · have heq : r = c.x ∧ g = c.y ∧ b = c.z := by
      simp only [not_or, not_not] at hne
      exact hne
    exact ⟨scene, hsame heq, c, h0, h1, h2, h3, hw⟩

/-- The loop "Attach 4 lights" of sample_07, entered with any lights: it
either runs to the end and leaves the four lights with the colour
`(300, 300, 300, 1)`, or returns `false`. -/
theorem attachLights07_spec (light : Int → Bool) (before : Lug.SceneLights ℚ) :
    (∃ scene, Sample07.Application.attachLights light before = ControlFlow.next scene
        ∧ ∀ j : Nat, j < 4 → scene ("light" ++ toString (j : Int)) = some (Vec4.mk 300 300 300 1))
    ∨ (∃ scene, Sample07.Application.attachLights light before = ControlFlow.ret false scene) := by
  unfold Sample07.Application.attachLights
  have hloop := forBelowRet_inv 4 0
    (fun i (scene : Lug.SceneLights ℚ) =>
      if (!light i) = true then ControlFlow.ret false scene
      else ControlFlow.next (scene.set ("light" ++ toString i) (Vec4.mk 300 300 300 1)))
    (fun i s => ∀ j : Nat, (j : Int) < i →
      s ("light" ++ toString (j : Int)) = some (Vec4.mk 300 300 300 1))
    (fun _ => True)
    ?_ 4 0 before (le_refl 0) (by omega) (by omega)
    (fun j hj => absurd hj (by omega))
  · rcases hloop with ⟨s, hrun, hlights⟩ | ⟨s, hrun, _⟩
    · exact Or.inl ⟨s, hrun, fun j hj => hlights j (by omega)⟩
    · exact Or.inr ⟨s, hrun⟩
  · intro i s hi0 hi4 hlights
    by_cases hl : light i = true
    · refine Or.inl ⟨_, if_neg (by simp [hl]), ?_⟩
      intro j hj
      unfold Lug.SceneLights.set
      by_cases hji : "light" ++ toString (j : Int) = "light" ++ toString i
      · rw [if_pos hji]
      · rw [if_neg hji]
        have hne : (j : Int) ≠ i := fun h => hji (by rw [h])
        exact hlights j (by omega)
    · exact Or.inr ⟨_, if_pos (by simpa using hl), trivial⟩

/-- After an end of `init` of sample_07 that returned `true` the four lights
have the colour `(300, 300, 300, 1)`. -/
theorem initLights07_sync (light : Int → Bool) (before : Lug.SceneLights ℚ)
    (hok : (Sample07.Application.initLights light before).1 = true) :
    ∀ j : Nat, j < 4 → (Sample07.Application.initLights light before).2
      ("light" ++ toString (j : Int)) = some (Vec4.mk 300 300 300 1) := by
  unfold Sample07.Application.initLights at hok ⊢
  rcases attachLights07_spec light before with ⟨s, hrun, hlights⟩ | ⟨s, hrun⟩
  · rw [hrun]
    exact hlights
  · rw [hrun] at hok
    exact Bool.noConfusion hok

theorem initLights09_eq_initLights07 (light : Int → Bool) (before : Lug.SceneLights ℚ) :
    Sample09.Application.initLights light before
      = Sample07.Application.initLights light before := rfl

/-- C26: in sample_06, sample_07 and sample_09, in every state reached from
an `init` that returned `true` by any sequence of `onFrame` calls, whatever
the sliders give, the four lights light0 to light3 have one and the same
colour, its alpha component is `1`, and the next `onFrame` finds the four
lights and runs to its end. -/
theorem lights_in_sync :
    (∀ (e : Sample06.Engine) (scene : Lug.SceneLights ℚ), Sample06.Reachable e scene →
      (∃ c, scene "light0" = some c ∧ scene "light1" = some c
        ∧ scene "light2" = some c ∧ scene "light3" = some c ∧ c.w = 1)
      ∧ ∀ r g b : ℚ, ∃ scene', Sample06.Application.onFrame r g b scene = some scene')
    ∧ (∀ (light : Int → Bool) (before scene : Lug.SceneLights ℚ),
      Sample07.Reachable light before scene →
      (∃ c, scene "light0" = some c ∧ scene "light1" = some c
        ∧ scene "light2" = some c ∧ scene "light3" = some c ∧ c.w = 1)
      ∧ ∀ r g b : ℚ, ∃ scene', Sample07.Application.onFrame r g b scene = some scene')
    ∧ (∀ (light : Int → Bool) (before scene : Lug.SceneLights ℚ),
      Sample09.Reachable light before scene →
      (∃ c, scene "light0" = some c ∧ scene "light1" = some c
        ∧ scene "light2" = some c ∧ scene "light3" = some c ∧ c.w = 1)
      ∧ ∀ r g b : ℚ, ∃ scene', Sample09.Application.onFrame r g b scene = some scene') := by
  have htotal : ∀ scene : Lug.SceneLights ℚ,
      (∃ c, scene "light0" = some c ∧ scene "light1" = some c
        ∧ scene "light2" = some c ∧ scene "light3" = some c ∧ c.w = 1) →
      ∀ r g b : ℚ, ∃ scene', Sample06.Application.onFrame r g b scene = some scene' := by
    rintro scene ⟨c, h0, h1, h2, h3, hw⟩ r g b
    obtain ⟨s', hrun', _⟩ := onFrame_keeps_sync r g b scene c h0 h1 h2 h3 hw
    exact ⟨s', hrun'⟩
  have hstep : ∀ (r g b : ℚ) (scene scene' : Lug.SceneLights ℚ),
      Sample06.Application.onFrame r g b scene = some scene' →
      (∃ c, scene "light0" = some c ∧ scene "light1" = some c
        ∧ scene "light2" = some c ∧ scene "light3" = some c ∧ c.w = 1) →
      ∃ c, scene' "light0" = some c ∧ scene' "light1" = some c
        ∧ scene' "light2" = some c ∧ scene' "light3" = some c ∧ c.w = 1 := by
    rintro r g b scene scene' hrun ⟨c, h0, h1, h2, h3, hw⟩
    obtain ⟨s', hrun', hc'⟩ := onFrame_keeps_sync r g b scene c h0 h1 h2 h3 hw
    rw [hrun] at hrun'
    cases hrun'
    exact hc'
  refine ⟨?_, ?_, ?_⟩
  · intro e scene hreach
    have hinv : ∃ c, scene "light0" = some c ∧ scene "light1" = some c
        ∧ scene "light2" = some c ∧ scene "light3" = some c ∧ c.w = 1 := by
      induction hreach with
      | init hok =>
        rcases Sample06.init_names e with ⟨_, _, hlights⟩ | ⟨hfalse, _⟩
        · exact ⟨Vec4.mk 300 300 300 1, hlights 0 (by decide), hlights 1 (by decide),
            hlights 2 (by decide), hlights 3 (by decide), rfl⟩
        · rw [hok] at hfalse
          exact Bool.noConfusion hfalse
      | frame r g b scene scene' _ hrun ih => exact hstep r g b scene scene' hrun ih
    exact ⟨hinv, htotal scene hinv⟩
  · intro light before scene hreach
    have hinv : ∃ c, scene "light0" = some c ∧ scene "light1" = some c
        ∧ scene "light2" = some c ∧ scene "light3" = some c ∧ c.w = 1 := by
      induction hreach with
      | init hok =>
        have hlights := initLights07_sync light before hok
        exact ⟨Vec4.mk 300 300 300 1, hlights 0 (by decide), hlights 1 (by decide),
          hlights 2 (by decide), hlights 3 (by decide), rfl⟩
      | frame r g b scene scene' _ hrun ih =>
        rw [onFrame07_eq_onFrame06] at hrun
        exact hstep r g b scene scene' hrun ih
    refine ⟨hinv, fun r g b => ?_⟩
    rw [onFrame07_eq_onFrame06]
    exact htotal scene hinv r g b
  · intro light before scene hreach
    have hinv : ∃ c, scene "light0" = some c ∧ scene "light1" = some c
        ∧ scene "light2" = some c ∧ scene "light3" = some c ∧ c.w = 1 := by
      induction hreach with
      | init hok =>
        rw [initLights09_eq_initLights07] at hok ⊢
        have hlights := initLights07_sync light before hok
        exact ⟨Vec4.mk 300 300 300 1, hlights 0 (by decide), hlights 1 (by decide),
          hlights 2 (by decide), hlights 3 (by decide), rfl⟩
      | frame r g b scene scene' _ hrun ih =>
        rw [onFrame09_eq_onFrame06] at hrun
        exact hstep r g b scene scene' hrun ih
    refine ⟨hinv, fun r g b => ?_⟩
    rw [onFrame09_eq_onFrame06]
    exact htotal scene hinv r g b

/-- Witness of C26: the state right after an `init` of sample_06 in which
every engine call succeeds. -/
theorem lights_in_sync_witness :
    ∃ c, Sample06.sceneLights (Sample06.Application.init
          ⟨true, true, true, true, fun _ _ => true, fun _ => true⟩).2 "light0" = some c
      ∧ Sample06.sceneLights (Sample06.Application.init
          ⟨true, true, true, true, fun _ _ => true, fun _ => true⟩).2 "light1" = some c
      ∧ Sample06.sceneLights (Sample06.Application.init
          ⟨true, true, true, true, fun _ _ => true, fun _ => true⟩).2 "light2" = some c
      ∧ Sample06.sceneLights (Sample06.Application.init
          ⟨true, true, true, true, fun _ _ => true, fun _ => true⟩).2 "light3" = some c
      ∧ c.w = 1 :=
  (lights_in_sync.1 ⟨true, true, true, true, fun _ _ => true, fun _ => true⟩ _
    (Sample06.Reachable.init
      (by
        rcases Sample06.init_spec ⟨true, true, true, true, fun _ _ => true, fun _ => true⟩ with
          ⟨_, h, _⟩ | ⟨h, _⟩
        · exact h
        · exact absurd ⟨rfl, rfl, rfl, rfl, fun _ _ _ _ _ _ => rfl, fun _ _ _ => rfl⟩ h))).1

/-! ## Node names are unique -/

namespace Sample06

/-- The names of two sphere nodes are equal only if their numbers are. -/
theorem sphere_name_inj (j k : Nat) (hj : j < 49) (hk : k < 49)
    (h : "sphere" ++ toString (j : Int) = "sphere" ++ toString (k : Int)) : j = k := by
  have hlen : allNames.length = 54 := by decide
  have hj1 : 1 + j < allNames.length := by omega
  have hk1 : 1 + k < allNames.length := by omega
  have ej := allNames_sphere j hj
  have ek := allNames_sphere k hk
  rw [List.getElem?_eq_getElem hj1] at ej
  rw [List.getElem?_eq_getElem hk1] at ek
  have e : allNames[1 + j] = allNames[1 + k] := by
    rw [Option.some.inj ej, Option.some.inj ek, h]
  have := (List.Nodup.getElem_inj_iff allNames_nodup).1 e
  omega

/-- The nodes created by `init` are the first ones of the list of the 54
names, whether `init` succeeds or not. -/
theorem init_names_prefix (e : Engine) :
    ∃ m, createdNames (Application.init e).2 = allNames.take m := by
  rcases init_names e with ⟨_, hall, _⟩ | ⟨_, m, hm, _⟩
  · exact ⟨54, by rw [hall, allNames_take_all]⟩
  · exact ⟨m, hm⟩

end Sample06

/-- C27: every scene node that sample_06's `init` creates has a name of its
own.  The sphere number `row * nbColumns + col` is below 49 and two passes
of the sphere loops that give the same node name are the same pass; the 54
names "camera", "sphere0" to "sphere48", "light0" to "light3" are pairwise
distinct; the names created by any run of `init` are the first ones of
that list, hence without repetition, and all 54 when `init` returns `true`;
the lookups of "camera" in `init` and of "light0" and "light" followed by
`i`, `i < 4`, in `onFrame` name nodes that `init` has created. -/
theorem node_names_unique (e : Sample06.Engine) :
    (∀ row col row' col' : Int, 0 ≤ row → row < 7 → 0 ≤ col → col < 7 →
        0 ≤ row' → row' < 7 → 0 ≤ col' → col' < 7 →
        (0 ≤ row * 7 + col ∧ row * 7 + col < 49)
        ∧ ("sphere" ++ toString (row * 7 + col) = "sphere" ++ toString (row' * 7 + col') →
            row = row' ∧ col = col'))
    ∧ (∀ k : Int, 0 ≤ k → k < 49 →
        ∃ row col : Int, 0 ≤ row ∧ row < 7 ∧ 0 ≤ col ∧ col < 7 ∧ row * 7 + col = k)
    ∧ Sample06.allNames.length = 54
    ∧ Sample06.allNames.Nodup
    ∧ (Sample06.createdNames (Sample06.Application.init e).2).Nodup
    ∧ (∃ m, Sample06.createdNames (Sample06.Application.init e).2 = Sample06.allNames.take m)
    ∧ ((Sample06.Application.init e).1 = true →
        Sample06.createdNames (Sample06.Application.init e).2 = Sample06.allNames
        ∧ "light0" ∈ Sample06.createdNames (Sample06.Application.init e).2
        ∧ ∀ i : Int, 0 ≤ i → i < 4 →
            "light" ++ toString i ∈ Sample06.createdNames (Sample06.Application.init e).2)
    ∧ ((Sample06.Call.cameraLookAt "camera" ∈ (Sample06.Application.init e).2
          ∨ ∃ p, Sample06.Call.setPosition "camera" p ∈ (Sample06.Application.init e).2) →
        "camera" ∈ Sample06.createdNames (Sample06.Application.init e).2) := by
  refine ⟨?_, ?_, by decide, Sample06.allNames_nodup, ?_, Sample06.init_names_prefix e, ?_, ?_⟩
  · intro row col row' col' h1 h2 h3 h4 h5 h6 h7 h8
    refine ⟨⟨by omega, by omega⟩, fun h => ?_⟩
    have e1 : (((row * 7 + col).toNat : Nat) : Int) = row * 7 + col := by omega
    have e2 : (((row' * 7 + col').toNat : Nat) : Int) = row' * 7 + col' := by omega
    have hk := Sample06.sphere_name_inj (row * 7 + col).toNat (row' * 7 + col').toNat
      (by omega) (by omega) (by rw [e1, e2]; exact h)
    omega
  · intro k h1 h2
    exact ⟨k / 7, k % 7, by omega, by omega, by omega, by omega, by omega⟩
  · obtain ⟨m, hm⟩ := Sample06.init_names_prefix e
    rw [hm]
    exact List.Nodup.sublist (List.take_sublist m _) Sample06.allNames_nodup
  · intro hok
    rcases Sample06.init_names e with ⟨_, hall, _⟩ | ⟨hfalse, _⟩
    · refine ⟨hall, ?_, ?_⟩
      · rw [hall, Sample06.allNames_literal]
        decide
      · intro i hi0 hi4
        have hi : i = 0 ∨ i = 1 ∨ i = 2 ∨ i = 3 := by omega
        rw [hall, Sample06.allNames_literal]
        rcases hi with h | h | h | h <;> subst h <;> decide
    · rw [hok] at hfalse
      exact Bool.noConfusion hfalse
  · intro hlook
    rcases Sample06.init_names e with ⟨_, hall, _⟩ | ⟨_, m, hm, hcam⟩
    · rw [hall, Sample06.allNames_literal]
      decide
    · rcases hcam with h1 | ⟨hno1, hno2⟩
      · rw [hm]
        obtain ⟨n, rfl⟩ : ∃ n, m = n + 1 := ⟨m - 1, by omega⟩
        unfold Sample06.allNames
        rw [List.take_succ_cons]
        exact List.mem_cons_self _ _
      · rcases hlook with h | ⟨p, h⟩
        · exact absurd h hno1
        · exact absurd h (hno2 p)

/-- Witness of C27: an `init` of sample_06 in which every engine call
succeeds creates the 54 nodes. -/
theorem node_names_unique_witness :
    Sample06.createdNames (Sample06.Application.init
        ⟨true, true, true, true, fun _ _ => true, fun _ => true⟩).2 = Sample06.allNames :=
  ((node_names_unique ⟨true, true, true, true, fun _ _ => true, fun _ => true⟩).2.2.2.2.2.2.1
    (by
      rcases Sample06.init_spec ⟨true, true, true, true, fun _ _ => true, fun _ => true⟩ with
        ⟨_, h, _⟩ | ⟨h, _⟩
      · exact h
      · exact absurd ⟨rfl, rfl, rfl, rfl, fun _ _ _ _ _ _ => rfl, fun _ _ _ => rfl⟩ h)).1
